import Mathlib

/-!
# Productivity-Booster: collection stores, search bar and task pipeline

A shallow embedding of `internal/models/{todo,note,event}.go`,
`internal/ui/components/searchBar.go` and the sort/filter pipeline of
`internal/ui/pages/todos.go`, followed by theorems about them.

Conventions of the embedding

* Go `int` is `Int` (identities are SQLite rowids, far from the wrap-around of
  a machine word; `len(..)` is a `Nat` cast to `Int` where it meets an `int`).
* `time.Time` is an instant, an `Int` count of nanoseconds; `a.Before(b)` is
  `a < b` and `a.After(b)` is `a > b`. `*time.Time` is `Option Time`.
* A Go `error` is `Option Err` (`none` is `nil`).
* The loop nest of the sort functions is translated index by index
  (`bubbleSort`) and proved equal to a recursion on the list (`swapSort`).
* `[]*Todo` is `List Todo`. The collections only ever hold pointers obtained
  from a fresh allocation in `Load` or `Add`, so the pointers in one slice are
  pairwise distinct and a write through the pointer found by a scan is a
  change of that list position only.
* The `*sql.DB` handle is shared by all collections. It is the explicit state
  `Db`, threaded through every call; what the environment decides (whether a
  statement fails, which rowid SQLite assigns, the wall clock) is an explicit
  argument of the call.
-/

namespace ProdBooster

/-! ## Basic types -/

/-- Instants of `time.Time`, in nanoseconds since the Unix epoch. -/
abbrev Time := Int

/-- Error values; the text is the message of the Go error. -/
abbrev Err := String

/-- The largest value of Go's `int` and `int64` (64-bit platform): 2^63 - 1. -/
def MaxInt64 : Int := 9223372036854775807

/-- The smallest value of Go's `int` and `int64`: -2^63. -/
def MinInt64 : Int := -9223372036854775808

/-- The values of Go's `int` and `int64`. -/
def IsInt64 (x : Int) : Prop := MinInt64 ≤ x ∧ x ≤ MaxInt64

/-- The value Go's `int` arithmetic gives to an expression whose mathematical
value is `x`: `x` wrapped around into the range from -2^63 to 2^63 - 1. -/
def wrapInt (x : Int) : Int :=
  (x + 9223372036854775808) % 18446744073709551616 - 9223372036854775808

/-- Go `type Priority int`. -/
abbrev Priority := Int

/-- Constant `PriorityLow` (iota = 0). -/
def PriorityLow : Priority := 0

/-- Constant `PriorityMedium` (iota = 1). -/
def PriorityMedium : Priority := 1

/-- Constant `PriorityHigh` (iota = 2). -/
def PriorityHigh : Priority := 2

/-- Go `type Todo struct` of `models/todo.go`. -/
structure Todo where
  ID : Int
  Title : String
  Description : String
  Completed : Bool
  Priority : Int
  CreatedAt : Time
  DueTime : Option Time
deriving DecidableEq, Repr

/-- Go `type TodoList struct` without the `db` handle, which is threaded apart. -/
structure TodoList where
  Todos : List Todo
  Selected : Int
  NextID : Int
deriving DecidableEq, Repr

/-- Go `type Note struct` of `models/note.go`. -/
structure Note where
  ID : Int
  Title : String
  Content : String
  CreatedAt : Time
deriving DecidableEq, Repr

/-- Go `type NoteList struct` without the `db` handle. -/
structure NoteList where
  Notes : List Note
  Selected : Int
  NextID : Int
deriving DecidableEq, Repr

/-- Go `type Event struct` of `models/event.go`. -/
structure Event where
  ID : Int
  Title : String
  Content : String
  Location : String
  StartTime : Time
  EndTime : Time
deriving DecidableEq, Repr

/-- Go `type EventList struct` without the `db` handle. -/
structure EventList where
  Events : List Event
  Selected : Int
  NextID : Int
deriving DecidableEq, Repr

/-! ## Durable storage

The SQLite database behind `database/sql` is an external collaborator. It is
modelled by the three tables of `db/db.go` (the columns the models read or
write) and by the statements the models issue. -/

/-- Row of table `todos` (columns read by `TodoList.Load`). -/
structure TodoRow where
  id : Int
  title : String
  description : String
  completed : Bool
  priority : Int
  created_at : Time
  due_date : Option Time
deriving DecidableEq, Repr

/-- Row of table `notes`. -/
structure NoteRow where
  id : Int
  title : String
  content : String
  created_at : Time
deriving DecidableEq, Repr

/-- Row of table `events`. -/
structure EventRow where
  id : Int
  title : String
  description : String
  location : String
  start_time : Time
  end_time : Time
deriving DecidableEq, Repr

/-- The SQL statements passed to `db.Exec` by the three models, with their
bound arguments in the order of the `?` placeholders. -/
inductive Stmt where
  | insertTodo (title description : String) (completed : Bool) (priority : Int)
      (due_date : Option Time) (created_at : Time)
  | updateTodo (title description : String) (priority : Int) (due_date : Option Time) (id : Int)
  | deleteTodo (id : Int)
  | setTodoCompleted (completed : Bool) (id : Int)
  | insertNote (title content : String) (created_at : Time)
  | updateNote (title content : String) (id : Int)
  | deleteNote (id : Int)
  | insertEvent (title description location : String) (start_time end_time created_at : Time)
  | updateEvent (title description location : String) (start_time end_time : Time) (id : Int)
  | deleteEvent (id : Int)
deriving DecidableEq, Repr

/-- State of the database: the three tables and the statements handed to
`Exec` so far (oldest first), whether they ran or failed. -/
structure Db where
  todos : List TodoRow
  notes : List NoteRow
  events : List EventRow
  log : List Stmt
deriving DecidableEq, Repr

/-- A database with empty tables and no statement issued. -/
def Db.empty : Db := { todos := [], notes := [], events := [], log := [] }

/-- What the environment decides about one `db.Exec` call. A row identity is
a 64-bit signed integer in SQLite and an `int64` in `LastInsertId`. -/
inductive ExecOutcome where
  /-- `Exec` returns an error and the statement has no effect. -/
  | execError (e : Err)
  /-- The statement runs (an insert gets `rowid`), `LastInsertId` fails. -/
  | idError (rowid : Int) (e : Err)
  /-- The statement runs (an insert gets `rowid`), `LastInsertId` is `rowid`. -/
  | ok (rowid : Int)
deriving DecidableEq, Repr

/-- Go `sql.Result`, reduced to `LastInsertId()`. -/
structure SqlResult where
  LastInsertId : Except Err Int

/-- Effect on the tables of a statement that runs; `rowid` is the identity
SQLite assigns when the statement is an insert. -/
def Db.run (db : Db) (rowid : Int) : Stmt → Db
  | .insertTodo title description completed priority due_date created_at =>
      { db with todos := db.todos ++ [{ id := rowid, title := title, description := description,
                                        completed := completed, priority := priority,
                                        created_at := created_at, due_date := due_date }] }
  | .updateTodo title description priority due_date id =>
      { db with todos := db.todos.map fun r =>
          if r.id = id then { r with title := title, description := description,
                                     priority := priority, due_date := due_date } else r }
  | .deleteTodo id => { db with todos := db.todos.filter fun r => r.id != id }
  | .setTodoCompleted completed id =>
      { db with todos := db.todos.map fun r =>
          if r.id = id then { r with completed := completed } else r }
  | .insertNote title content created_at =>
      { db with notes := db.notes ++ [{ id := rowid, title := title, content := content,
                                        created_at := created_at }] }
  | .updateNote title content id =>
      { db with notes := db.notes.map fun r =>
          if r.id = id then { r with title := title, content := content } else r }
  | .deleteNote id => { db with notes := db.notes.filter fun r => r.id != id }
  | .insertEvent title description location start_time end_time _ =>
      { db with events := db.events ++ [{ id := rowid, title := title, description := description,
                                          location := location, start_time := start_time,
                                          end_time := end_time }] }
  | .updateEvent title description location start_time end_time id =>
      { db with events := db.events.map fun r =>
          if r.id = id then { r with title := title, description := description,
                                     location := location, start_time := start_time,
                                     end_time := end_time } else r }
  | .deleteEvent id => { db with events := db.events.filter fun r => r.id != id }

/-- Go `db.Exec(query, args...)`: the call is logged; unless the environment
makes it fail, the statement runs. -/
def Db.Exec (db : Db) (st : Stmt) : ExecOutcome → Db × Except Err SqlResult
  | .execError e => ({ db with log := db.log ++ [st] }, .error e)
  | .idError rowid e =>
      ({ db.run rowid st with log := db.log ++ [st] }, .ok { LastInsertId := .error e })
  | .ok rowid =>
      ({ db.run rowid st with log := db.log ++ [st] }, .ok { LastInsertId := .ok rowid })

/-- What the environment decides about one `db.Query` call and the cursor it
returns. -/
inductive QueryFault where
  /-- Nothing fails. -/
  | none
  /-- `Query` itself returns an error. -/
  | queryError (e : Err)
  /-- `rows.Scan` fails on the row of index `k` (no failure if there is none). -/
  | scanError (k : Nat) (e : Err)
  /-- Iteration breaks after `k` rows: `rows.Next()` is false, `rows.Err()` is `e`. -/
  | iterError (k : Nat) (e : Err)
deriving DecidableEq, Repr

/-- Go `*sql.Rows` as the consumer sees it: the outcome of `Scan` for each row
for which `Next()` is true, then the value of `rows.Err()`. -/
structure Rows (ρ : Type) where
  scans : List (Except Err ρ)
  err : Option Err

/-- Cursor over the result set `rs` under a fault. -/
def openRows {ρ : Type} (rs : List ρ) : QueryFault → Except Err (Rows ρ)
  | .none => .ok { scans := rs.map .ok, err := none }
  | .queryError e => .error e
  | .scanError k e =>
      .ok { scans := if k < rs.length then (rs.take k).map .ok ++ [.error e] else rs.map .ok,
            err := none }
  | .iterError k e => .ok { scans := (rs.take k).map .ok, err := some e }

/-- Query `SELECT ... FROM todos ORDER BY id`. -/
def Db.QueryTodos (db : Db) (f : QueryFault) : Except Err (Rows TodoRow) :=
  openRows (db.todos.insertionSort fun a b => a.id ≤ b.id) f

/-- Query `SELECT ... FROM notes ORDER BY id`. -/
def Db.QueryNotes (db : Db) (f : QueryFault) : Except Err (Rows NoteRow) :=
  openRows (db.notes.insertionSort fun a b => a.id ≤ b.id) f

/-- Query `SELECT ... FROM events ORDER BY start_time`. SQLite compares the
texts stored in the column; the rows of the model hold the instants, and the
query orders by them. The two orders agree when the texts were written with
one zone offset and a four-digit year, as the texts written through the event
form are (`time.Parse` without a zone yields UTC). Rows with equal start time
come in table order. -/
def Db.QueryEvents (db : Db) (f : QueryFault) : Except Err (Rows EventRow) :=
  openRows (db.events.insertionSort fun a b => a.start_time ≤ b.start_time) f

/-- Result of a method call on a collection: the database and the receiver
after the call, and the returned `error`. -/
structure Call (σ : Type) where
  db : Db
  self : σ
  err : Option Err

/-! ## Loops shared by the three models -/

/-- Index of the first element satisfying `p`: the `i` at which a
`for i, x := range xs { if p(x) { ...; break } }` loop enters its body. -/
def firstIndex {α : Type} (p : α → Bool) : List α → Option Nat
  | [] => none
  | x :: xs => if p x then some 0 else (firstIndex p xs).map (· + 1)

/-- The loop `for _, x := range xs { if p(x) { *x = f(*x); break } }`. -/
def updateFirst {α : Type} (p : α → Bool) (f : α → α) : List α → List α
  | [] => []
  | x :: xs => if p x then f x :: xs else x :: updateFirst p f xs

/-- Go `append(xs[:i], xs[i+1:]...)`. -/
def removeAt {α : Type} (xs : List α) (i : Nat) : List α :=
  xs.take i ++ xs.drop (i + 1)

/-- The selection adjustment of the three `Remove` methods:
`if Selected >= len && Selected > 0 { Selected-- }`. -/
def adjustSelected (selected : Int) (len : Nat) : Int :=
  if selected ≥ (len : Int) ∧ selected > 0 then selected - 1 else selected

/-! ## `models/todo.go` -/

/-- The body of `for rows.Next() { ... }` in `TodoList.Load`, over the
outcomes of the successive `Scan` calls: a failing `Scan` returns at once
(keeping what was appended so far), a scanned row is appended and raises
`NextID` when `id >= NextID`; the sum `id + 1` is computed in Go's `int` and
wraps at 2^63 - 1. -/
def TodoList.scanRows : List (Except Err TodoRow) → TodoList → TodoList × Option Err
  | [], tl => (tl, none)
  | .error e :: _, tl => (tl, some ("failed to scan todo: " ++ e))
  | .ok r :: rest, tl =>
      let todo : Todo :=
        { ID := r.id, Title := r.title, Description := r.description, Completed := r.completed,
          Priority := r.priority, CreatedAt := r.created_at, DueTime := r.due_date }
      let tl := { tl with Todos := tl.Todos ++ [todo] }
      let tl := if r.id ≥ tl.NextID then { tl with NextID := wrapInt (r.id + 1) } else tl
      TodoList.scanRows rest tl

/-- Go `func (tl *TodoList) Load() error`; returns the receiver after the
call and the error. -/
def TodoList.Load (tl : TodoList) (db : Db) (f : QueryFault) : TodoList × Option Err :=
  match db.QueryTodos f with
  | .error e => (tl, some ("failed to query todos: " ++ e))
  | .ok rows =>
      let tl := { tl with Todos := [] }
      match TodoList.scanRows rows.scans tl with
      | (tl, some e) => (tl, some e)
      | (tl, none) =>
          match rows.err with
          | some e => (tl, some ("error iterating todos: " ++ e))
          | none => (tl, none)

/-- Go `func NewTodoList(db_ *sql.DB) *TodoList`: the error of `Load` is
printed and dropped. -/
def NewTodoList (db : Db) (f : QueryFault) : TodoList :=
  (TodoList.Load { Todos := [], Selected := 0, NextID := 1 } db f).1

/-- Go `func (tl *TodoList) SelectNext()`. -/
def TodoList.SelectNext (tl : TodoList) : TodoList :=
  if tl.Selected < (tl.Todos.length : Int) - 1 then { tl with Selected := tl.Selected + 1 } else tl

/-- Go `func (tl *TodoList) SelectPrevious()`. -/
def TodoList.SelectPrevious (tl : TodoList) : TodoList :=
  if tl.Selected > 0 then { tl with Selected := tl.Selected - 1 } else tl

/-- Go `func (tl *TodoList) GetSelected() *Todo` (`none` is `nil`; a negative
index, which Go would reject at run time, also gives `none`). -/
def TodoList.GetSelected (tl : TodoList) : Option Todo :=
  if tl.Todos.length = 0 ∨ tl.Selected ≥ (tl.Todos.length : Int) then none
  else if tl.Selected < 0 then none
  else tl.Todos.get? tl.Selected.toNat

/-- Go `func (tl *TodoList) Count() int`. -/
def TodoList.Count (tl : TodoList) : Int := tl.Todos.length

/-- Go `func (tl *TodoList) Add(title, description string, priority Priority,
dueTime *time.Time) error`; `now` is the value of `time.Now()`. The sum
`int(id) + 1` is computed in Go's `int` and wraps at 2^63 - 1. -/
def TodoList.Add (tl : TodoList) (db : Db) (o : ExecOutcome) (now : Time)
    (title description : String) (priority : Priority) (dueTime : Option Time) : Call TodoList :=
  match db.Exec (.insertTodo title description false priority dueTime now) o with
  | (db, .error e) => { db := db, self := tl, err := some ("failed to add todo to database: " ++ e) }
  | (db, .ok result) =>
      match result.LastInsertId with
      | .error e => { db := db, self := tl, err := some ("failed to get last insert id: " ++ e) }
      | .ok id =>
          let todo : Todo :=
            { ID := id, Title := title, Description := description, Completed := false,
              Priority := priority, CreatedAt := now, DueTime := dueTime }
          { db := db,
            self := { tl with Todos := tl.Todos ++ [todo], NextID := wrapInt (id + 1) },
            err := none }

/-- Go `func (tl *TodoList) Update(id int, title, description string,
priority Priority, dueTime *time.Time) error`. -/
def TodoList.Update (tl : TodoList) (db : Db) (o : ExecOutcome) (id : Int)
    (title description : String) (priority : Priority) (dueTime : Option Time) : Call TodoList :=
  match db.Exec (.updateTodo title description priority dueTime id) o with
  | (db, .error e) =>
      { db := db, self := tl, err := some ("failed to update todo in database: " ++ e) }
  | (db, .ok _) =>
      let todos := updateFirst (fun todo => todo.ID == id)
        (fun todo => { todo with Title := title, Description := description,
                                 Priority := priority, DueTime := dueTime }) tl.Todos
      { db := db, self := { tl with Todos := todos }, err := none }

/-- Go `func (tl *TodoList) Remove(id int) error`. -/
def TodoList.Remove (tl : TodoList) (db : Db) (o : ExecOutcome) (id : Int) : Call TodoList :=
  match db.Exec (.deleteTodo id) o with
  | (db, .error e) =>
      { db := db, self := tl, err := some ("failed to delete todo from database: " ++ e) }
  | (db, .ok _) =>
      match firstIndex (fun todo => todo.ID == id) tl.Todos with
      | none => { db := db, self := tl, err := none }
      | some i =>
          let todos := removeAt tl.Todos i
          { db := db,
            self := { tl with Todos := todos, Selected := adjustSelected tl.Selected todos.length },
            err := none }

/-- Go `func (tl *TodoList) ToggleCompleted(id int) error`. The pointer `todo`
found by the scan is the first list element with that `ID`; the final
`todo.Completed = newStatus` writes that element. -/
def TodoList.ToggleCompleted (tl : TodoList) (db : Db) (o : ExecOutcome) (id : Int) :
    Call TodoList :=
  match tl.Todos.find? (fun t => t.ID == id) with
  | none => { db := db, self := tl, err := some ("todo with id " ++ toString id ++ " not found") }
  | some todo =>
      let newStatus := !todo.Completed
      match db.Exec (.setTodoCompleted newStatus id) o with
      | (db, .error e) =>
          { db := db, self := tl, err := some ("failed to toggle todo in database: " ++ e) }
      | (db, .ok _) =>
          let todos := updateFirst (fun t => t.ID == id)
            (fun t => { t with Completed := newStatus }) tl.Todos
          { db := db, self := { tl with Todos := todos }, err := none }

/-! ## `models/note.go` -/

/-- The body of `for rows.Next() { ... }` in `NoteList.Load`; `id + 1` is
computed in Go's `int`. -/
def NoteList.scanRows : List (Except Err NoteRow) → NoteList → NoteList × Option Err
  | [], nl => (nl, none)
  | .error e :: _, nl => (nl, some ("failed to scan note: " ++ e))
  | .ok r :: rest, nl =>
      let note : Note :=
        { ID := r.id, Title := r.title, Content := r.content, CreatedAt := r.created_at }
      let nl := { nl with Notes := nl.Notes ++ [note] }
      let nl := if r.id ≥ nl.NextID then { nl with NextID := wrapInt (r.id + 1) } else nl
      NoteList.scanRows rest nl

/-- Go `func (nl *NoteList) Load() error`. -/
def NoteList.Load (nl : NoteList) (db : Db) (f : QueryFault) : NoteList × Option Err :=
  match db.QueryNotes f with
  | .error e => (nl, some ("failed to query notes: " ++ e))
  | .ok rows =>
      let nl := { nl with Notes := [] }
      match NoteList.scanRows rows.scans nl with
      | (nl, some e) => (nl, some e)
      | (nl, none) =>
          match rows.err with
          | some e => (nl, some ("error iterating notes: " ++ e))
          | none => (nl, none)

/-- Go `func NewNoteList(db_ *sql.DB) *NoteList`. -/
def NewNoteList (db : Db) (f : QueryFault) : NoteList :=
  (NoteList.Load { Notes := [], Selected := 0, NextID := 1 } db f).1

/-- Go `func (nl *NoteList) SelectNext()`. -/
def NoteList.SelectNext (nl : NoteList) : NoteList :=
  if nl.Selected < (nl.Notes.length : Int) - 1 then { nl with Selected := nl.Selected + 1 } else nl

/-- Go `func (nl *NoteList) SelectPrev()`. -/
def NoteList.SelectPrev (nl : NoteList) : NoteList :=
  if nl.Selected > 0 then { nl with Selected := nl.Selected - 1 } else nl

/-- Go `func (nl *NoteList) GetSelected() *Note`. -/
def NoteList.GetSelected (nl : NoteList) : Option Note :=
  if nl.Notes.length = 0 ∨ nl.Selected ≥ (nl.Notes.length : Int) then none
  else if nl.Selected < 0 then none
  else nl.Notes.get? nl.Selected.toNat

/-- Go `func (nl *NoteList) Add(title, content string) error`; `int(id) + 1`
is computed in Go's `int`. -/
def NoteList.Add (nl : NoteList) (db : Db) (o : ExecOutcome) (now : Time)
    (title content : String) : Call NoteList :=
  match db.Exec (.insertNote title content now) o with
  | (db, .error e) => { db := db, self := nl, err := some ("failed to add note to database: " ++ e) }
  | (db, .ok result) =>
      match result.LastInsertId with
      | .error e => { db := db, self := nl, err := some ("failed to get last insert id: " ++ e) }
      | .ok id =>
          let note : Note := { ID := id, Title := title, Content := content, CreatedAt := now }
          { db := db,
            self := { nl with Notes := nl.Notes ++ [note], NextID := wrapInt (id + 1) },
            err := none }

/-- Go `func (nl *NoteList) Update(id int, title, content string) error`. -/
def NoteList.Update (nl : NoteList) (db : Db) (o : ExecOutcome) (id : Int)
    (title content : String) : Call NoteList :=
  match db.Exec (.updateNote title content id) o with
  | (db, .error e) =>
      { db := db, self := nl, err := some ("failed to update note in database: " ++ e) }
  | (db, .ok _) =>
      let notes := updateFirst (fun note => note.ID == id)
        (fun note => { note with Title := title, Content := content }) nl.Notes
      { db := db, self := { nl with Notes := notes }, err := none }

/-- Go `func (nl *NoteList) Remove(id int) error`. -/
def NoteList.Remove (nl : NoteList) (db : Db) (o : ExecOutcome) (id : Int) : Call NoteList :=
  match db.Exec (.deleteNote id) o with
  | (db, .error e) =>
      { db := db, self := nl, err := some ("failed to delete note from database: " ++ e) }
  | (db, .ok _) =>
      match firstIndex (fun note => note.ID == id) nl.Notes with
      | none => { db := db, self := nl, err := none }
      | some i =>
          let notes := removeAt nl.Notes i
          { db := db,
            self := { nl with Notes := notes, Selected := adjustSelected nl.Selected notes.length },
            err := none }

/-! ## `models/event.go` -/

/-- The body of `for rows.Next() { ... }` in `EventList.Load`; `id + 1` is
computed in Go's `int`. -/
def EventList.scanRows : List (Except Err EventRow) → EventList → EventList × Option Err
  | [], el => (el, none)
  | .error e :: _, el => (el, some ("failed to scan event: " ++ e))
  | .ok r :: rest, el =>
      let event : Event :=
        { ID := r.id, Title := r.title, Content := r.description, Location := r.location,
          StartTime := r.start_time, EndTime := r.end_time }
      let el := { el with Events := el.Events ++ [event] }
      let el := if r.id ≥ el.NextID then { el with NextID := wrapInt (r.id + 1) } else el
      EventList.scanRows rest el

/-- Go `func (el *EventList) Load() error`. -/
def EventList.Load (el : EventList) (db : Db) (f : QueryFault) : EventList × Option Err :=
  match db.QueryEvents f with
  | .error e => (el, some ("failed to query events: " ++ e))
  | .ok rows =>
      let el := { el with Events := [] }
      match EventList.scanRows rows.scans el with
      | (el, some e) => (el, some e)
      | (el, none) =>
          match rows.err with
          | some e => (el, some ("error iterating events: " ++ e))
          | none => (el, none)

/-- Go `func NewEventList(db_ *sql.DB) *EventList`. -/
def NewEventList (db : Db) (f : QueryFault) : EventList :=
  (EventList.Load { Events := [], Selected := 0, NextID := 1 } db f).1

/-- Go `func (el *EventList) SelectNext()`. -/
def EventList.SelectNext (el : EventList) : EventList :=
  if el.Selected < (el.Events.length : Int) - 1 then { el with Selected := el.Selected + 1 } else el

/-- Go `func (el *EventList) SelectPrev()`. -/
def EventList.SelectPrev (el : EventList) : EventList :=
  if el.Selected > 0 then { el with Selected := el.Selected - 1 } else el

/-- Go `func (el *EventList) GetSelected() *Event`. -/
def EventList.GetSelected (el : EventList) : Option Event :=
  if el.Events.length = 0 ∨ el.Selected ≥ (el.Events.length : Int) then none
  else if el.Selected < 0 then none
  else el.Events.get? el.Selected.toNat

/-- Go `func (el *EventList) Add(title, content, location string, startTime,
endTime time.Time) error`; `int(id) + 1` is computed in Go's `int`. -/
def EventList.Add (el : EventList) (db : Db) (o : ExecOutcome) (now : Time)
    (title content location : String) (startTime endTime : Time) : Call EventList :=
  match db.Exec (.insertEvent title content location startTime endTime now) o with
  | (db, .error e) =>
      { db := db, self := el, err := some ("failed to add event to database: " ++ e) }
  | (db, .ok result) =>
      match result.LastInsertId with
      | .error e => { db := db, self := el, err := some ("failed to get last insert id: " ++ e) }
      | .ok id =>
          let event : Event :=
            { ID := id, Title := title, Content := content, Location := location,
              StartTime := startTime, EndTime := endTime }
          { db := db,
            self := { el with Events := el.Events ++ [event], NextID := wrapInt (id + 1) },
            err := none }

/-- Go `func (el *EventList) Update(id int, title, content, location string,
startTime, endTime time.Time) error`. -/
def EventList.Update (el : EventList) (db : Db) (o : ExecOutcome) (id : Int)
    (title content location : String) (startTime endTime : Time) : Call EventList :=
  match db.Exec (.updateEvent title content location startTime endTime id) o with
  | (db, .error e) =>
      { db := db, self := el, err := some ("failed to update event in database: " ++ e) }
  | (db, .ok _) =>
      let events := updateFirst (fun event => event.ID == id)
        (fun event => { event with Title := title, Content := content, Location := location,
                                   StartTime := startTime, EndTime := endTime }) el.Events
      { db := db, self := { el with Events := events }, err := none }

/-- Go `func (el *EventList) Remove(id int) error`. -/
def EventList.Remove (el : EventList) (db : Db) (o : ExecOutcome) (id : Int) : Call EventList :=
  match db.Exec (.deleteEvent id) o with
  | (db, .error e) =>
      { db := db, self := el, err := some ("failed to delete event from database: " ++ e) }
  | (db, .ok _) =>
      match firstIndex (fun event => event.ID == id) el.Events with
      | none => { db := db, self := el, err := none }
      | some i =>
          let events := removeAt el.Events i
          { db := db,
            self := { el with Events := events,
                              Selected := adjustSelected el.Selected events.length },
            err := none }

/-! ## `ui/components/searchBar.go` -/

/-- Go `type FilterType int`. -/
abbrev FilterType := Int

/-- Constant `FilterNone` (iota = 0). -/
def FilterNone : FilterType := 0

/-- Constant `FilterPending`. -/
def FilterPending : FilterType := 1

/-- Constant `FilterCompleted`. -/
def FilterCompleted : FilterType := 2

/-- Constant `FilterHighPriority`. -/
def FilterHighPriority : FilterType := 3

/-- Constant `FilterMediumPriority`. -/
def FilterMediumPriority : FilterType := 4

/-- Constant `FilterLowPriority`. -/
def FilterLowPriority : FilterType := 5

/-- Constant `FilterToday`. -/
def FilterToday : FilterType := 6

/-- Constant `FilterOverdue`. -/
def FilterOverdue : FilterType := 7

/-- Go `type SearchBar struct`; `input` is the value of the text input. -/
structure SearchBar where
  input : String
  active : Bool
  query : String
  filter : FilterType
  width : Int
deriving DecidableEq, Repr

/-- Go `unicode.ToLower`: on ASCII it maps `A`..`Z` to `a`..`z` and fixes the
rest; outside ASCII it follows the Unicode case tables, here the parameter
`tbl`. -/
def unicodeToLower (tbl : Char → Char) (c : Char) : Char :=
  if c.toNat < 128 then c.toLower else tbl c

/-- Go `strings.ToLower`: `unicode.ToLower` applied to every rune. -/
def strings.ToLower (tbl : Char → Char) (s : String) : String :=
  String.mk (s.data.map (unicodeToLower tbl))

/-- Naive substring search: some suffix of the text starts with `sub`. -/
def containsRunes : List Char → List Char → Bool
  | [], sub => sub.isEmpty
  | c :: cs, sub => sub.isPrefixOf (c :: cs) || containsRunes cs sub

/-- Go `strings.Contains(s, substr)`. For valid UTF-8, a substring of bytes is
a substring of runes. -/
def strings.Contains (s substr : String) : Bool :=
  containsRunes s.data substr.data

/-- Go `func (s *SearchBar) Match(text string) bool`. -/
def SearchBar.Match (tbl : Char → Char) (s : SearchBar) (text : String) : Bool :=
  if s.query = "" then true
  else strings.Contains (strings.ToLower tbl text) (strings.ToLower tbl s.query)

/-- Go `func (s *SearchBar) GetFilter() FilterType`. -/
def SearchBar.GetFilter (s : SearchBar) : FilterType := s.filter

/-! ## The task pipeline of `ui/pages/todos.go` -/

/-- Go `time.Hour` as a `time.Duration`, in nanoseconds. -/
def Hour : Int := 3600000000000

/-- Go `func getTodoPriority(todo *models.Todo, now time.Time,
todayEnd time.Time) int`. -/
def getTodoPriority (todo : Todo) (now todayEnd : Time) : Int :=
  if todo.Completed then 0
  else
    match todo.DueTime with
    | some due =>
        if due < now then 100
        else if due < todayEnd then 90
        else if todo.Priority = PriorityHigh then 80
        else if todo.Priority = PriorityMedium then 70
        else 60
    | none =>
        if todo.Priority = PriorityHigh then 80
        else if todo.Priority = PriorityMedium then 70
        else 60

/-- Go `func shouldSwapTodos(a, b *models.Todo, now time.Time,
todayEnd time.Time) bool`. -/
def shouldSwapTodos (a b : Todo) (now todayEnd : Time) : Bool :=
  decide (getTodoPriority b now todayEnd > getTodoPriority a now todayEnd)

/-- The inner loop `for j := i + 1; j < len(xs); j++ { if swap(xs[i], xs[j])
{ xs[i], xs[j] = xs[j], xs[i] } }` of the sort functions, entered at `j` with
`steps = len(xs) - j` iterations to go. Both indices are in range whenever
the loop body runs (an index out of range, where Go would stop the program,
ends the loop here). -/
def bubbleInner {α : Type} (swap : α → α → Bool) (i : Nat) : Nat → Nat → List α → List α
  | 0, _, xs => xs
  | steps + 1, j, xs =>
      match xs.get? i, xs.get? j with
      | some a, some b =>
          bubbleInner swap i steps (j + 1) (if swap a b then (xs.set i b).set j a else xs)
      | _, _ => xs

/-- The outer loop `for i := 0; i < len(xs); i++ { inner loop }`, entered at
`i` with `steps = len(xs) - i` iterations to go. -/
def bubbleOuter {α : Type} (swap : α → α → Bool) : Nat → Nat → List α → List α
  | 0, _, xs => xs
  | steps + 1, i, xs =>
      bubbleOuter swap steps (i + 1) (bubbleInner swap i (xs.length - (i + 1)) (i + 1) xs)

/-- The "simple bubble sort" loop nest shared by `sortTodos`, `sortEvents` and
`sortNotes`, run over the whole slice; the result is the slice after the
in-place sort. -/
def bubbleSort {α : Type} (swap : α → α → Bool) (xs : List α) : List α :=
  bubbleOuter swap xs.length 0 xs

/-- Go `func sortTodos(todos []*models.Todo, now time.Time, todayEnd
time.Time)`; the result is the slice after the in-place sort. -/
def sortTodos (todos : List Todo) (now todayEnd : Time) : List Todo :=
  bubbleSort (fun a b => shouldSwapTodos a b now todayEnd) todos

/-- The `switch filter` of `TodosPage.updateListItems`: `false` where the Go
code executes `continue`. -/
def todoPassesFilter (filter : FilterType) (todo : Todo) (now todayStart todayEnd : Time) : Bool :=
  if filter = FilterPending then !todo.Completed
  else if filter = FilterCompleted then todo.Completed
  else if filter = FilterHighPriority then decide (todo.Priority = PriorityHigh)
  else if filter = FilterMediumPriority then decide (todo.Priority = PriorityMedium)
  else if filter = FilterLowPriority then decide (todo.Priority = PriorityLow)
  else if filter = FilterToday then
    match todo.DueTime with
    | none => false
    | some due => decide (due > todayStart) && decide (due < todayEnd)
  else if filter = FilterOverdue then
    match todo.DueTime with
    | none => false
    | some due => decide (due < now) && !todo.Completed
  else true

/-- Go `func (p *TodosPage) updateListItems()`: the todos handed to
`p.list.SetItems`, in display order. `now` is `time.Now()` and `todayStart` is
`time.Date(now.Year(), now.Month(), now.Day(), 0, 0, 0, 0, now.Location())`,
a computation of the `time` package. -/
def TodosPage.updateListItems (tbl : Char → Char) (tl : TodoList) (searchBar : SearchBar)
    (now todayStart : Time) : List Todo :=
  let todayEnd := todayStart + 24 * Hour
  let filteredTodos := tl.Todos.filter fun todo =>
    searchBar.Match tbl (todo.Title ++ " " ++ todo.Description)
      && todoPassesFilter searchBar.GetFilter todo now todayStart todayEnd
  sortTodos filteredTodos now todayEnd

/-! ## Reachable collections

States of a collection and the database obtained from the constructor by
successful `Add` calls in which the storage assigns an identity larger than
every identity already stored in the table. -/

/-- Task collections reachable from `NewTodoList` by successful `Add` calls. -/
inductive TodoAdds : Db → TodoList → Prop where
  | new (db : Db) (f : QueryFault) : TodoAdds db (NewTodoList db f)
  | add {db : Db} {tl : TodoList} (rowid : Int) (now : Time) (title description : String)
      (priority : Priority) (dueTime : Option Time) :
      TodoAdds db tl → (∀ r ∈ db.todos, r.id < rowid) →
      TodoAdds (tl.Add db (.ok rowid) now title description priority dueTime).db
        (tl.Add db (.ok rowid) now title description priority dueTime).self

/-- Note collections reachable from `NewNoteList` by successful `Add` calls. -/
inductive NoteAdds : Db → NoteList → Prop where
  | new (db : Db) (f : QueryFault) : NoteAdds db (NewNoteList db f)
  | add {db : Db} {nl : NoteList} (rowid : Int) (now : Time) (title content : String) :
      NoteAdds db nl → (∀ r ∈ db.notes, r.id < rowid) →
      NoteAdds (nl.Add db (.ok rowid) now title content).db
        (nl.Add db (.ok rowid) now title content).self

/-- Event collections reachable from `NewEventList` by successful `Add` calls. -/
inductive EventAdds : Db → EventList → Prop where
  | new (db : Db) (f : QueryFault) : EventAdds db (NewEventList db f)
  | add {db : Db} {el : EventList} (rowid : Int) (now : Time) (title content location : String)
      (startTime endTime : Time) :
      EventAdds db el → (∀ r ∈ db.events, r.id < rowid) →
      EventAdds (el.Add db (.ok rowid) now title content location startTime endTime).db
        (el.Add db (.ok rowid) now title content location startTime endTime).self

/-! ## Auxiliary functions for the proofs -/

/-- The inner loop of `bubbleSort` read on the cells it touches: the first
argument is the current `xs[i]`, the second is `xs[j:]`; the result is the
final `xs[i]` and the final `xs[j:]`. When the test holds the two cells are
exchanged, so the loop goes on with the old `xs[j]` at position `i` and
leaves the old `xs[i]` at position `j`. -/
def swapPass {α : Type} (swap : α → α → Bool) : α → List α → α × List α
  | x, [] => (x, [])
  | x, y :: ys =>
      if swap x y then ((swapPass swap y ys).1, x :: (swapPass swap y ys).2)
      else ((swapPass swap x ys).1, y :: (swapPass swap x ys).2)

/-- The outer loop of `bubbleSort` read on `xs[i:]`, with `n` iterations to
go: each iteration fixes `xs[i]` and goes on with `xs[i+1:]`. -/
def swapSortFrom {α : Type} (swap : α → α → Bool) : Nat → List α → List α
  | 0, xs => xs
  | _ + 1, [] => []
  | n + 1, x :: xs => (swapPass swap x xs).1 :: swapSortFrom swap n (swapPass swap x xs).2

/-- The sort as a recursion on the list; equal to `bubbleSort`. -/
def swapSort {α : Type} (swap : α → α → Bool) (xs : List α) : List α :=
  swapSortFrom swap xs.length xs

/-- The rows scanned before the first failing `Scan`. -/
def scanned {ρ : Type} : List (Except Err ρ) → List ρ
  | [] => []
  | .error _ :: _ => []
  | .ok r :: rest => r :: scanned rest

/-- The error of the first failing `Scan`, if any. -/
def firstScanError {ρ : Type} : List (Except Err ρ) → Option Err
  | [] => none
  | .error e :: _ => some e
  | .ok _ :: rest => firstScanError rest

/-- The value of `NextID` after rows with the identities `ids` were read in
that order, starting from `n`: each `id >= NextID` sets `NextID = id + 1`,
in the arithmetic of Go's `int`. -/
def raiseNextID : Int → List Int → Int
  | n, [] => n
  | n, id :: ids => raiseNextID (if id ≥ n then wrapInt (id + 1) else n) ids

/-- The `Todo` built from a scanned row in `TodoList.Load`. -/
def todoOfRow (r : TodoRow) : Todo :=
  { ID := r.id, Title := r.title, Description := r.description, Completed := r.completed,
    Priority := r.priority, CreatedAt := r.created_at, DueTime := r.due_date }

/-- The `Note` built from a scanned row in `NoteList.Load`. -/
def noteOfRow (r : NoteRow) : Note :=
  { ID := r.id, Title := r.title, Content := r.content, CreatedAt := r.created_at }

/-- The `Event` built from a scanned row in `EventList.Load`. -/
def eventOfRow (r : EventRow) : Event :=
  { ID := r.id, Title := r.title, Content := r.description, Location := r.location,
    StartTime := r.start_time, EndTime := r.end_time }

/-! ## Sample data for the concrete instances -/

/-- A stored task with identity 3. -/
def sampleTodoRow : TodoRow :=
  { id := 3, title := "Call Mom", description := "", completed := false, priority := 0,
    created_at := 0, due_date := none }

/-- A stored note with identity 3. -/
def sampleNoteRow : NoteRow := { id := 3, title := "Ideas", content := "", created_at := 0 }

/-- A stored event with identity 3. -/
def sampleEventRow : EventRow :=
  { id := 3, title := "Standup", description := "", location := "", start_time := 5,
    end_time := 6 }

/-- A database holding one row with identity 3 in each table. -/
def sampleDb : Db :=
  { todos := [sampleTodoRow], notes := [sampleNoteRow], events := [sampleEventRow], log := [] }

/-- A database holding rows 3 and 4 in each table. -/
def sampleDb2 : Db :=
  { todos := [sampleTodoRow, { sampleTodoRow with id := 4 }],
    notes := [sampleNoteRow, { sampleNoteRow with id := 4 }],
    events := [sampleEventRow, { sampleEventRow with id := 4 }], log := [] }

/-- Whether `db.Exec` returned an error. -/
def ExecOutcome.execFailed : ExecOutcome → Bool
  | .execError _ => true
  | .idError _ _ => false
  | .ok _ => false

/-- Three tasks with identities 1, 2, 3. -/
def sampleTodos : List Todo :=
  [{ ID := 1, Title := "a", Description := "", Completed := false, Priority := 1, CreatedAt := 0,
     DueTime := none },
   { ID := 2, Title := "b", Description := "", Completed := true, Priority := 2, CreatedAt := 0,
     DueTime := none },
   { ID := 3, Title := "c", Description := "", Completed := false, Priority := 0, CreatedAt := 0,
     DueTime := some 5 }]

/-- Three notes with identities 1, 2, 3. -/
def sampleNotes : List Note :=
  [{ ID := 1, Title := "a", Content := "", CreatedAt := 0 },
   { ID := 2, Title := "b", Content := "", CreatedAt := 1 },
   { ID := 3, Title := "c", Content := "", CreatedAt := 2 }]

/-- Three events with identities 1, 2, 3. -/
def sampleEvents : List Event :=
  [{ ID := 1, Title := "a", Content := "", Location := "", StartTime := 0, EndTime := 1 },
   { ID := 2, Title := "b", Content := "", Location := "", StartTime := 2, EndTime := 3 },
   { ID := 3, Title := "c", Content := "", Location := "", StartTime := 4, EndTime := 5 }]

/-- A search bar as `NewSearchBar` builds it: empty query, no filter. -/
def sampleSearchBar : SearchBar :=
  { input := "", active := false, query := "", filter := FilterNone, width := 80 }

/-- Task T1 of the sort scenario: completed. -/
def scenarioT1 : Todo :=
  { ID := 1, Title := "T1", Description := "", Completed := true, Priority := PriorityHigh,
    CreatedAt := 0, DueTime := none }

/-- Task T2 of the sort scenario at the clock `now`: incomplete, due one day
before `now`. -/
def scenarioT2 (now : Time) : Todo :=
  { ID := 2, Title := "T2", Description := "", Completed := false, Priority := PriorityLow,
    CreatedAt := 0, DueTime := some (now - 24 * Hour) }

/-- Task T3 of the sort scenario at the clock `now`: incomplete, due two hours
after `now`, of Low priority. -/
def scenarioT3 (now : Time) : Todo :=
  { ID := 3, Title := "T3", Description := "", Completed := false, Priority := PriorityLow,
    CreatedAt := 0, DueTime := some (now + 2 * Hour) }

/-- Task T4 of the sort scenario: incomplete, High priority, no due time. -/
def scenarioT4 : Todo :=
  { ID := 4, Title := "T4", Description := "", Completed := false, Priority := PriorityHigh,
    CreatedAt := 0, DueTime := none }

/-- The collection holding T1..T4 of the sort scenario, in that order. -/
def scenarioList (now : Time) : TodoList :=
  { Todos := [scenarioT1, scenarioT2 now, scenarioT3 now, scenarioT4], Selected := 0, NextID := 5 }

/-- First of two Medium tasks without due time (score 70). -/
def stabilityA : Todo :=
  { ID := 1, Title := "A", Description := "", Completed := false, Priority := PriorityMedium,
    CreatedAt := 0, DueTime := none }

/-- Second of two Medium tasks without due time (score 70). -/
def stabilityB : Todo :=
  { ID := 2, Title := "B", Description := "", Completed := false, Priority := PriorityMedium,
    CreatedAt := 0, DueTime := none }

/-- A High task without due time (score 80). -/
def stabilityC : Todo :=
  { ID := 3, Title := "C", Description := "", Completed := false, Priority := PriorityHigh,
    CreatedAt := 0, DueTime := none }

/-! ## The event and note pipelines of `ui/pages/calendar.go` and `ui/pages/notes.go` -/

/-- Go `func getEventPriority(event *models.Event, now time.Time) int`;
`todayStart` is the value of
`time.Date(now.Year(), now.Month(), now.Day(), 0, 0, 0, 0, now.Location())`. -/
def getEventPriority (event : Event) (now todayStart : Time) : Int :=
  let todayEnd := todayStart + 24 * Hour
  if event.StartTime > todayStart ∧ event.StartTime < todayEnd then 100
  else if event.StartTime > now ∧ event.StartTime < now + 7 * 24 * Hour then 90
  else if event.StartTime > now then 80
  else 50

/-- Go `func shouldSwapEvents(a, b *models.Event, now time.Time) bool`. -/
def shouldSwapEvents (a b : Event) (now todayStart : Time) : Bool :=
  let scoreA := getEventPriority a now todayStart
  let scoreB := getEventPriority b now todayStart
  if scoreA = scoreB then
    if scoreA ≥ 90 then decide (a.StartTime > b.StartTime)
    else decide (b.StartTime > a.StartTime)
  else decide (scoreB > scoreA)

/-- Go `func sortEvents(events []*models.Event)`; `now` is the value of the
`time.Now()` it calls and `todayStart` the midnight `getEventPriority` derives
from it. The result is the slice after the in-place sort. -/
def sortEvents (events : List Event) (now todayStart : Time) : List Event :=
  bubbleSort (fun a b => shouldSwapEvents a b now todayStart) events

/-- The `switch filter` of `CalendarPage.updateListItems`: `false` where the Go
code executes `continue`. -/
def eventPassesFilter (filter : FilterType) (event : Event) (now todayStart todayEnd : Time) :
    Bool :=
  if filter = FilterToday then
    decide (event.StartTime > todayStart) && decide (event.StartTime < todayEnd)
  else if filter = FilterOverdue then decide (event.StartTime < now)
  else if filter = FilterPending then decide (event.StartTime > now)
  else true

/-- Go `func (p *CalendarPage) updateListItems()`: the events handed to
`p.list.SetItems`, in display order. `now` and `todayStart` are the clock read
by `updateListItems`, `sortNow` and `sortTodayStart` the clock read by
`sortEvents`. -/
def CalendarPage.updateListItems (tbl : Char → Char) (el : EventList) (searchBar : SearchBar)
    (now todayStart sortNow sortTodayStart : Time) : List Event :=
  let todayEnd := todayStart + 24 * Hour
  let filteredEvents := el.Events.filter fun event =>
    searchBar.Match tbl (event.Title ++ " " ++ event.Content ++ " " ++ event.Location)
      && eventPassesFilter searchBar.GetFilter event now todayStart todayEnd
  sortEvents filteredEvents sortNow sortTodayStart

/-- Go `func sortNotes(notes []*models.Note)`; the result is the slice after
the in-place sort. -/
def sortNotes (notes : List Note) : List Note :=
  bubbleSort (fun a b => decide (b.CreatedAt > a.CreatedAt)) notes

/-- Go `func (p *NotesPage) updateListItems()`: the notes handed to
`p.list.SetItems`, in display order. -/
def NotesPage.updateListItems (tbl : Char → Char) (nl : NoteList) (searchBar : SearchBar) :
    List Note :=
  let filteredNotes := nl.Notes.filter fun note =>
    searchBar.Match tbl (note.Title ++ " " ++ note.Content)
  sortNotes filteredNotes

/-- An event starting at the instant `start`. -/
def eventAt (id : Int) (start : Time) : Event :=
  { ID := id, Title := "e", Content := "", Location := "", StartTime := start,
    EndTime := start + Hour }

/-! ## Messages and text inputs (Bubble Tea, Bubbles, `time`)

The terminal library is an external collaborator. A message is a key press
with the name `msg.String()` gives it, a window size, or anything else. A
text input is reduced to its value and its focus flag; what the library does
with a message sent to an input, and what `SetValue` stores, are parameters. -/

/-- Go `tea.Msg`. -/
inductive Msg where
  /-- A `tea.KeyMsg` whose `String()` is `name`. -/
  | key (name : String)
  /-- A `tea.WindowSizeMsg`. -/
  | windowSize (width height : Int)
  /-- Any other message. -/
  | other
deriving DecidableEq, Repr

/-- Go `textinput.Model` and `textarea.Model`: the value and the focus flag. -/
structure TextInput where
  value : String
  focus : Bool
deriving DecidableEq, Repr

/-- Behaviour of a text component of the library: `sanitize s` is the value
held after `SetValue(s)` (the library cleans the runes and applies the
character limit; the empty string stays empty), `update` is `Update(msg)`. -/
structure TextLib where
  sanitize : String → String
  sanitize_empty : sanitize "" = ""
  update : Msg → TextInput → TextInput

/-- Go `textinput.New()`. -/
def TextInput.New : TextInput := { value := "", focus := false }

/-- Go `Value()`. -/
def TextInput.Value (t : TextInput) : String := t.value

/-- Go `SetValue(s)`. -/
def TextInput.SetValue (lib : TextLib) (t : TextInput) (s : String) : TextInput :=
  { t with value := lib.sanitize s }

/-- Go `Focus()`. -/
def TextInput.Focus (t : TextInput) : TextInput := { t with focus := true }

/-- Go `Blur()`. -/
def TextInput.Blur (t : TextInput) : TextInput := { t with focus := false }

/-- The two functions of package `time` used by the event form, for the fixed
layout `2006-01-02 15:04`: `time.Parse(layout, s)` and `t.Format(layout)`. -/
structure TimeLib where
  Parse : String → Except Err Time
  Format : Time → String

/-- Result of `Update(msg)` on a form: the form, and the collection and
database it may have written through `Submit`. -/
structure FormStep (φ σ : Type) where
  form : φ
  list : σ
  db : Db

/-! ## `ui/components/todoForm.go` -/

/-- Go `type TodoForm struct`, without the pointer to the collection. -/
structure TodoForm where
  titleInput : TextInput
  descInput : TextInput
  priority : Priority
  focusIndex : Int
  width : Int
  height : Int
  isActive : Bool
  editMode : Bool
  editingID : Int
deriving DecidableEq, Repr

/-- Go `func NewTodoForm(todoList *models.TodoList) *TodoForm`. -/
def NewTodoForm : TodoForm :=
  { titleInput := TextInput.New.Focus, descInput := TextInput.New, priority := PriorityMedium,
    focusIndex := 0, width := 0, height := 0, isActive := false, editMode := false,
    editingID := 0 }

/-- Go `func (f *TodoForm) SetSize(width, height int)`. -/
def TodoForm.SetSize (f : TodoForm) (width height : Int) : TodoForm :=
  { f with width := width, height := height }

/-- Go `func (f *TodoForm) Activate()`. -/
def TodoForm.Activate (f : TodoForm) : TodoForm :=
  { f with isActive := true, titleInput := f.titleInput.Focus }

/-- Go `func (f *TodoForm) IsActive() bool`. -/
def TodoForm.IsActive (f : TodoForm) : Bool := f.isActive

/-- Go `func (f *TodoForm) Reset()`. -/
def TodoForm.Reset (lib : TextLib) (f : TodoForm) : TodoForm :=
  { f with titleInput := f.titleInput.SetValue lib "", descInput := f.descInput.SetValue lib "",
           priority := PriorityMedium, focusIndex := 0, editMode := false, editingID := 0 }

/-- Go `func (f *TodoForm) Deactivate()`. -/
def TodoForm.Deactivate (lib : TextLib) (f : TodoForm) : TodoForm :=
  TodoForm.Reset lib { f with isActive := false }

/-- Go `func (f *TodoForm) Submit() error`, on the collection `tl` the form
points to. -/
def TodoForm.Submit (f : TodoForm) (tl : TodoList) (db : Db) (o : ExecOutcome) (now : Time) :
    Call TodoList :=
  let title := f.titleInput.Value
  let desc := f.descInput.Value
  if title = "" then { db := db, self := tl, err := none }
  else if f.editMode then tl.Update db o f.editingID title desc f.priority none
  else tl.Add db o now title desc f.priority none

/-- Go `func (f *TodoForm) LoadForEdit(todo *models.Todo)`. -/
def TodoForm.LoadForEdit (lib : TextLib) (f : TodoForm) (todo : Todo) : TodoForm :=
  { f with editMode := true, editingID := todo.ID,
           titleInput := (f.titleInput.SetValue lib todo.Title).Focus,
           descInput := f.descInput.SetValue lib todo.Description,
           priority := todo.Priority, isActive := true }

/-- The tail of `TodoForm.Update`: the message goes to the focused input. -/
def TodoForm.forward (lib : TextLib) (f : TodoForm) (msg : Msg) : TodoForm :=
  if f.focusIndex = 0 then { f with titleInput := lib.update msg f.titleInput }
  else if f.focusIndex = 1 then { f with descInput := lib.update msg f.descInput }
  else f

/-- Go `func (f *TodoForm) Update(msg tea.Msg) (*TodoForm, tea.Cmd)`; the
returned command (cursor blinking) is dropped. `o` and `now` are what the
environment decides if the message makes the form submit. -/
def TodoForm.Update (lib : TextLib) (f : TodoForm) (tl : TodoList) (db : Db) (o : ExecOutcome)
    (now : Time) (msg : Msg) : FormStep TodoForm TodoList :=
  if !f.isActive then { form := f, list := tl, db := db }
  else
    match msg with
    | .key name =>
        if name = "esc" then
          { form := TodoForm.Reset lib { f with isActive := false }, list := tl, db := db }
        else if name = "tab" ∨ name = "shift+tab" then
          let f : TodoForm := { f with focusIndex := f.focusIndex + 1 }
          let f : TodoForm := if f.focusIndex > 2 then { f with focusIndex := 0 } else f
          let f : TodoForm :=
            { f with titleInput := f.titleInput.Blur, descInput := f.descInput.Blur }
          let f : TodoForm :=
            if f.focusIndex = 0 then { f with titleInput := f.titleInput.Focus }
            else if f.focusIndex = 1 then { f with descInput := f.descInput.Focus }
            else f
          { form := f, list := tl, db := db }
        else if name = "up" then
          let f : TodoForm :=
            if f.focusIndex = 2 ∧ f.priority < PriorityHigh then
              { f with priority := f.priority + 1 }
            else f
          { form := TodoForm.forward lib f msg, list := tl, db := db }
        else if name = "down" then
          let f : TodoForm :=
            if f.focusIndex = 2 ∧ f.priority > PriorityLow then
              { f with priority := f.priority - 1 }
            else f
          { form := TodoForm.forward lib f msg, list := tl, db := db }
        else if name = "enter" then
          if f.focusIndex = 2 then
            let c := f.Submit tl db o now
            { form := TodoForm.Reset lib { f with isActive := false }, list := c.self, db := c.db }
          else
            let f : TodoForm := { f with focusIndex := f.focusIndex + 1 }
            if f.focusIndex = 1 then
              { form := { f with descInput := f.descInput.Focus }, list := tl, db := db }
            else
              let f : TodoForm :=
                if f.focusIndex = 2 then
                  { f with titleInput := f.titleInput.Blur, descInput := f.descInput.Blur }
                else f
              { form := TodoForm.forward lib f msg, list := tl, db := db }
        else { form := TodoForm.forward lib f msg, list := tl, db := db }
    | _ => { form := TodoForm.forward lib f msg, list := tl, db := db }

/-! ## `ui/components/noteForm.go` -/

/-- Go `type NoteForm struct`, without the pointer to the collection;
`contentInput` is a `textarea.Model`. -/
structure NoteForm where
  titleInput : TextInput
  contentInput : TextInput
  focusIndex : Int
  width : Int
  height : Int
  isActive : Bool
  editMode : Bool
  editingID : Int
deriving DecidableEq, Repr

/-- Go `func NewNoteForm(noteList *models.NoteList) *NoteForm`. -/
def NewNoteForm : NoteForm :=
  { titleInput := TextInput.New.Focus, contentInput := TextInput.New.Blur, focusIndex := 0,
    width := 0, height := 0, isActive := false, editMode := false, editingID := 0 }

/-- Go `func (f *NoteForm) SetSize(width, height int)` (the size of the text
area is not part of the model). -/
def NoteForm.SetSize (f : NoteForm) (width height : Int) : NoteForm :=
  { f with width := width, height := height }

/-- Go `func (f *NoteForm) Activate()`. -/
def NoteForm.Activate (f : NoteForm) : NoteForm :=
  { f with isActive := true, titleInput := f.titleInput.Focus }

/-- Go `func (f *NoteForm) IsActive() bool`. -/
def NoteForm.IsActive (f : NoteForm) : Bool := f.isActive

/-- Go `func (f *NoteForm) Reset()`; `ti` is the text input, `ta` the text
area of the library. -/
def NoteForm.Reset (ti ta : TextLib) (f : NoteForm) : NoteForm :=
  { f with titleInput := f.titleInput.SetValue ti "",
           contentInput := f.contentInput.SetValue ta "",
           focusIndex := 0, editMode := false, editingID := 0 }

/-- Go `func (f *NoteForm) Deactivate()`. -/
def NoteForm.Deactivate (ti ta : TextLib) (f : NoteForm) : NoteForm :=
  NoteForm.Reset ti ta { f with isActive := false }

/-- Go `func (f *NoteForm) Submit() error`. -/
def NoteForm.Submit (f : NoteForm) (nl : NoteList) (db : Db) (o : ExecOutcome) (now : Time) :
    Call NoteList :=
  let title := f.titleInput.Value
  let content := f.contentInput.Value
  if title = "" then { db := db, self := nl, err := none }
  else if f.editMode then nl.Update db o f.editingID title content
  else nl.Add db o now title content

/-- Go `func (f *NoteForm) LoadForEdit(note *models.Note)`. -/
def NoteForm.LoadForEdit (ti ta : TextLib) (f : NoteForm) (note : Note) : NoteForm :=
  { f with editMode := true, editingID := note.ID,
           titleInput := (f.titleInput.SetValue ti note.Title).Focus,
           contentInput := f.contentInput.SetValue ta note.Content, isActive := true }

/-- The tail of `NoteForm.Update`: the message goes to the focused input. -/
def NoteForm.forward (ti ta : TextLib) (f : NoteForm) (msg : Msg) : NoteForm :=
  if f.focusIndex = 0 then { f with titleInput := ti.update msg f.titleInput }
  else { f with contentInput := ta.update msg f.contentInput }

/-- Go `func (f *NoteForm) Update(msg tea.Msg) (*NoteForm, tea.Cmd)`. -/
def NoteForm.Update (ti ta : TextLib) (f : NoteForm) (nl : NoteList) (db : Db) (o : ExecOutcome)
    (now : Time) (msg : Msg) : FormStep NoteForm NoteList :=
  if !f.isActive then { form := f, list := nl, db := db }
  else
    match msg with
    | .key name =>
        if name = "esc" then
          { form := NoteForm.Reset ti ta { f with isActive := false }, list := nl, db := db }
        else if name = "tab" then
          let f : NoteForm :=
            if f.focusIndex = 0 then
              { f with focusIndex := 1, titleInput := f.titleInput.Blur,
                       contentInput := f.contentInput.Focus }
            else
              { f with focusIndex := 0, contentInput := f.contentInput.Blur,
                       titleInput := f.titleInput.Focus }
          { form := f, list := nl, db := db }
        else if name = "ctrl+s" then
          let c := f.Submit nl db o now
          { form := NoteForm.Reset ti ta { f with isActive := false }, list := c.self, db := c.db }
        else { form := NoteForm.forward ti ta f msg, list := nl, db := db }
    | _ => { form := NoteForm.forward ti ta f msg, list := nl, db := db }

/-! ## `ui/components/eventForm.go` -/

/-- Go `type EventForm struct`, without the pointer to the collection. -/
structure EventForm where
  titleInput : TextInput
  descInput : TextInput
  locationInput : TextInput
  startInput : TextInput
  endInput : TextInput
  focusIndex : Int
  width : Int
  height : Int
  isActive : Bool
  editMode : Bool
  editingID : Int
deriving DecidableEq, Repr

/-- Go `func NewEventForm(eventList *models.EventList) *EventForm`. -/
def NewEventForm : EventForm :=
  { titleInput := TextInput.New.Focus, descInput := TextInput.New,
    locationInput := TextInput.New, startInput := TextInput.New, endInput := TextInput.New,
    focusIndex := 0, width := 0, height := 0, isActive := false, editMode := false,
    editingID := 0 }

/-- Go `func (f *EventForm) SetSize(width, height int)`. -/
def EventForm.SetSize (f : EventForm) (width height : Int) : EventForm :=
  { f with width := width, height := height }

/-- Go `func (f *EventForm) Activate()`. -/
def EventForm.Activate (f : EventForm) : EventForm :=
  { f with isActive := true, titleInput := f.titleInput.Focus }

/-- Go `func (f *EventForm) IsActive() bool`. -/
def EventForm.IsActive (f : EventForm) : Bool := f.isActive

/-- Go `func (f *EventForm) Reset()`. -/
def EventForm.Reset (lib : TextLib) (f : EventForm) : EventForm :=
  { f with titleInput := f.titleInput.SetValue lib "", descInput := f.descInput.SetValue lib "",
           locationInput := f.locationInput.SetValue lib "",
           startInput := f.startInput.SetValue lib "", endInput := f.endInput.SetValue lib "",
           focusIndex := 0, editMode := false, editingID := 0 }

/-- Go `func (f *EventForm) Deactivate()`. -/
def EventForm.Deactivate (lib : TextLib) (f : EventForm) : EventForm :=
  EventForm.Reset lib { f with isActive := false }

/-- Go `func (f *EventForm) Submit() error`. -/
def EventForm.Submit (tm : TimeLib) (f : EventForm) (el : EventList) (db : Db) (o : ExecOutcome)
    (now : Time) : Call EventList :=
  let title := f.titleInput.Value
  let desc := f.descInput.Value
  let location := f.locationInput.Value
  let startStr := f.startInput.Value
  let endStr := f.endInput.Value
  if title = "" ∨ startStr = "" ∨ endStr = "" then { db := db, self := el, err := none }
  else
    match tm.Parse startStr with
    | .error e => { db := db, self := el, err := some e }
    | .ok startTime =>
        match tm.Parse endStr with
        | .error e => { db := db, self := el, err := some e }
        | .ok endTime =>
            if f.editMode then el.Update db o f.editingID title desc location startTime endTime
            else el.Add db o now title desc location startTime endTime

/-- Go `func (f *EventForm) LoadForEdit(event *models.Event)`. -/
def EventForm.LoadForEdit (lib : TextLib) (tm : TimeLib) (f : EventForm) (event : Event) :
    EventForm :=
  { f with editMode := true, editingID := event.ID,
           titleInput := (f.titleInput.SetValue lib event.Title).Focus,
           descInput := f.descInput.SetValue lib event.Content,
           locationInput := f.locationInput.SetValue lib event.Location,
           startInput := f.startInput.SetValue lib (tm.Format event.StartTime),
           endInput := f.endInput.SetValue lib (tm.Format event.EndTime),
           isActive := true }

/-- The tail of `EventForm.Update`: the message goes to the focused input. -/
def EventForm.forward (lib : TextLib) (f : EventForm) (msg : Msg) : EventForm :=
  if f.focusIndex = 0 then { f with titleInput := lib.update msg f.titleInput }
  else if f.focusIndex = 1 then { f with descInput := lib.update msg f.descInput }
  else if f.focusIndex = 2 then { f with locationInput := lib.update msg f.locationInput }
  else if f.focusIndex = 3 then { f with startInput := lib.update msg f.startInput }
  else if f.focusIndex = 4 then { f with endInput := lib.update msg f.endInput }
  else f

/-- Go `func (f *EventForm) Update(msg tea.Msg) (*EventForm, tea.Cmd)`. -/
def EventForm.Update (lib : TextLib) (tm : TimeLib) (f : EventForm) (el : EventList) (db : Db)
    (o : ExecOutcome) (now : Time) (msg : Msg) : FormStep EventForm EventList :=
  if !f.isActive then { form := f, list := el, db := db }
  else
    match msg with
    | .key name =>
        if name = "esc" then
          { form := EventForm.Reset lib { f with isActive := false }, list := el, db := db }
        else if name = "tab" then
          let f : EventForm := { f with focusIndex := f.focusIndex + 1 }
          let f : EventForm := if f.focusIndex > 4 then { f with focusIndex := 0 } else f
          let f : EventForm :=
            { f with titleInput := f.titleInput.Blur, descInput := f.descInput.Blur,
                     locationInput := f.locationInput.Blur,
                     startInput := f.startInput.Blur, endInput := f.endInput.Blur }
          let f : EventForm :=
            if f.focusIndex = 0 then { f with titleInput := f.titleInput.Focus }
            else if f.focusIndex = 1 then { f with descInput := f.descInput.Focus }
            else if f.focusIndex = 2 then { f with locationInput := f.locationInput.Focus }
            else if f.focusIndex = 3 then { f with startInput := f.startInput.Focus }
            else if f.focusIndex = 4 then { f with endInput := f.endInput.Focus }
            else f
          { form := f, list := el, db := db }
        else if name = "ctrl+s" then
          let c := f.Submit tm el db o now
          { form := EventForm.Reset lib { f with isActive := false }, list := c.self, db := c.db }
        else { form := EventForm.forward lib f msg, list := el, db := db }
    | _ => { form := EventForm.forward lib f msg, list := el, db := db }

/-! ## The views: `ui/pages/*.go`

The views hold pointers to the collections they share; in the embedding a
view is its own state, and the collections are passed to and returned by the
functions that read or write them. A list component (`list.Model` of Bubbles)
is its items in display order and the index of its cursor. -/

/-- Go `list.Model`: the items and `Index()`. -/
structure ListModel (ι : Type) where
  items : List ι
  index : Int

/-- Go `list.New(items, delegate, 0, 0)`. -/
def ListModel.New {ι : Type} (items : List ι) : ListModel ι := { items := items, index := 0 }

/-- Go `SetItems(items)`, as far as the items go. -/
def ListModel.SetItems {ι : Type} (l : ListModel ι) (items : List ι) : ListModel ι :=
  { l with items := items }

/-- Go `func NewSearchBar() *SearchBar`. -/
def NewSearchBar : SearchBar :=
  { input := "", active := false, query := "", filter := FilterNone, width := 80 }

/-- Go `type TodosPage struct`, without the pointer to the collection. -/
structure TodosPage where
  form : TodoForm
  searchBar : SearchBar
  list : ListModel Todo
  width : Int
  height : Int
  sidebarWidth : Int

/-- Go `func NewTodosPage(todoList_ *models.TodoList) *TodosPage`: the view and
the collection as the constructor leaves it (`sortTodos` runs on the slice of
the collection). `now` is `time.Now()`, `todayEnd` is 23:59:59 of that day. -/
def NewTodosPage (todoList_ : TodoList) (now todayEnd : Time) : TodosPage × TodoList :=
  let todos := sortTodos todoList_.Todos now todayEnd
  ({ form := NewTodoForm, searchBar := NewSearchBar, list := ListModel.New todos,
     width := 80, height := 24, sidebarWidth := 40 },
   { todoList_ with Todos := todos })

/-- Go `func (p *TodosPage) updateListItems()` as a change of the view: the
list component receives the items computed from the collection, which is only
read (the sort runs on the fresh slice `filteredTodos`). -/
def TodosPage.doUpdateListItems (tbl : Char → Char) (p : TodosPage) (tl : TodoList)
    (now todayStart : Time) : TodosPage :=
  { p with list := p.list.SetItems (TodosPage.updateListItems tbl tl p.searchBar now todayStart) }

/-- Go `type NotesPage struct`, without the pointer to the collection. -/
structure NotesPage where
  form : NoteForm
  searchBar : SearchBar
  list : ListModel Note
  width : Int
  height : Int
  sidebarWidth : Int

/-- Go `func NewNotesPage(noteList_ *models.NoteList) *NotesPage`: the view and
the collection as the constructor leaves it. -/
def NewNotesPage (noteList_ : NoteList) : NotesPage × NoteList :=
  let notes := sortNotes noteList_.Notes
  ({ form := NewNoteForm, searchBar := NewSearchBar, list := ListModel.New notes,
     width := 80, height := 24, sidebarWidth := 40 },
   { noteList_ with Notes := notes })

/-- Go `func (p *NotesPage) updateListItems()` as a change of the view. -/
def NotesPage.doUpdateListItems (tbl : Char → Char) (p : NotesPage) (nl : NoteList) : NotesPage :=
  { p with list := p.list.SetItems (NotesPage.updateListItems tbl nl p.searchBar) }

/-- Go `type CalendarPage struct`, without the pointer to the collection. -/
structure CalendarPage where
  form : EventForm
  searchBar : SearchBar
  list : ListModel Event
  width : Int
  height : Int
  sidebarWidth : Int

/-- Go `func NewCalendarPage(eventList_ *models.EventList) *CalendarPage`: the
view and the collection as the constructor leaves it; `now` and `todayStart`
are the clock read by `sortEvents`. -/
def NewCalendarPage (eventList_ : EventList) (now todayStart : Time) :
    CalendarPage × EventList :=
  let events := sortEvents eventList_.Events now todayStart
  ({ form := NewEventForm, searchBar := NewSearchBar, list := ListModel.New events,
     width := 80, height := 24, sidebarWidth := 40 },
   { eventList_ with Events := events })

/-- Go `func (p *CalendarPage) updateListItems()` as a change of the view. -/
def CalendarPage.doUpdateListItems (tbl : Char → Char) (p : CalendarPage) (el : EventList)
    (now todayStart sortNow sortTodayStart : Time) : CalendarPage :=
  let items :=
    CalendarPage.updateListItems tbl el p.searchBar now todayStart sortNow sortTodayStart
  { p with list := p.list.SetItems items }

/-- The three collections shared by the views. -/
structure Lists where
  TodoList : TodoList
  NoteList : NoteList
  EventList : EventList

/-- The clock values read during one run of `NewDashboardPage` or
`DashboardPage.updateLists`: `now` and `todayEnd` (23:59:59 of that day) for
`sortTodos`, `eventsNow` and `eventsTodayStart` inside `sortEvents`. -/
structure DashboardClock where
  now : Time
  todayEnd : Time
  eventsNow : Time
  eventsTodayStart : Time

/-- Constant `dashboardModeNormal` (iota = 0). -/
def dashboardModeNormal : Int := 0

/-- Constant `dashboardModeQuickAddTodo`. -/
def dashboardModeQuickAddTodo : Int := 1

/-- Constant `dashboardModeQuickAddEvent`. -/
def dashboardModeQuickAddEvent : Int := 2

/-- Constant `dashboardModeQuickAddNote`. -/
def dashboardModeQuickAddNote : Int := 3

/-- Constant `focusTodos` (iota = 0). -/
def focusTodos : Int := 0

/-- Constant `focusEvents`. -/
def focusEvents : Int := 1

/-- Constant `focusNotes`. -/
def focusNotes : Int := 2

/-- Go `type DashboardPage struct`, without the pointers to the collections. -/
structure DashboardPage where
  width : Int
  height : Int
  mode : Int
  focus : Int
  todoList : ListModel Todo
  eventList : ListModel Event
  noteList : ListModel Note
  todoForm : TodoForm
  eventForm : EventForm
  noteForm : NoteForm

/-- Go `func NewDashboardPage(todoList_, noteList_, eventList_)`: the view and
the collections as the constructor leaves them (the three sorts run on the
slices of the collections). -/
def NewDashboardPage (ls : Lists) (c : DashboardClock) : DashboardPage × Lists :=
  let todos := sortTodos ls.TodoList.Todos c.now c.todayEnd
  let events := sortEvents ls.EventList.Events c.eventsNow c.eventsTodayStart
  let notes := sortNotes ls.NoteList.Notes
  ({ width := 80, height := 24, mode := dashboardModeNormal, focus := focusTodos,
     todoList := ListModel.New todos, eventList := ListModel.New events,
     noteList := ListModel.New notes, todoForm := NewTodoForm, eventForm := NewEventForm,
     noteForm := NewNoteForm },
   { TodoList := { ls.TodoList with Todos := todos },
     NoteList := { ls.NoteList with Notes := notes },
     EventList := { ls.EventList with Events := events } })

/-- Go `func (p *DashboardPage) updateLists()`: the view and the collections
as the call leaves them. -/
def DashboardPage.updateLists (p : DashboardPage) (ls : Lists) (c : DashboardClock) :
    DashboardPage × Lists :=
  let todos := sortTodos ls.TodoList.Todos c.now c.todayEnd
  let events := sortEvents ls.EventList.Events c.eventsNow c.eventsTodayStart
  let notes := sortNotes ls.NoteList.Notes
  ({ p with todoList := p.todoList.SetItems todos, eventList := p.eventList.SetItems events,
            noteList := p.noteList.SetItems notes },
   { TodoList := { ls.TodoList with Todos := todos },
     NoteList := { ls.NoteList with Notes := notes },
     EventList := { ls.EventList with Events := events } })

/-- A database whose task table holds the Medium task A (id 1) and the High
task C (id 3). -/
def orderDb : Db :=
  { todos := [{ id := 1, title := "A", description := "", completed := false,
                priority := PriorityMedium, created_at := 0, due_date := none },
              { id := 3, title := "C", description := "", completed := false,
                priority := PriorityHigh, created_at := 0, due_date := none }],
    notes := [], events := [], log := [] }

/-- A clock for the Dashboard: 10:00 of the day that starts at the instant 0. -/
def sampleDashboardClock : DashboardClock :=
  { now := 10 * Hour, todayEnd := 24 * Hour - 1000000000, eventsNow := 10 * Hour,
    eventsTodayStart := 0 }

/-- A text component that stores what it is given and, when focused, appends
the name of a one-character key. -/
def plainTextLib : TextLib :=
  { sanitize := fun s => s
    sanitize_empty := rfl
    update := fun msg t =>
      match msg with
      | .key name => if t.focus ∧ name.length = 1 then { t with value := t.value ++ name } else t
      | _ => t }

/-- A `time` library that parses the single text `2025-12-25 14:30`. -/
def sampleTimeLib : TimeLib :=
  { Parse := fun s => if s = "2025-12-25 14:30" then .ok 1766673000000000000
                      else .error "parsing time: cannot parse"
    Format := fun _ => "2025-12-25 14:30" }

/-- An active task form on its last field, in create mode, with an empty title
and a description typed in. -/
def sampleTodoForm : TodoForm :=
  { titleInput := { value := "", focus := false },
    descInput := { value := "details", focus := false },
    priority := PriorityHigh, focusIndex := 2, width := 80, height := 24, isActive := true,
    editMode := false, editingID := 0 }

/-- An active note form in edit mode with an empty title and a content typed
in. -/
def sampleNoteForm : NoteForm :=
  { titleInput := { value := "", focus := false },
    contentInput := { value := "thoughts", focus := true },
    focusIndex := 1, width := 80, height := 24, isActive := true, editMode := true,
    editingID := 2 }

/-- An active event form with a title and a start text that does not parse. -/
def sampleEventForm : EventForm :=
  { titleInput := { value := "Party", focus := false },
    descInput := { value := "", focus := false },
    locationInput := { value := "Office", focus := false },
    startInput := { value := "tomorrow", focus := true },
    endInput := { value := "2025-12-25 14:30", focus := false },
    focusIndex := 3, width := 80, height := 24, isActive := true, editMode := false,
    editingID := 0 }

/-- The sample event form with a start text that parses: title, start and end
are filled in, create mode. -/
def completeEventForm : EventForm :=
  { sampleEventForm with startInput := { value := "2025-12-25 14:30", focus := true } }

/-- The complete event form with the end field left empty. -/
def endlessEventForm : EventForm :=
  { completeEventForm with endInput := { value := "", focus := false } }

/-- The sample task form with a title typed in. -/
def completeTodoForm : TodoForm :=
  { sampleTodoForm with titleInput := { value := "Buy milk", focus := false } }

/-- The sample note form with a title typed in (edit mode, note 2). -/
def completeNoteForm : NoteForm :=
  { sampleNoteForm with titleInput := { value := "Ideas", focus := false } }

/-! ## Reachable states of the forms -/

/-- The states of a task form reachable from `NewTodoForm` through `SetSize`,
`Activate`, `LoadForEdit`, `Deactivate` and `Update`, with any message, any
collection and any answer of the database. -/
inductive TodoForm.Reachable (lib : TextLib) : TodoForm → Prop where
  | new : TodoForm.Reachable lib NewTodoForm
  | setSize {f : TodoForm} (width height : Int) :
      TodoForm.Reachable lib f → TodoForm.Reachable lib (f.SetSize width height)
  | activate {f : TodoForm} : TodoForm.Reachable lib f → TodoForm.Reachable lib f.Activate
  | loadForEdit {f : TodoForm} (todo : Todo) :
      TodoForm.Reachable lib f → TodoForm.Reachable lib (f.LoadForEdit lib todo)
  | deactivate {f : TodoForm} :
      TodoForm.Reachable lib f → TodoForm.Reachable lib (f.Deactivate lib)
  | update {f : TodoForm} (tl : TodoList) (db : Db) (o : ExecOutcome) (now : Time) (msg : Msg) :
      TodoForm.Reachable lib f → TodoForm.Reachable lib (f.Update lib tl db o now msg).form

/-- The states of a note form reachable from `NewNoteForm`. -/
inductive NoteForm.Reachable (ti ta : TextLib) : NoteForm → Prop where
  | new : NoteForm.Reachable ti ta NewNoteForm
  | setSize {f : NoteForm} (width height : Int) :
      NoteForm.Reachable ti ta f → NoteForm.Reachable ti ta (f.SetSize width height)
  | activate {f : NoteForm} : NoteForm.Reachable ti ta f → NoteForm.Reachable ti ta f.Activate
  | loadForEdit {f : NoteForm} (note : Note) :
      NoteForm.Reachable ti ta f → NoteForm.Reachable ti ta (f.LoadForEdit ti ta note)
  | deactivate {f : NoteForm} :
      NoteForm.Reachable ti ta f → NoteForm.Reachable ti ta (f.Deactivate ti ta)
  | update {f : NoteForm} (nl : NoteList) (db : Db) (o : ExecOutcome) (now : Time) (msg : Msg) :
      NoteForm.Reachable ti ta f → NoteForm.Reachable ti ta (f.Update ti ta nl db o now msg).form

/-- The states of an event form reachable from `NewEventForm`. -/
inductive EventForm.Reachable (lib : TextLib) (tm : TimeLib) : EventForm → Prop where
  | new : EventForm.Reachable lib tm NewEventForm
  | setSize {f : EventForm} (width height : Int) :
      EventForm.Reachable lib tm f → EventForm.Reachable lib tm (f.SetSize width height)
  | activate {f : EventForm} :
      EventForm.Reachable lib tm f → EventForm.Reachable lib tm f.Activate
  | loadForEdit {f : EventForm} (event : Event) :
      EventForm.Reachable lib tm f → EventForm.Reachable lib tm (f.LoadForEdit lib tm event)
  | deactivate {f : EventForm} :
      EventForm.Reachable lib tm f → EventForm.Reachable lib tm (f.Deactivate lib)
  | update {f : EventForm} (el : EventList) (db : Db) (o : ExecOutcome) (now : Time)
      (msg : Msg) :
      EventForm.Reachable lib tm f →
        EventForm.Reachable lib tm (f.Update lib tm el db o now msg).form

/-- A form at rest: create mode, focus index 0, no editing identity. -/
def TodoForm.IsClear (f : TodoForm) : Prop :=
  f.editMode = false ∧ f.editingID = 0 ∧ f.focusIndex = 0 ∧ f.titleInput.value = "" ∧
    f.descInput.value = ""

/-- A note form at rest. -/
def NoteForm.IsClear (f : NoteForm) : Prop :=
  f.editMode = false ∧ f.editingID = 0 ∧ f.focusIndex = 0 ∧ f.titleInput.value = "" ∧
    f.contentInput.value = ""

/-- An event form at rest. -/
def EventForm.IsClear (f : EventForm) : Prop :=
  f.editMode = false ∧ f.editingID = 0 ∧ f.focusIndex = 0 ∧ f.titleInput.value = "" ∧
    f.descInput.value = "" ∧ f.locationInput.value = "" ∧ f.startInput.value = "" ∧
    f.endInput.value = ""

/-- A task with a due time: `Report`, High, due at 48:00. -/
def dueTask : Todo :=
  { ID := 5, Title := "Report", Description := "quarterly", Completed := false,
    Priority := PriorityHigh, CreatedAt := 0, DueTime := some (48 * Hour) }

/-- A database whose task table holds the row of `dueTask`. -/
def dueDb : Db :=
  { todos := [{ id := 5, title := "Report", description := "quarterly", completed := false,
                priority := PriorityHigh, created_at := 0, due_date := some (48 * Hour) }],
    notes := [], events := [], log := [] }

/-! ## Events of the views: `Update` in `ui/pages/*.go`

What the environment contributes while one message is handled is collected in
a `World`: the library components, the answer of the database to the one
`Exec` call a message can cause, and the clock values read on the way. The
list items of a view are the values the entities had when the items were last
rebuilt; every code path that changes an entity rebuilds the items of the view
it runs in. Commands returned to Bubble Tea by the components (cursor
blinking) are not part of the model. -/

/-- Behaviour of `list.Model.Update(msg)` of the library with filtering
disabled: `move msg n i` is the value of `Index()` afterwards, for a list of
`n` items whose `Index()` was `i`. -/
structure ListLib where
  move : Msg → Nat → Int → Int

/-- Go `Index()`. -/
def ListModel.Index {ι : Type} (l : ListModel ι) : Int := l.index

/-- Go `Select(index)`. -/
def ListModel.Select {ι : Type} (l : ListModel ι) (index : Int) : ListModel ι :=
  { l with index := index }

/-- Go `Items()`. -/
def ListModel.Items {ι : Type} (l : ListModel ι) : List ι := l.items

/-- Go `SelectedItem()`: the item under the cursor, `nil` when the index does
not designate an item. -/
def ListModel.SelectedItem {ι : Type} (l : ListModel ι) : Option ι :=
  if l.index < 0 ∨ l.items.length = 0 ∨ (l.items.length : Int) ≤ l.index then none
  else l.items.get? l.index.toNat

/-- Go `Update(msg)` on a list component. -/
def ListModel.Update {ι : Type} (lst : ListLib) (l : ListModel ι) (msg : Msg) : ListModel ι :=
  { l with index := lst.move msg l.items.length l.index }

/-- Go `func (s *SearchBar) Activate()`. -/
def SearchBar.Activate (s : SearchBar) : SearchBar := { s with active := true }

/-- Go `func (s *SearchBar) Deactivate()`. -/
def SearchBar.Deactivate (lib : TextLib) (s : SearchBar) : SearchBar :=
  { s with active := false, query := "", input := lib.sanitize "", filter := FilterNone }

/-- Go `func (s *SearchBar) IsActive() bool`. -/
def SearchBar.IsActive (s : SearchBar) : Bool := s.active

/-- Go `func (s *SearchBar) Update(msg tea.Msg) (*SearchBar, tea.Cmd)`. The
text input of an active search bar is focused (`Activate` focuses it, and it
is blurred only where `active` is cleared). -/
def SearchBar.Update (lib : TextLib) (s : SearchBar) (msg : Msg) : SearchBar :=
  if !s.active then s
  else
    let typed : SearchBar :=
      let v := (lib.update msg { value := s.input, focus := true }).value
      { s with input := v, query := v }
    match msg with
    | .key name =>
        if name = "esc" then s.Deactivate lib
        else if name = "enter" then { s with query := s.input, active := false }
        else if name = "tab" then { s with filter := Int.tmod (s.filter + 1) 8 }
        else typed
    | _ => typed

/-- What the environment contributes while one message is handled. -/
structure World where
  /-- The text input of the library (`textinput.Model`). -/
  text : TextLib
  /-- The text area of the library (`textarea.Model`). -/
  area : TextLib
  /-- Package `time`: parsing and formatting. -/
  time : TimeLib
  /-- The list component of the library. -/
  list : ListLib
  /-- The Unicode lower-case table. -/
  tbl : Char → Char
  /-- The answer of the database to the `Exec` call of this message. -/
  exec : ExecOutcome
  /-- The value of `time.Now()` inside `Add`. -/
  addNow : Time
  /-- The values of `time.Now()` and of today's midnight in `updateListItems`. -/
  now : Time
  todayStart : Time
  /-- The values of `time.Now()` and of today's midnight inside `sortEvents`
  when `CalendarPage.updateListItems` calls it. -/
  sortNow : Time
  sortTodayStart : Time
  /-- The clock values read by `DashboardPage.updateLists`. -/
  clock : DashboardClock

/-- Result of `Update(msg)` on a view: the view, and the collection (or
collections) and database it may have written. -/
structure PageStep (π σ : Type) where
  page : π
  list : σ
  db : Db

/-- The clamp of `SetSize`: a third of the width, between 30 and 50. -/
def sidebarWidthFor (width : Int) : Int :=
  let sidebarWidth := Int.tdiv width 3
  let sidebarWidth := if sidebarWidth < 30 then 30 else sidebarWidth
  if sidebarWidth > 50 then 50 else sidebarWidth

/-- Go `func (p *TodosPage) SetSize(width, height int)` (the size of the list
component is not part of the model). -/
def TodosPage.SetSize (p : TodosPage) (width height : Int) : TodosPage :=
  { p with width := width, height := height, sidebarWidth := sidebarWidthFor width,
           form := p.form.SetSize width height }

/-- Go `func (p *TodosPage) IsFormActive() bool`. -/
def TodosPage.IsFormActive (p : TodosPage) : Bool := p.form.IsActive || p.searchBar.IsActive

/-- The tail of `Update` of the three views: the list component handles the
message and the cursor of the collection is set to its index. -/
def TodosPage.syncSelection (w : World) (s : PageStep TodosPage TodoList) (msg : Msg) :
    PageStep TodosPage TodoList :=
  let l := s.page.list.Update w.list msg
  { page := { s.page with list := l }, list := { s.list with Selected := l.Index }, db := s.db }

/-- Go `func (p *TodosPage) Update(msg tea.Msg) (Page, tea.Cmd)`, on the
collection `tl` the view points to. -/
def TodosPage.Update (w : World) (p : TodosPage) (tl : TodoList) (db : Db) (msg : Msg) :
    PageStep TodosPage TodoList :=
  if p.form.IsActive then
    let s := p.form.Update w.text tl db w.exec w.addNow msg
    let p : TodosPage := { p with form := s.form }
    if !p.form.IsActive then
      let p : TodosPage := p.doUpdateListItems w.tbl s.list w.now w.todayStart
      { page := { p with list := p.list.Select 0 }, list := s.list, db := s.db }
    else { page := p, list := s.list, db := s.db }
  else if p.searchBar.IsActive then
    let p : TodosPage := { p with searchBar := p.searchBar.Update w.text msg }
    if !p.searchBar.IsActive then
      { page := p.doUpdateListItems w.tbl tl w.now w.todayStart, list := tl, db := db }
    else { page := p, list := tl, db := db }
  else
    let same : PageStep TodosPage TodoList := { page := p, list := tl, db := db }
    match msg with
    | .key name =>
        if name = "enter" ∨ name = " " then
          match p.list.SelectedItem with
          | some todo =>
              let currentIndex := p.list.Index
              let c := tl.ToggleCompleted db w.exec todo.ID
              let p : TodosPage := p.doUpdateListItems w.tbl c.self w.now w.todayStart
              let p : TodosPage :=
                if currentIndex < (p.list.Items.length : Int) then
                  { p with list := p.list.Select currentIndex }
                else if p.list.Items.length > 0 then
                  { p with list := p.list.Select ((p.list.Items.length : Int) - 1) }
                else p
              TodosPage.syncSelection w { page := p, list := c.self, db := c.db } msg
          | none => TodosPage.syncSelection w same msg
        else if name = "n" then
          TodosPage.syncSelection w { same with page := { p with form := p.form.Activate } } msg
        else if name = "e" then
          match p.list.SelectedItem with
          | some todo =>
              TodosPage.syncSelection w
                { same with page := { p with form := p.form.LoadForEdit w.text todo } } msg
          | none => TodosPage.syncSelection w same msg
        else if name = "d" then
          match p.list.SelectedItem with
          | some todo =>
              let c := tl.Remove db w.exec todo.ID
              let p : TodosPage := p.doUpdateListItems w.tbl c.self w.now w.todayStart
              TodosPage.syncSelection w
                { page := { p with list := p.list.Select 0 }, list := c.self, db := c.db } msg
          | none => TodosPage.syncSelection w same msg
        else if name = "/" then
          TodosPage.syncSelection w
            { same with page := { p with searchBar := p.searchBar.Activate } } msg
        else TodosPage.syncSelection w same msg
    | _ => TodosPage.syncSelection w same msg
/-- Go `func (p *NotesPage) SetSize(width, height int)`. -/
def NotesPage.SetSize (p : NotesPage) (width height : Int) : NotesPage :=
  { p with width := width, height := height, sidebarWidth := sidebarWidthFor width,
           form := p.form.SetSize width height }

/-- Go `func (p *NotesPage) IsFormActive() bool`. -/
def NotesPage.IsFormActive (p : NotesPage) : Bool := p.form.IsActive || p.searchBar.IsActive

/-- The tail of `NotesPage.Update`. -/
def NotesPage.syncSelection (w : World) (s : PageStep NotesPage NoteList) (msg : Msg) :
    PageStep NotesPage NoteList :=
  let l := s.page.list.Update w.list msg
  { page := { s.page with list := l }, list := { s.list with Selected := l.Index }, db := s.db }

/-- Go `func (p *NotesPage) Update(msg tea.Msg) (Page, tea.Cmd)`. -/
def NotesPage.Update (w : World) (p : NotesPage) (nl : NoteList) (db : Db) (msg : Msg) :
    PageStep NotesPage NoteList :=
  if p.form.IsActive then
    let s := p.form.Update w.text w.area nl db w.exec w.addNow msg
    let p : NotesPage := { p with form := s.form }
    if !p.form.IsActive then
      let p : NotesPage := p.doUpdateListItems w.tbl s.list
      { page := { p with list := p.list.Select 0 }, list := s.list, db := s.db }
    else { page := p, list := s.list, db := s.db }
  else if p.searchBar.IsActive then
    let p : NotesPage := { p with searchBar := p.searchBar.Update w.text msg }
    if !p.searchBar.IsActive then
      { page := p.doUpdateListItems w.tbl nl, list := nl, db := db }
    else { page := p, list := nl, db := db }
  else
    let same : PageStep NotesPage NoteList := { page := p, list := nl, db := db }
    match msg with
    | .key name =>
        if name = "n" then
          NotesPage.syncSelection w { same with page := { p with form := p.form.Activate } } msg
        else if name = "e" then
          match p.list.SelectedItem with
          | some note =>
              NotesPage.syncSelection w
                { same with page := { p with form := p.form.LoadForEdit w.text w.area note } } msg
          | none => NotesPage.syncSelection w same msg
        else if name = "d" ∨ name = "delete" then
          match p.list.SelectedItem with
          | some note =>
              let c := nl.Remove db w.exec note.ID
              let p : NotesPage := p.doUpdateListItems w.tbl c.self
              NotesPage.syncSelection w
                { page := { p with list := p.list.Select 0 }, list := c.self, db := c.db } msg
          | none => NotesPage.syncSelection w same msg
        else if name = "/" then
          { same with page := { p with searchBar := p.searchBar.Activate } }
        else NotesPage.syncSelection w same msg
    | _ => NotesPage.syncSelection w same msg

/-- Go `func (p *CalendarPage) SetSize(width, height int)`. -/
def CalendarPage.SetSize (p : CalendarPage) (width height : Int) : CalendarPage :=
  { p with width := width, height := height, sidebarWidth := sidebarWidthFor width,
           form := p.form.SetSize width height }

/-- Go `func (p *CalendarPage) IsFormActive() bool`. -/
def CalendarPage.IsFormActive (p : CalendarPage) : Bool :=
  p.form.IsActive || p.searchBar.IsActive

/-- The tail of `CalendarPage.Update`. -/
def CalendarPage.syncSelection (w : World) (s : PageStep CalendarPage EventList) (msg : Msg) :
    PageStep CalendarPage EventList :=
  let l := s.page.list.Update w.list msg
  { page := { s.page with list := l }, list := { s.list with Selected := l.Index }, db := s.db }

/-- Go `func (p *CalendarPage) Update(msg tea.Msg) (Page, tea.Cmd)`. -/
def CalendarPage.Update (w : World) (p : CalendarPage) (el : EventList) (db : Db) (msg : Msg) :
    PageStep CalendarPage EventList :=
  if p.form.IsActive then
    let s := p.form.Update w.text w.time el db w.exec w.addNow msg
    let p : CalendarPage := { p with form := s.form }
    if !p.form.IsActive then
      let p : CalendarPage :=
        p.doUpdateListItems w.tbl s.list w.now w.todayStart w.sortNow w.sortTodayStart
      { page := { p with list := p.list.Select 0 }, list := s.list, db := s.db }
    else { page := p, list := s.list, db := s.db }
  else if p.searchBar.IsActive then
    let p : CalendarPage := { p with searchBar := p.searchBar.Update w.text msg }
    if !p.searchBar.IsActive then
      { page := p.doUpdateListItems w.tbl el w.now w.todayStart w.sortNow w.sortTodayStart,
        list := el, db := db }
    else { page := p, list := el, db := db }
  else
    let same : PageStep CalendarPage EventList := { page := p, list := el, db := db }
    match msg with
    | .key name =>
        if name = "n" then
          CalendarPage.syncSelection w { same with page := { p with form := p.form.Activate } }
            msg
        else if name = "e" then
          match p.list.SelectedItem with
          | some event =>
              CalendarPage.syncSelection w
                { same with page := { p with form := p.form.LoadForEdit w.text w.time event } }
                msg
          | none => CalendarPage.syncSelection w same msg
        else if name = "d" ∨ name = "delete" then
          match p.list.SelectedItem with
          | some event =>
              let c := el.Remove db w.exec event.ID
              let p : CalendarPage :=
                p.doUpdateListItems w.tbl c.self w.now w.todayStart w.sortNow w.sortTodayStart
              CalendarPage.syncSelection w
                { page := { p with list := p.list.Select 0 }, list := c.self, db := c.db } msg
          | none => CalendarPage.syncSelection w same msg
        else if name = "/" then
          { same with page := { p with searchBar := p.searchBar.Activate } }
        else CalendarPage.syncSelection w same msg
    | _ => CalendarPage.syncSelection w same msg

/-- Go `func (p *DashboardPage) SetSize(width, height int)`. -/
def DashboardPage.SetSize (p : DashboardPage) (width height : Int) : DashboardPage :=
  { p with width := width, height := height, todoForm := p.todoForm.SetSize width height,
           eventForm := p.eventForm.SetSize width height,
           noteForm := p.noteForm.SetSize width height }

/-- Go `func (p *DashboardPage) IsFormActive() bool`. -/
def DashboardPage.IsFormActive (p : DashboardPage) : Bool := p.mode != dashboardModeNormal

/-- The normal mode of `DashboardPage.Update`: navigation. -/
def DashboardPage.navigate (w : World) (p : DashboardPage) (msg : Msg) : DashboardPage :=
  let focused : DashboardPage :=
    if p.focus = focusTodos then { p with todoList := p.todoList.Update w.list msg }
    else if p.focus = focusEvents then { p with eventList := p.eventList.Update w.list msg }
    else if p.focus = focusNotes then { p with noteList := p.noteList.Update w.list msg }
    else p
  match msg with
  | .key name =>
      if name = "tab" then { p with focus := Int.tmod (p.focus + 1) 3 }
      else if name = "a" then
        if p.focus = focusTodos then
          { p with mode := dashboardModeQuickAddTodo, todoForm := p.todoForm.Activate }
        else if p.focus = focusEvents then
          { p with mode := dashboardModeQuickAddEvent, eventForm := p.eventForm.Activate }
        else if p.focus = focusNotes then
          { p with mode := dashboardModeQuickAddNote, noteForm := p.noteForm.Activate }
        else p
      else focused
  | _ => focused

/-- Go `func (p *DashboardPage) Update(msg tea.Msg) (Page, tea.Cmd)`, on the
three collections the view points to. -/
def DashboardPage.Update (w : World) (p : DashboardPage) (ls : Lists) (db : Db) (msg : Msg) :
    PageStep DashboardPage Lists :=
  if p.mode = dashboardModeQuickAddTodo ∧ p.todoForm.IsActive = true then
    let s := p.todoForm.Update w.text ls.TodoList db w.exec w.addNow msg
    let p : DashboardPage := { p with todoForm := s.form }
    let ls : Lists := { ls with TodoList := s.list }
    if !p.todoForm.IsActive then
      let r := DashboardPage.updateLists { p with mode := dashboardModeNormal } ls w.clock
      { page := { r.1 with todoList := r.1.todoList.Select 0 }, list := r.2, db := s.db }
    else { page := p, list := ls, db := s.db }
  else if p.mode = dashboardModeQuickAddEvent ∧ p.eventForm.IsActive = true then
    let s := p.eventForm.Update w.text w.time ls.EventList db w.exec w.addNow msg
    let p : DashboardPage := { p with eventForm := s.form }
    let ls : Lists := { ls with EventList := s.list }
    if !p.eventForm.IsActive then
      let r := DashboardPage.updateLists { p with mode := dashboardModeNormal } ls w.clock
      { page := { r.1 with eventList := r.1.eventList.Select 0 }, list := r.2, db := s.db }
    else { page := p, list := ls, db := s.db }
  else if p.mode = dashboardModeQuickAddNote ∧ p.noteForm.IsActive = true then
    let s := p.noteForm.Update w.text w.area ls.NoteList db w.exec w.addNow msg
    let p : DashboardPage := { p with noteForm := s.form }
    let ls : Lists := { ls with NoteList := s.list }
    if !p.noteForm.IsActive then
      let r := DashboardPage.updateLists { p with mode := dashboardModeNormal } ls w.clock
      { page := { r.1 with noteList := r.1.noteList.Select 0 }, list := r.2, db := s.db }
    else { page := p, list := ls, db := s.db }
  else { page := DashboardPage.navigate w p msg, list := ls, db := db }
/-! ## The router: `internal/index.go` -/

/-- Go `type PageType int` of `models/navigation.go` with its four constants,
the only values the router stores in `currentPage`. -/
inductive PageType where
  | PageDashboard
  | PageTodos
  | PageNotes
  | PageCalendar
deriving DecidableEq, Repr

/-- Go `type Instance struct`: the three collections, which the views share,
the identity of the active page and the four entries of the map `pages`. -/
structure Instance where
  todoList : TodoList
  noteList : NoteList
  eventList : EventList
  currentPage : PageType
  dashboard : DashboardPage
  todos : TodosPage
  notes : NotesPage
  calendar : CalendarPage
  width : Int
  height : Int

/-- The clock values read by the constructors of the four views. -/
structure StartClock where
  dashboard : DashboardClock
  todosNow : Time
  todosTodayEnd : Time
  calendarNow : Time
  calendarTodayStart : Time

/-- Go `func NewInstance() *Instance`; `ft`, `fn` and `fe` are what the
environment decides about the three queries of `Load`. -/
def NewInstance (db : Db) (ft fn fe : QueryFault) (c : StartClock) : Instance :=
  let ls : Lists :=
    { TodoList := NewTodoList db ft, NoteList := NewNoteList db fn,
      EventList := NewEventList db fe }
  let d := NewDashboardPage ls c.dashboard
  let t := NewTodosPage d.2.TodoList c.todosNow c.todosTodayEnd
  let n := NewNotesPage d.2.NoteList
  let e := NewCalendarPage d.2.EventList c.calendarNow c.calendarTodayStart
  { todoList := t.2, noteList := n.2, eventList := e.2, currentPage := .PageDashboard,
    dashboard := d.1, todos := t.1, notes := n.1, calendar := e.1, width := 80, height := 24 }

/-- Result of `Update(msg)` on the router: the router, the database, and
whether the router itself returned `tea.Quit`. -/
structure RouterStep where
  self : Instance
  db : Db
  quit : Bool

/-- The three collections of the router as the Dashboard receives them. -/
def Instance.lists (i : Instance) : Lists :=
  { TodoList := i.todoList, NoteList := i.noteList, EventList := i.eventList }

/-- The call `currentPage.IsFormActive()` of the router. -/
def Instance.IsFormActive (i : Instance) : Bool :=
  match i.currentPage with
  | .PageDashboard => i.dashboard.IsFormActive
  | .PageTodos => i.todos.IsFormActive
  | .PageNotes => i.notes.IsFormActive
  | .PageCalendar => i.calendar.IsFormActive

/-- The two lines `updatedPage, cmd := currentPage.Update(msg)` and
`i.pages[i.currentPage] = updatedPage` of the router. -/
def Instance.forward (w : World) (i : Instance) (db : Db) (msg : Msg) : RouterStep :=
  match i.currentPage with
  | .PageDashboard =>
      let s := i.dashboard.Update w i.lists db msg
      { self := { i with dashboard := s.page, todoList := s.list.TodoList,
                         noteList := s.list.NoteList, eventList := s.list.EventList },
        db := s.db, quit := false }
  | .PageTodos =>
      let s := i.todos.Update w i.todoList db msg
      { self := { i with todos := s.page, todoList := s.list }, db := s.db, quit := false }
  | .PageNotes =>
      let s := i.notes.Update w i.noteList db msg
      { self := { i with notes := s.page, noteList := s.list }, db := s.db, quit := false }
  | .PageCalendar =>
      let s := i.calendar.Update w i.eventList db msg
      { self := { i with calendar := s.page, eventList := s.list }, db := s.db, quit := false }

/-- Go `func (i *Instance) Update(msg tea.Msg) (tea.Model, tea.Cmd)`. -/
def Instance.Update (w : World) (i : Instance) (db : Db) (msg : Msg) : RouterStep :=
  match msg with
  | .windowSize width height =>
      { self := { i with width := width, height := height,
                         dashboard := i.dashboard.SetSize width height,
                         todos := i.todos.SetSize width height,
                         notes := i.notes.SetSize width height,
                         calendar := i.calendar.SetSize width height },
        db := db, quit := false }
  | .key name =>
      if i.IsFormActive then i.forward w db msg
      else if name = "q" then { self := i, db := db, quit := true }
      else if name = "UP" ∨ name = "DOWN" then { self := i, db := db, quit := false }
      else if name = "1" then
        { self := { i with currentPage := .PageDashboard }, db := db, quit := false }
      else if name = "2" then
        { self := { i with currentPage := .PageTodos }, db := db, quit := false }
      else if name = "3" then
        { self := { i with currentPage := .PageNotes }, db := db, quit := false }
      else if name = "4" then
        { self := { i with currentPage := .PageCalendar }, db := db, quit := false }
      else i.forward w db msg
  | .other => { self := i, db := db, quit := false }

/-- The states of the Dashboard reachable from its constructor through
`SetSize` and `Update`, with any message, any state of the collections and any
contribution of the environment. -/
inductive DashboardPage.Reachable : DashboardPage → Prop where
  | new (ls : Lists) (c : DashboardClock) : DashboardPage.Reachable (NewDashboardPage ls c).1
  | setSize {p : DashboardPage} (width height : Int) :
      DashboardPage.Reachable p → DashboardPage.Reachable (p.SetSize width height)
  | update {p : DashboardPage} (w : World) (ls : Lists) (db : Db) (msg : Msg) :
      DashboardPage.Reachable p → DashboardPage.Reachable (p.Update w ls db msg).page

/-- A list component that moves its cursor down on `down` or `j` and up on
`up` or `k`, within the items. -/
def plainListLib : ListLib :=
  { move := fun msg n i =>
      match msg with
      | .key name =>
          if (name = "down" ∨ name = "j") ∧ i + 1 < (n : Int) then i + 1
          else if (name = "up" ∨ name = "k") ∧ i > 0 then i - 1
          else i
      | _ => i }

/-- A world for the concrete runs: the plain components, a database that
answers every `Exec` with row identity 7, and the clock at 10:00 of the day
that starts at the instant 0. -/
def sampleWorld : World :=
  { text := plainTextLib, area := plainTextLib, time := sampleTimeLib, list := plainListLib,
    tbl := id, exec := .ok 7, addNow := 10 * Hour, now := 10 * Hour, todayStart := 0,
    sortNow := 10 * Hour, sortTodayStart := 0, clock := sampleDashboardClock }

/-- The clock of the constructors at 10:00 of the day that starts at 0. -/
def sampleStartClock : StartClock :=
  { dashboard := sampleDashboardClock, todosNow := 10 * Hour,
    todosTodayEnd := 24 * Hour - 1000000000, calendarNow := 10 * Hour, calendarTodayStart := 0 }

/-- The router fed the messages of a list, oldest first, in the same world,
until it returns `tea.Quit`. -/
def Instance.run (w : World) : Instance → Db → List Msg → RouterStep
  | i, db, [] => { self := i, db := db, quit := false }
  | i, db, msg :: rest =>
      let s := i.Update w db msg
      if s.quit then s else Instance.run w s.self s.db rest

/-- The application started on the database that holds the tasks A and C. -/
def startInstance : Instance := NewInstance orderDb .none .none .none sampleStartClock

/-- The application after the keys `2` (Tasks view) and `n` (new task): the
task form is open. -/
def formOpenInstance : Instance :=
  (Instance.run sampleWorld startInstance orderDb [.key "2", .key "n"]).self

/-- The mode of the Dashboard agrees with its forms: each quick-add mode is
on exactly when its form is active, and the mode is one of the four. -/
def DashboardPage.ModeMatchesForms (p : DashboardPage) : Prop :=
  (p.mode = dashboardModeQuickAddTodo ↔ p.todoForm.isActive = true) ∧
  (p.mode = dashboardModeQuickAddEvent ↔ p.eventForm.isActive = true) ∧
  (p.mode = dashboardModeQuickAddNote ↔ p.noteForm.isActive = true) ∧
  (p.mode = dashboardModeNormal ∨ p.mode = dashboardModeQuickAddTodo ∨
    p.mode = dashboardModeQuickAddEvent ∨ p.mode = dashboardModeQuickAddNote)

/-- The three collections loaded from the database that holds the tasks A and
C. -/
def startLists : Lists :=
  { TodoList := NewTodoList orderDb .none, NoteList := NewNoteList orderDb .none,
    EventList := NewEventList orderDb .none }

/-- The task C of the sample database, completed. -/
def toggledC : Todo := { stabilityC with Completed := true }

/-- The application started on an empty database. -/
def emptyStartInstance : Instance := NewInstance Db.empty .none .none .none sampleStartClock

/-- The task added by typing `x` into the quick-add form of the Dashboard in
the sample world. -/
def quickAddedTask : Todo :=
  { ID := 7, Title := "x", Description := "", Completed := false, Priority := PriorityMedium,
    CreatedAt := 10 * Hour, DueTime := none }

/-- The keys of a quick add on the Dashboard followed by a switch to the Tasks
view: `a`, the title `x`, enter three times (description, priority, submit),
then `2`. -/
def quickAddThenTasks : List Msg :=
  [.key "a", .key "x", .key "enter", .key "enter", .key "enter", .key "2"]

/-- A database whose three tables each hold one row with the largest identity
SQLite and Go's `int` can represent, 2^63 - 1. -/
def maxIdDb : Db :=
  { todos := [{ sampleTodoRow with id := MaxInt64 }],
    notes := [{ sampleNoteRow with id := MaxInt64 }],
    events := [{ sampleEventRow with id := MaxInt64 }], log := [] }

/-- The sample event form, whose start text `tomorrow` does not parse, with
the end field left empty. -/
def unparsableStartNoEndForm : EventForm :=
  { sampleEventForm with endInput := { value := "", focus := false } }

/-! ## Predicates used in the statements -/

/-- The words "`sub` is a substring of `s`": `s` is `sub` with some text
before and some text after. -/
def IsSubstringOf (sub s : String) : Prop :=
  ∃ before after : String, s = before ++ sub ++ after

/-- The score function of the task sort at a given clock. -/
def todoScore (now todayEnd : Time) (todo : Todo) : Int :=
  getTodoPriority todo now todayEnd

/-- The score of an event in the words of the specification: 100 for a start
within today's window, from today's midnight (included) to the next midnight
(excluded); else 90 for a start after now and less than 7 days ahead; else 80
for a start after now; else 50. It differs from `getEventPriority` in the
lower bound of the window only. -/
def specEventScore (event : Event) (now todayStart : Time) : Int :=
  if todayStart ≤ event.StartTime ∧ event.StartTime < todayStart + 24 * Hour then 100
  else if event.StartTime > now ∧ event.StartTime < now + 7 * 24 * Hour then 90
  else if event.StartTime > now then 80
  else 50



/-- A call that returned an error and left the receiver as it was. -/
def Call.FailedUnchanged {σ : Type} (c : Call σ) (before : σ) : Prop :=
  c.err ≠ none ∧ c.self = before

/-! # Theorems -/

/-! ## Lemmas on the row loop of `Load` -/

theorem wrapInt_of_isInt64 (x : Int) (h : IsInt64 x) : wrapInt x = x := by
  unfold IsInt64 MinInt64 MaxInt64 at h
  unfold wrapInt
  omega

theorem wrapInt_isInt64 (x : Int) : IsInt64 (wrapInt x) := by
  unfold IsInt64 MinInt64 MaxInt64 wrapInt
  omega

/-- Below the largest `int`, the successor does not wrap. -/
theorem wrapInt_succ (id : Int) (h : MinInt64 ≤ id ∧ id < MaxInt64) :
    wrapInt (id + 1) = id + 1 := by
  unfold MinInt64 MaxInt64 at h
  unfold wrapInt
  omega

/-- At the largest `int`, the successor wraps to the smallest. -/
theorem wrapInt_succ_max : wrapInt (MaxInt64 + 1) = MinInt64 := by
  decide

theorem le_raiseNextID (ids : List Int) (hb : ∀ id ∈ ids, MinInt64 ≤ id ∧ id < MaxInt64) :
    ∀ n : Int, n ≤ raiseNextID n ids := by
  induction ids with
  | nil => intro n; simp [raiseNextID]
  | cons id ids ih =>
      intro n
      simp only [raiseNextID]
      have hw := wrapInt_succ id (hb id (List.mem_cons_self _ _))
      have h := ih (fun x hx => hb x (List.mem_cons_of_mem _ hx))
        (if id ≥ n then wrapInt (id + 1) else n)
      rw [hw] at h ⊢
      split_ifs at h ⊢ <;> omega

theorem lt_raiseNextID (ids : List Int) (hb : ∀ id ∈ ids, MinInt64 ≤ id ∧ id < MaxInt64) :
    ∀ n : Int, ∀ id ∈ ids, id < raiseNextID n ids := by
  induction ids with
  | nil => intro n id h; simp at h
  | cons a ids ih =>
      intro n id h
      simp only [raiseNextID]
      have hw := wrapInt_succ a (hb a (List.mem_cons_self _ _))
      have hb2 : ∀ x ∈ ids, MinInt64 ≤ x ∧ x < MaxInt64 :=
        fun x hx => hb x (List.mem_cons_of_mem _ hx)
      rcases List.mem_cons.1 h with rfl | h
      · have h1 := le_raiseNextID ids hb2 (if id ≥ n then wrapInt (id + 1) else n)
        rw [hw] at h1 ⊢
        split_ifs at h1 ⊢ <;> omega
      · exact ih hb2 _ id h

theorem raiseNextID_eq (ids : List Int) (hb : ∀ id ∈ ids, MinInt64 ≤ id ∧ id < MaxInt64) :
    ∀ n : Int, raiseNextID n ids = n ∨ ∃ id ∈ ids, raiseNextID n ids = id + 1 := by
  induction ids with
  | nil => intro n; simp [raiseNextID]
  | cons a ids ih =>
      intro n
      simp only [raiseNextID]
      have hw := wrapInt_succ a (hb a (List.mem_cons_self _ _))
      rw [hw]
      rcases ih (fun x hx => hb x (List.mem_cons_of_mem _ hx)) (if a ≥ n then a + 1 else n)
        with h | ⟨id, hid, h⟩
      · by_cases ha : a ≥ n
        · right; exact ⟨a, List.mem_cons_self _ _, by simpa [ha] using h⟩
        · left; simpa [ha] using h
      · right; exact ⟨id, List.mem_cons_of_mem _ hid, h⟩

theorem scanned_map_ok {ρ : Type} (rs : List ρ) :
    scanned (rs.map (Except.ok : ρ → Except Err ρ)) = rs := by
  induction rs with
  | nil => rfl
  | cons r rs ih => simp [scanned, ih]

theorem firstScanError_map_ok {ρ : Type} (rs : List ρ) :
    firstScanError (rs.map (Except.ok : ρ → Except Err ρ)) = none := by
  induction rs with
  | nil => rfl
  | cons r rs ih => simp [firstScanError, ih]

theorem scanned_map_ok_append_error {ρ : Type} (rs : List ρ) (e : Err) :
    scanned (rs.map (Except.ok : ρ → Except Err ρ) ++ [Except.error e]) = rs := by
  induction rs with
  | nil => rfl
  | cons r rs ih => simp [scanned, ih]

theorem firstScanError_map_ok_append_error {ρ : Type} (rs : List ρ) (e : Err) :
    firstScanError (rs.map (Except.ok : ρ → Except Err ρ) ++ [Except.error e]) = some e := by
  induction rs with
  | nil => rfl
  | cons r rs ih => simp [firstScanError, ih]

/-- The rows a cursor delivers are rows of the result set. -/
theorem scanned_openRows_subset {ρ : Type} (rs : List ρ) (f : QueryFault) (rows : Rows ρ)
    (h : openRows rs f = .ok rows) : ∀ r ∈ scanned rows.scans, r ∈ rs := by
  intro r hr
  cases f with
  | none =>
      simp only [openRows, Except.ok.injEq] at h
      subst h
      simpa [scanned_map_ok] using hr
  | queryError e => simp [openRows] at h
  | scanError k e =>
      simp only [openRows, Except.ok.injEq] at h
      subst h
      by_cases hk : k < rs.length
      · simp only [hk, if_true, scanned_map_ok_append_error] at hr
        exact List.mem_of_mem_take hr
      · simpa [hk, scanned_map_ok] using hr
  | iterError k e =>
      simp only [openRows, Except.ok.injEq] at h
      subst h
      simp only [scanned_map_ok] at hr
      exact List.mem_of_mem_take hr

/-- A cursor that is read to its end without any error delivers the whole
result set. -/
theorem scanned_openRows_complete {ρ : Type} (rs : List ρ) (f : QueryFault) (rows : Rows ρ)
    (h : openRows rs f = .ok rows) (hs : firstScanError rows.scans = none)
    (he : rows.err = none) : scanned rows.scans = rs := by
  cases f with
  | none =>
      simp only [openRows, Except.ok.injEq] at h
      subst h
      exact scanned_map_ok rs
  | queryError e => simp [openRows] at h
  | scanError k e =>
      simp only [openRows, Except.ok.injEq] at h
      subst h
      by_cases hk : k < rs.length
      · simp only [hk, if_true, firstScanError_map_ok_append_error] at hs
        cases hs
      · simp [hk, scanned_map_ok]
  | iterError k e =>
      simp only [openRows, Except.ok.injEq] at h
      subst h
      simp at he

/-- Closed form of the row loop of `TodoList.Load`. -/
theorem TodoList_scanRows_eq (rows : List (Except Err TodoRow)) :
    ∀ tl : TodoList, TodoList.scanRows rows tl =
      ({ tl with Todos := tl.Todos ++ (scanned rows).map todoOfRow,
                 NextID := raiseNextID tl.NextID ((scanned rows).map (·.id)) },
       (firstScanError rows).map ("failed to scan todo: " ++ ·)) := by
  induction rows with
  | nil => intro tl; simp [TodoList.scanRows, scanned, firstScanError, raiseNextID]
  | cons x rows ih =>
      intro tl
      cases x with
      | error e => simp [TodoList.scanRows, scanned, firstScanError, raiseNextID]
      | ok r =>
          simp only [TodoList.scanRows, ih, scanned, firstScanError, raiseNextID, List.map_cons]
          by_cases h : r.id ≥ tl.NextID <;> simp [h, todoOfRow]

/-- Closed form of the row loop of `NoteList.Load`. -/
theorem NoteList_scanRows_eq (rows : List (Except Err NoteRow)) :
    ∀ nl : NoteList, NoteList.scanRows rows nl =
      ({ nl with Notes := nl.Notes ++ (scanned rows).map noteOfRow,
                 NextID := raiseNextID nl.NextID ((scanned rows).map (·.id)) },
       (firstScanError rows).map ("failed to scan note: " ++ ·)) := by
  induction rows with
  | nil => intro nl; simp [NoteList.scanRows, scanned, firstScanError, raiseNextID]
  | cons x rows ih =>
      intro nl
      cases x with
      | error e => simp [NoteList.scanRows, scanned, firstScanError, raiseNextID]
      | ok r =>
          simp only [NoteList.scanRows, ih, scanned, firstScanError, raiseNextID, List.map_cons]
          by_cases h : r.id ≥ nl.NextID <;> simp [h, noteOfRow]

/-- Closed form of the row loop of `EventList.Load`. -/
theorem EventList_scanRows_eq (rows : List (Except Err EventRow)) :
    ∀ el : EventList, EventList.scanRows rows el =
      ({ el with Events := el.Events ++ (scanned rows).map eventOfRow,
                 NextID := raiseNextID el.NextID ((scanned rows).map (·.id)) },
       (firstScanError rows).map ("failed to scan event: " ++ ·)) := by
  induction rows with
  | nil => intro el; simp [EventList.scanRows, scanned, firstScanError, raiseNextID]
  | cons x rows ih =>
      intro el
      cases x with
      | error e => simp [EventList.scanRows, scanned, firstScanError, raiseNextID]
      | ok r =>
          simp only [EventList.scanRows, ih, scanned, firstScanError, raiseNextID, List.map_cons]
          by_cases h : r.id ≥ el.NextID <;> simp [h, eventOfRow]

/-! ## `Load` in closed form -/

theorem TodoList_Load_of_query_ok (tl : TodoList) (db : Db) (f : QueryFault) (rows : Rows TodoRow)
    (h : db.QueryTodos f = .ok rows) :
    (tl.Load db f).1 =
        { tl with Todos := (scanned rows.scans).map todoOfRow,
                  NextID := raiseNextID tl.NextID ((scanned rows.scans).map (·.id)) } ∧
      ((tl.Load db f).2 = none ↔ firstScanError rows.scans = none ∧ rows.err = none) := by
  unfold TodoList.Load
  rw [h]
  simp only [TodoList_scanRows_eq]
  cases firstScanError rows.scans <;> cases rows.err <;> simp

theorem NoteList_Load_of_query_ok (nl : NoteList) (db : Db) (f : QueryFault) (rows : Rows NoteRow)
    (h : db.QueryNotes f = .ok rows) :
    (nl.Load db f).1 =
        { nl with Notes := (scanned rows.scans).map noteOfRow,
                  NextID := raiseNextID nl.NextID ((scanned rows.scans).map (·.id)) } ∧
      ((nl.Load db f).2 = none ↔ firstScanError rows.scans = none ∧ rows.err = none) := by
  unfold NoteList.Load
  rw [h]
  simp only [NoteList_scanRows_eq]
  cases firstScanError rows.scans <;> cases rows.err <;> simp

theorem EventList_Load_of_query_ok (el : EventList) (db : Db) (f : QueryFault)
    (rows : Rows EventRow) (h : db.QueryEvents f = .ok rows) :
    (el.Load db f).1 =
        { el with Events := (scanned rows.scans).map eventOfRow,
                  NextID := raiseNextID el.NextID ((scanned rows.scans).map (·.id)) } ∧
      ((el.Load db f).2 = none ↔ firstScanError rows.scans = none ∧ rows.err = none) := by
  unfold EventList.Load
  rw [h]
  simp only [EventList_scanRows_eq]
  cases firstScanError rows.scans <;> cases rows.err <;> simp

theorem TodoList_Load_of_query_error (tl : TodoList) (db : Db) (f : QueryFault) (e : Err)
    (h : db.QueryTodos f = .error e) :
    tl.Load db f = (tl, some ("failed to query todos: " ++ e)) := by
  unfold TodoList.Load
  rw [h]

theorem NoteList_Load_of_query_error (nl : NoteList) (db : Db) (f : QueryFault) (e : Err)
    (h : db.QueryNotes f = .error e) :
    nl.Load db f = (nl, some ("failed to query notes: " ++ e)) := by
  unfold NoteList.Load
  rw [h]

theorem EventList_Load_of_query_error (el : EventList) (db : Db) (f : QueryFault) (e : Err)
    (h : db.QueryEvents f = .error e) :
    el.Load db f = (el, some ("failed to query events: " ++ e)) := by
  unfold EventList.Load
  rw [h]

/-- What `Load` leaves in memory comes from the table, and `NextID` ends above
every identity in memory provided it was above the identities before. -/
theorem TodoList_Load_inv (tl : TodoList) (db : Db) (f : QueryFault)
    (hb : ∀ r ∈ db.todos, MinInt64 ≤ r.id ∧ r.id < MaxInt64)
    (h0 : ∀ t ∈ tl.Todos, t.ID < tl.NextID ∧ ∃ r ∈ db.todos, r.id = t.ID) :
    ∀ t ∈ (tl.Load db f).1.Todos,
      t.ID < (tl.Load db f).1.NextID ∧ ∃ r ∈ db.todos, r.id = t.ID := by
  cases hq : db.QueryTodos f with
  | error e => rw [TodoList_Load_of_query_error tl db f e hq]; exact h0
  | ok rows =>
      rw [(TodoList_Load_of_query_ok tl db f rows hq).1]
      have hsub : ∀ r ∈ scanned rows.scans, r ∈ db.todos := by
        intro r hr
        have := scanned_openRows_subset _ f rows hq r hr
        exact (List.perm_insertionSort _ _).subset this
      have hids : ∀ id ∈ (scanned rows.scans).map (·.id), MinInt64 ≤ id ∧ id < MaxInt64 := by
        intro id hid
        obtain ⟨r, hr, rfl⟩ := List.mem_map.1 hid
        exact hb r (hsub r hr)
      intro t ht
      obtain ⟨r, hr, rfl⟩ := List.mem_map.1 ht
      exact ⟨lt_raiseNextID _ hids _ _ (List.mem_map.2 ⟨r, hr, rfl⟩), r, hsub r hr, rfl⟩

theorem NoteList_Load_inv (nl : NoteList) (db : Db) (f : QueryFault)
    (hb : ∀ r ∈ db.notes, MinInt64 ≤ r.id ∧ r.id < MaxInt64)
    (h0 : ∀ t ∈ nl.Notes, t.ID < nl.NextID ∧ ∃ r ∈ db.notes, r.id = t.ID) :
    ∀ t ∈ (nl.Load db f).1.Notes,
      t.ID < (nl.Load db f).1.NextID ∧ ∃ r ∈ db.notes, r.id = t.ID := by
  cases hq : db.QueryNotes f with
  | error e => rw [NoteList_Load_of_query_error nl db f e hq]; exact h0
  | ok rows =>
      rw [(NoteList_Load_of_query_ok nl db f rows hq).1]
      have hsub : ∀ r ∈ scanned rows.scans, r ∈ db.notes := by
        intro r hr
        have := scanned_openRows_subset _ f rows hq r hr
        exact (List.perm_insertionSort _ _).subset this
      have hids : ∀ id ∈ (scanned rows.scans).map (·.id), MinInt64 ≤ id ∧ id < MaxInt64 := by
        intro id hid
        obtain ⟨r, hr, rfl⟩ := List.mem_map.1 hid
        exact hb r (hsub r hr)
      intro t ht
      obtain ⟨r, hr, rfl⟩ := List.mem_map.1 ht
      exact ⟨lt_raiseNextID _ hids _ _ (List.mem_map.2 ⟨r, hr, rfl⟩), r, hsub r hr, rfl⟩

theorem EventList_Load_inv (el : EventList) (db : Db) (f : QueryFault)
    (hb : ∀ r ∈ db.events, MinInt64 ≤ r.id ∧ r.id < MaxInt64)
    (h0 : ∀ t ∈ el.Events, t.ID < el.NextID ∧ ∃ r ∈ db.events, r.id = t.ID) :
    ∀ t ∈ (el.Load db f).1.Events,
      t.ID < (el.Load db f).1.NextID ∧ ∃ r ∈ db.events, r.id = t.ID := by
  cases hq : db.QueryEvents f with
  | error e => rw [EventList_Load_of_query_error el db f e hq]; exact h0
  | ok rows =>
      rw [(EventList_Load_of_query_ok el db f rows hq).1]
      have hsub : ∀ r ∈ scanned rows.scans, r ∈ db.events := by
        intro r hr
        have := scanned_openRows_subset _ f rows hq r hr
        exact (List.perm_insertionSort _ _).subset this
      have hids : ∀ id ∈ (scanned rows.scans).map (·.id), MinInt64 ≤ id ∧ id < MaxInt64 := by
        intro id hid
        obtain ⟨r, hr, rfl⟩ := List.mem_map.1 hid
        exact hb r (hsub r hr)
      intro t ht
      obtain ⟨r, hr, rfl⟩ := List.mem_map.1 ht
      exact ⟨lt_raiseNextID _ hids _ _ (List.mem_map.2 ⟨r, hr, rfl⟩), r, hsub r hr, rfl⟩

/-- Invariant of the task collections reachable by successful `Add` calls. -/
theorem TodoAdds_inv {db : Db} {tl : TodoList} (h : TodoAdds db tl) :
    (∀ r ∈ db.todos, MinInt64 ≤ r.id ∧ r.id < MaxInt64) →
    ∀ t ∈ tl.Todos, t.ID < tl.NextID ∧ ∃ r ∈ db.todos, r.id = t.ID := by
  induction h with
  | new db f => intro hb; exact TodoList_Load_inv _ db f hb (by simp)
  | add rowid now title description priority dueTime _ hfresh ih =>
      intro hb t ht
      simp only [TodoList.Add, Db.Exec, Db.run, List.mem_append, List.mem_singleton] at hb ht ⊢
      have hw := wrapInt_succ rowid (by simpa using hb _ (Or.inr rfl))
      rw [hw]
      rcases ht with ht | rfl
      · obtain ⟨_, r, hr, hid⟩ := ih (fun r hr => hb r (Or.inl hr)) t ht
        have := hfresh r hr
        exact ⟨by omega, r, Or.inl hr, hid⟩
      · exact ⟨by simp, _, Or.inr rfl, rfl⟩

/-- Invariant of the note collections reachable by successful `Add` calls. -/
theorem NoteAdds_inv {db : Db} {nl : NoteList} (h : NoteAdds db nl) :
    (∀ r ∈ db.notes, MinInt64 ≤ r.id ∧ r.id < MaxInt64) →
    ∀ t ∈ nl.Notes, t.ID < nl.NextID ∧ ∃ r ∈ db.notes, r.id = t.ID := by
  induction h with
  | new db f => intro hb; exact NoteList_Load_inv _ db f hb (by simp)
  | add rowid now title content _ hfresh ih =>
      intro hb t ht
      simp only [NoteList.Add, Db.Exec, Db.run, List.mem_append, List.mem_singleton] at hb ht ⊢
      have hw := wrapInt_succ rowid (by simpa using hb _ (Or.inr rfl))
      rw [hw]
      rcases ht with ht | rfl
      · obtain ⟨_, r, hr, hid⟩ := ih (fun r hr => hb r (Or.inl hr)) t ht
        have := hfresh r hr
        exact ⟨by omega, r, Or.inl hr, hid⟩
      · exact ⟨by simp, _, Or.inr rfl, rfl⟩

/-- Invariant of the event collections reachable by successful `Add` calls. -/
theorem EventAdds_inv {db : Db} {el : EventList} (h : EventAdds db el) :
    (∀ r ∈ db.events, MinInt64 ≤ r.id ∧ r.id < MaxInt64) →
    ∀ t ∈ el.Events, t.ID < el.NextID ∧ ∃ r ∈ db.events, r.id = t.ID := by
  induction h with
  | new db f => intro hb; exact EventList_Load_inv _ db f hb (by simp)
  | add rowid now title content location startTime endTime _ hfresh ih =>
      intro hb t ht
      simp only [EventList.Add, Db.Exec, Db.run, List.mem_append, List.mem_singleton] at hb ht ⊢
      have hw := wrapInt_succ rowid (by simpa using hb _ (Or.inr rfl))
      rw [hw]
      rcases ht with ht | rfl
      · obtain ⟨_, r, hr, hid⟩ := ih (fun r hr => hb r (Or.inl hr)) t ht
        have := hfresh r hr
        exact ⟨by omega, r, Or.inl hr, hid⟩
      · exact ⟨by simp, _, Or.inr rfl, rfl⟩

/-! ## Lemmas on the scan loops -/

theorem exists_first_split {α : Type} (p : α → Bool) (l : List α) (h : ∃ x ∈ l, p x = true) :
    ∃ l1 x l2, l = l1 ++ x :: l2 ∧ p x = true ∧ ∀ y ∈ l1, p y = false := by
  induction l with
  | nil => simp at h
  | cons a l ih =>
      by_cases ha : p a = true
      · exact ⟨[], a, l, rfl, ha, by simp⟩
      · have h2 : ∃ x ∈ l, p x = true := by
          obtain ⟨x, hx, hpx⟩ := h
          rcases List.mem_cons.1 hx with rfl | hx
          · exact absurd hpx ha
          · exact ⟨x, hx, hpx⟩
        obtain ⟨l1, x, l2, hl, hx, hl1⟩ := ih h2
        refine ⟨a :: l1, x, l2, by simp [hl], hx, ?_⟩
        intro y hy
        rcases List.mem_cons.1 hy with rfl | hy
        · simpa using ha
        · exact hl1 y hy

theorem firstIndex_of_none {α : Type} (p : α → Bool) (l : List α)
    (h : ∀ x ∈ l, p x = false) : firstIndex p l = none := by
  induction l with
  | nil => rfl
  | cons a l ih =>
      have ha : p a = false := h a (List.mem_cons_self _ _)
      simp [firstIndex, ha, ih fun x hx => h x (List.mem_cons_of_mem _ hx)]

theorem firstIndex_append_cons {α : Type} (p : α → Bool) (l1 : List α) (x : α) (l2 : List α)
    (hx : p x = true) (h : ∀ y ∈ l1, p y = false) :
    firstIndex p (l1 ++ x :: l2) = some l1.length := by
  induction l1 with
  | nil => simp [firstIndex, hx]
  | cons a l1 ih =>
      have ha : p a = false := h a (List.mem_cons_self _ _)
      simp [firstIndex, ha, ih fun y hy => h y (List.mem_cons_of_mem _ hy)]

theorem removeAt_append_cons {α : Type} (l1 : List α) (x : α) (l2 : List α) :
    removeAt (l1 ++ x :: l2) l1.length = l1 ++ l2 := by
  simp [removeAt]

theorem updateFirst_of_none {α : Type} (p : α → Bool) (f : α → α) (l : List α)
    (h : ∀ x ∈ l, p x = false) : updateFirst p f l = l := by
  induction l with
  | nil => rfl
  | cons a l ih =>
      have ha : p a = false := h a (List.mem_cons_self _ _)
      simp [updateFirst, ha, ih fun x hx => h x (List.mem_cons_of_mem _ hx)]

theorem updateFirst_append_cons {α : Type} (p : α → Bool) (f : α → α) (l1 : List α) (x : α)
    (l2 : List α) (hx : p x = true) (h : ∀ y ∈ l1, p y = false) :
    updateFirst p f (l1 ++ x :: l2) = l1 ++ f x :: l2 := by
  induction l1 with
  | nil => simp [updateFirst, hx]
  | cons a l1 ih =>
      have ha : p a = false := h a (List.mem_cons_self _ _)
      simp [updateFirst, ha, ih fun y hy => h y (List.mem_cons_of_mem _ hy)]

theorem find?_append_cons_first {α : Type} (p : α → Bool) (l1 : List α) (x : α) (l2 : List α)
    (hx : p x = true) (h : ∀ y ∈ l1, p y = false) :
    (l1 ++ x :: l2).find? p = some x := by
  induction l1 with
  | nil => simp [hx]
  | cons a l1 ih =>
      have ha : p a = false := h a (List.mem_cons_self _ _)
      simp [List.find?, ha, ih fun y hy => h y (List.mem_cons_of_mem _ hy)]

theorem find?_of_none {α : Type} (p : α → Bool) (l : List α) (h : ∀ x ∈ l, p x = false) :
    l.find? p = none := by
  simpa using h

/-- The cursor after the adjustment of `Remove`, for a valid cursor on a list
of length `n` that lost one element. -/
theorem adjustSelected_bounds (selected : Int) (n : Nat) (h0 : 0 ≤ selected)
    (h1 : selected < (n : Int)) :
    0 ≤ adjustSelected selected (n - 1) ∧ adjustSelected selected (n - 1) ≤ max 0 ((n : Int) - 2) := by
  unfold adjustSelected
  have hn : ((n - 1 : Nat) : Int) = (n : Int) - 1 := by omega
  rw [hn]
  rw [le_max_iff]
  split_ifs with h <;> omega

theorem eraseP_append_cons_first {α : Type} (p : α → Bool) (l1 : List α) (x : α) (l2 : List α)
    (hx : p x = true) (h : ∀ y ∈ l1, p y = false) :
    (l1 ++ x :: l2).eraseP p = l1 ++ l2 := by
  induction l1 with
  | nil => simp [List.eraseP, hx]
  | cons a l1 ih =>
      have ha : p a = false := h a (List.mem_cons_self _ _)
      simp [List.eraseP, ha, ih fun y hy => h y (List.mem_cons_of_mem _ hy)]

theorem eraseP_of_none {α : Type} (p : α → Bool) (l : List α) (h : ∀ x ∈ l, p x = false) :
    l.eraseP p = l := by
  induction l with
  | nil => rfl
  | cons a l ih =>
      have ha : p a = false := h a (List.mem_cons_self _ _)
      simp [List.eraseP, ha, ih fun x hx => h x (List.mem_cons_of_mem _ hx)]

/-! ## `Remove` and `ToggleCompleted` in closed form -/

theorem TodoList_Remove_found (tl : TodoList) (db : Db) (o : ExecOutcome) (id : Int)
    (l1 : List Todo) (t : Todo) (l2 : List Todo) (ho : o.execFailed = false)
    (hl : tl.Todos = l1 ++ t :: l2) (ht : t.ID = id) (h1 : ∀ y ∈ l1, y.ID ≠ id) :
    (tl.Remove db o id).err = none ∧
      (tl.Remove db o id).self =
        { tl with Todos := l1 ++ l2,
                  Selected := adjustSelected tl.Selected (tl.Todos.length - 1) } := by
  have hp : ∀ y ∈ l1, (fun todo : Todo => todo.ID == id) y = false := by
    intro y hy; simpa using h1 y hy
  have hx : (fun todo : Todo => todo.ID == id) t = true := by simpa using ht
  have hi := firstIndex_append_cons _ l1 t l2 hx hp
  cases o with
  | execError e => simp [ExecOutcome.execFailed] at ho
  | idError rowid e =>
      simp [TodoList.Remove, Db.Exec, hl, hi, removeAt_append_cons]
  | ok rowid =>
      simp [TodoList.Remove, Db.Exec, hl, hi, removeAt_append_cons]

theorem TodoList_Remove_absent (tl : TodoList) (db : Db) (o : ExecOutcome) (id : Int)
    (ho : o.execFailed = false) (h : ∀ t ∈ tl.Todos, t.ID ≠ id) :
    (tl.Remove db o id).err = none ∧ (tl.Remove db o id).self = tl := by
  have hi := firstIndex_of_none (fun todo : Todo => todo.ID == id) tl.Todos
    (by intro y hy; simpa using h y hy)
  cases o with
  | execError e => simp [ExecOutcome.execFailed] at ho
  | idError rowid e => simp [TodoList.Remove, Db.Exec, hi]
  | ok rowid => simp [TodoList.Remove, Db.Exec, hi]

theorem NoteList_Remove_found (nl : NoteList) (db : Db) (o : ExecOutcome) (id : Int)
    (l1 : List Note) (t : Note) (l2 : List Note) (ho : o.execFailed = false)
    (hl : nl.Notes = l1 ++ t :: l2) (ht : t.ID = id) (h1 : ∀ y ∈ l1, y.ID ≠ id) :
    (nl.Remove db o id).err = none ∧
      (nl.Remove db o id).self =
        { nl with Notes := l1 ++ l2,
                  Selected := adjustSelected nl.Selected (nl.Notes.length - 1) } := by
  have hp : ∀ y ∈ l1, (fun note : Note => note.ID == id) y = false := by
    intro y hy; simpa using h1 y hy
  have hx : (fun note : Note => note.ID == id) t = true := by simpa using ht
  have hi := firstIndex_append_cons _ l1 t l2 hx hp
  cases o with
  | execError e => simp [ExecOutcome.execFailed] at ho
  | idError rowid e =>
      simp [NoteList.Remove, Db.Exec, hl, hi, removeAt_append_cons]
  | ok rowid =>
      simp [NoteList.Remove, Db.Exec, hl, hi, removeAt_append_cons]

theorem NoteList_Remove_absent (nl : NoteList) (db : Db) (o : ExecOutcome) (id : Int)
    (ho : o.execFailed = false) (h : ∀ t ∈ nl.Notes, t.ID ≠ id) :
    (nl.Remove db o id).err = none ∧ (nl.Remove db o id).self = nl := by
  have hi := firstIndex_of_none (fun note : Note => note.ID == id) nl.Notes
    (by intro y hy; simpa using h y hy)
  cases o with
  | execError e => simp [ExecOutcome.execFailed] at ho
  | idError rowid e => simp [NoteList.Remove, Db.Exec, hi]
  | ok rowid => simp [NoteList.Remove, Db.Exec, hi]

theorem EventList_Remove_found (el : EventList) (db : Db) (o : ExecOutcome) (id : Int)
    (l1 : List Event) (t : Event) (l2 : List Event) (ho : o.execFailed = false)
    (hl : el.Events = l1 ++ t :: l2) (ht : t.ID = id) (h1 : ∀ y ∈ l1, y.ID ≠ id) :
    (el.Remove db o id).err = none ∧
      (el.Remove db o id).self =
        { el with Events := l1 ++ l2,
                  Selected := adjustSelected el.Selected (el.Events.length - 1) } := by
  have hp : ∀ y ∈ l1, (fun event : Event => event.ID == id) y = false := by
    intro y hy; simpa using h1 y hy
  have hx : (fun event : Event => event.ID == id) t = true := by simpa using ht
  have hi := firstIndex_append_cons _ l1 t l2 hx hp
  cases o with
  | execError e => simp [ExecOutcome.execFailed] at ho
  | idError rowid e =>
      simp [EventList.Remove, Db.Exec, hl, hi, removeAt_append_cons]
  | ok rowid =>
      simp [EventList.Remove, Db.Exec, hl, hi, removeAt_append_cons]

theorem EventList_Remove_absent (el : EventList) (db : Db) (o : ExecOutcome) (id : Int)
    (ho : o.execFailed = false) (h : ∀ t ∈ el.Events, t.ID ≠ id) :
    (el.Remove db o id).err = none ∧ (el.Remove db o id).self = el := by
  have hi := firstIndex_of_none (fun event : Event => event.ID == id) el.Events
    (by intro y hy; simpa using h y hy)
  cases o with
  | execError e => simp [ExecOutcome.execFailed] at ho
  | idError rowid e => simp [EventList.Remove, Db.Exec, hi]
  | ok rowid => simp [EventList.Remove, Db.Exec, hi]

/-- Every entity with the identity `id` is preceded by a first one. -/
theorem exists_first_with_id {α : Type} (ident : α → Int) (id : Int) (l : List α)
    (h : ∃ t ∈ l, ident t = id) :
    ∃ l1 t l2, l = l1 ++ t :: l2 ∧ ident t = id ∧ ∀ y ∈ l1, ident y ≠ id := by
  obtain ⟨l1, t, l2, hl, ht, h1⟩ := exists_first_split (fun x => ident x == id) l
    (by obtain ⟨t, ht, hid⟩ := h; exact ⟨t, ht, by simpa using hid⟩)
  exact ⟨l1, t, l2, hl, by simpa using ht, fun y hy => by simpa using h1 y hy⟩

theorem TodoList_ToggleCompleted_absent (tl : TodoList) (db : Db) (o : ExecOutcome) (id : Int)
    (h : ∀ t ∈ tl.Todos, t.ID ≠ id) :
    tl.ToggleCompleted db o id =
      { db := db, self := tl, err := some ("todo with id " ++ toString id ++ " not found") } := by
  have hf := find?_of_none (fun t : Todo => t.ID == id) tl.Todos
    (by intro y hy; simpa using h y hy)
  simp only [TodoList.ToggleCompleted, hf]

theorem TodoList_ToggleCompleted_found (tl : TodoList) (db : Db) (o : ExecOutcome) (id : Int)
    (l1 : List Todo) (t : Todo) (l2 : List Todo) (ho : o.execFailed = false)
    (hl : tl.Todos = l1 ++ t :: l2) (ht : t.ID = id) (h1 : ∀ y ∈ l1, y.ID ≠ id) :
    (tl.ToggleCompleted db o id).err = none ∧
      (tl.ToggleCompleted db o id).self =
        { tl with Todos := l1 ++ { t with Completed := !t.Completed } :: l2 } ∧
      (tl.ToggleCompleted db o id).db.log =
        db.log ++ [Stmt.setTodoCompleted (!t.Completed) id] := by
  have hp : ∀ y ∈ l1, (fun todo : Todo => todo.ID == id) y = false := by
    intro y hy; simpa using h1 y hy
  have hx : (fun todo : Todo => todo.ID == id) t = true := by simpa using ht
  have hf := find?_append_cons_first _ l1 t l2 hx hp
  have hu := updateFirst_append_cons (fun todo : Todo => todo.ID == id)
    (fun x => { x with Completed := !t.Completed }) l1 t l2 hx hp
  cases o with
  | execError e => simp [ExecOutcome.execFailed] at ho
  | idError rowid e => simp [TodoList.ToggleCompleted, Db.Exec, hl, hf, hu]
  | ok rowid => simp [TodoList.ToggleCompleted, Db.Exec, hl, hf, hu]

/-! ## `NextID` after a successful `Load` -/

theorem TodoList_Load_success (tl : TodoList) (db : Db) (f : QueryFault)
    (hs : (tl.Load db f).2 = none) :
    (tl.Load db f).1 =
      { tl with Todos := (db.todos.insertionSort fun a b => a.id ≤ b.id).map todoOfRow,
                NextID := raiseNextID tl.NextID
                  ((db.todos.insertionSort fun a b => a.id ≤ b.id).map (·.id)) } := by
  cases hq : db.QueryTodos f with
  | error e => rw [TodoList_Load_of_query_error tl db f e hq] at hs; cases hs
  | ok rows =>
      obtain ⟨h1, h2⟩ := TodoList_Load_of_query_ok tl db f rows hq
      obtain ⟨h3, h4⟩ := h2.1 hs
      rw [h1, scanned_openRows_complete _ f rows hq h3 h4]

theorem NoteList_Load_success (nl : NoteList) (db : Db) (f : QueryFault)
    (hs : (nl.Load db f).2 = none) :
    (nl.Load db f).1 =
      { nl with Notes := (db.notes.insertionSort fun a b => a.id ≤ b.id).map noteOfRow,
                NextID := raiseNextID nl.NextID
                  ((db.notes.insertionSort fun a b => a.id ≤ b.id).map (·.id)) } := by
  cases hq : db.QueryNotes f with
  | error e => rw [NoteList_Load_of_query_error nl db f e hq] at hs; cases hs
  | ok rows =>
      obtain ⟨h1, h2⟩ := NoteList_Load_of_query_ok nl db f rows hq
      obtain ⟨h3, h4⟩ := h2.1 hs
      rw [h1, scanned_openRows_complete _ f rows hq h3 h4]

theorem EventList_Load_success (el : EventList) (db : Db) (f : QueryFault)
    (hs : (el.Load db f).2 = none) :
    (el.Load db f).1 =
      { el with Events :=
                  (db.events.insertionSort fun a b => a.start_time ≤ b.start_time).map eventOfRow,
                NextID := raiseNextID el.NextID
                  ((db.events.insertionSort fun a b => a.start_time ≤ b.start_time).map
                    (·.id)) } := by
  cases hq : db.QueryEvents f with
  | error e => rw [EventList_Load_of_query_error el db f e hq] at hs; cases hs
  | ok rows =>
      obtain ⟨h1, h2⟩ := EventList_Load_of_query_ok el db f rows hq
      obtain ⟨h3, h4⟩ := h2.1 hs
      rw [h1, scanned_openRows_complete _ f rows hq h3 h4]

/-- The value `raiseNextID n ids` is the larger of `n` and the successor of
the largest element of `ids`, said over a list of entities whose `ident`s are
`ids`. -/
theorem raiseNextID_is_max {α : Type} (ident : α → Int) (n : Int) (l : List α)
    (hb : ∀ t ∈ l, MinInt64 ≤ ident t ∧ ident t < MaxInt64) :
    (∀ t ∈ l, ident t < raiseNextID n (l.map ident)) ∧ n ≤ raiseNextID n (l.map ident) ∧
      (raiseNextID n (l.map ident) = n ∨ ∃ t ∈ l, raiseNextID n (l.map ident) = ident t + 1) := by
  have hids : ∀ id ∈ l.map ident, MinInt64 ≤ id ∧ id < MaxInt64 := by
    intro id hid
    obtain ⟨t, ht, rfl⟩ := List.mem_map.1 hid
    exact hb t ht
  refine ⟨fun t ht => lt_raiseNextID _ hids _ _ (List.mem_map.2 ⟨t, ht, rfl⟩),
    le_raiseNextID _ hids _, ?_⟩
  rcases raiseNextID_eq (l.map ident) hids n with h | ⟨id, hid, h⟩
  · exact Or.inl h
  · obtain ⟨t, ht, rfl⟩ := List.mem_map.1 hid
    exact Or.inr ⟨t, ht, h⟩

/-! ## Substring search -/

theorem containsRunes_iff (s sub : List Char) : containsRunes s sub = true ↔ sub <:+: s := by
  induction s with
  | nil => simp [containsRunes, List.isEmpty_iff]
  | cons c cs ih =>
      rw [containsRunes, Bool.or_eq_true, ih, List.infix_cons_iff, List.isPrefixOf_iff_prefix]

theorem strings.Contains_iff (s sub : String) :
    strings.Contains s sub = true ↔ IsSubstringOf sub s := by
  unfold strings.Contains IsSubstringOf
  rw [containsRunes_iff]
  constructor
  · rintro ⟨a, b, h⟩
    refine ⟨String.mk a, String.mk b, ?_⟩
    apply String.ext
    simp [String.data_append, h]
  · rintro ⟨a, b, h⟩
    exact ⟨a.data, b.data, by simp [h, String.data_append]⟩

/-! ## The loops of the sort and its recursive reading -/

theorem get?_cell_i {α : Type} (pre : List α) (x : α) (rest : List α) :
    (pre ++ x :: rest).get? pre.length = some x := by
  rw [List.get?_eq_getElem?, List.getElem?_append_right (le_refl _)]
  simp

theorem get?_cell_j {α : Type} (pre : List α) (x : α) (done : List α) (y : α) (ys : List α) :
    (pre ++ x :: (done ++ y :: ys)).get? (pre.length + 1 + done.length) = some y := by
  rw [List.get?_eq_getElem?, List.getElem?_append_right (by omega)]
  have h : pre.length + 1 + done.length - pre.length = done.length + 1 := by omega
  rw [h, List.getElem?_cons_succ, List.getElem?_append_right (le_refl _)]
  simp

theorem set_cell_i {α : Type} (pre : List α) (x z : α) (rest : List α) :
    (pre ++ x :: rest).set pre.length z = pre ++ z :: rest := by
  rw [List.set_append_right _ _ (le_refl _)]
  simp

theorem set_cell_j {α : Type} (pre : List α) (x : α) (done : List α) (y w : α) (ys : List α) :
    (pre ++ x :: (done ++ y :: ys)).set (pre.length + 1 + done.length) w =
      pre ++ x :: (done ++ w :: ys) := by
  rw [List.set_append_right _ _ (by omega)]
  have h : pre.length + 1 + done.length - pre.length = done.length + 1 := by omega
  rw [h, List.set_cons_succ, List.set_append_right _ _ (le_refl _)]
  simp

/-- The inner loop at `i = len(pre)`, having already passed the cells `done`,
with the cells `todo` still to visit. -/
theorem bubbleInner_eq {α : Type} (swap : α → α → Bool) (pre : List α) (todo : List α) :
    ∀ (x : α) (done : List α),
      bubbleInner swap pre.length todo.length (pre.length + 1 + done.length)
          (pre ++ x :: (done ++ todo)) =
        pre ++ (swapPass swap x todo).1 :: (done ++ (swapPass swap x todo).2) := by
  induction todo with
  | nil => intro x done; simp [bubbleInner, swapPass]
  | cons y ys ih =>
      intro x done
      simp only [bubbleInner, List.length_cons, get?_cell_i, get?_cell_j]
      by_cases h : swap x y = true
      · have := ih y (done ++ [x])
        simp only [List.length_append, List.length_singleton, List.append_assoc,
          List.singleton_append] at this
        simp only [h, if_true, set_cell_i, set_cell_j, swapPass]
        rw [show pre.length + 1 + done.length + 1 = pre.length + 1 + (done.length + 1) by omega,
          this]
      · have := ih x (done ++ [y])
        simp only [List.length_append, List.length_singleton, List.append_assoc,
          List.singleton_append] at this
        simp only [h, swapPass]
        rw [show pre.length + 1 + done.length + 1 = pre.length + 1 + (done.length + 1) by omega]
        simpa using this

/-! ## The exchange sort -/

theorem swapPass_perm {α : Type} (swap : α → α → Bool) (xs : List α) :
    ∀ x : α, ((swapPass swap x xs).1 :: (swapPass swap x xs).2).Perm (x :: xs) := by
  induction xs with
  | nil => intro x; simp [swapPass]
  | cons y ys ih =>
      intro x
      by_cases h : swap x y = true
      · simp only [swapPass, h, if_true]
        exact (List.Perm.swap _ _ _).trans ((ih y).cons x)
      · simp only [swapPass, h]
        exact (List.Perm.swap _ _ _).trans (((ih x).cons y).trans (List.Perm.swap _ _ _))

theorem swapPass_length {α : Type} (swap : α → α → Bool) (xs : List α) (x : α) :
    (swapPass swap x xs).2.length = xs.length := by
  have h := (swapPass_perm swap xs x).length_eq
  simpa using h

/-- After the inner loop, position `i` holds an element of largest score. -/
theorem swapPass_fst_max {α : Type} (score : α → Int) (xs : List α) :
    ∀ x : α,
      score x ≤ score (swapPass (fun a b => decide (score b > score a)) x xs).1 ∧
      ∀ y ∈ (swapPass (fun a b => decide (score b > score a)) x xs).2,
        score y ≤ score (swapPass (fun a b => decide (score b > score a)) x xs).1 := by
  induction xs with
  | nil => intro x; simp [swapPass]
  | cons y ys ih =>
      intro x
      by_cases h : score y > score x
      · obtain ⟨h1, h2⟩ := ih y
        simp only [swapPass, h, decide_True, if_true, List.mem_cons]
        refine ⟨by omega, ?_⟩
        rintro z (rfl | hz)
        · omega
        · exact h2 z hz
      · obtain ⟨h1, h2⟩ := ih x
        simp only [swapPass, h, decide_False, Bool.false_eq_true, if_false, List.mem_cons]
        refine ⟨h1, ?_⟩
        rintro z (rfl | hz)
        · omega
        · exact h2 z hz

theorem swapSortFrom_perm {α : Type} (swap : α → α → Bool) :
    ∀ (n : Nat) (xs : List α), (swapSortFrom swap n xs).Perm xs := by
  intro n
  induction n with
  | zero => intro xs; simp [swapSortFrom]
  | succ n ih =>
      intro xs
      cases xs with
      | nil => simp [swapSortFrom]
      | cons x xs =>
          simp only [swapSortFrom]
          exact ((ih _).cons _).trans (swapPass_perm swap xs x)

theorem swapSortFrom_sorted {α : Type} (score : α → Int) :
    ∀ (n : Nat) (xs : List α), xs.length ≤ n →
      (swapSortFrom (fun a b => decide (score b > score a)) n xs).Pairwise
        (fun a b => score b ≤ score a) := by
  intro n
  induction n with
  | zero =>
      intro xs h
      have : xs = [] := List.length_eq_zero.1 (by omega)
      subst this
      simp [swapSortFrom]
  | succ n ih =>
      intro xs h
      cases xs with
      | nil => simp [swapSortFrom]
      | cons x xs =>
          simp only [swapSortFrom, List.pairwise_cons]
          refine ⟨?_, ih _ (by rw [swapPass_length]; simpa using h)⟩
          intro y hy
          exact (swapPass_fst_max score xs x).2 y ((swapSortFrom_perm _ n _).subset hy)

theorem bubbleOuter_eq {α : Type} (swap : α → α → Bool) :
    ∀ (n : Nat) (pre rest : List α), rest.length = n →
      bubbleOuter swap n pre.length (pre ++ rest) = pre ++ swapSortFrom swap n rest := by
  intro n
  induction n with
  | zero => intro pre rest _; simp [bubbleOuter, swapSortFrom]
  | succ n ih =>
      intro pre rest h
      cases rest with
      | nil => simp at h
      | cons x xs =>
          have hlen : (pre ++ x :: xs).length - (pre.length + 1) = xs.length := by
            simp only [List.length_append, List.length_cons]; omega
          have hin := bubbleInner_eq swap pre xs x []
          simp only [List.length_nil, Nat.add_zero, List.nil_append] at hin
          simp only [bubbleOuter, swapSortFrom, hlen, hin]
          have hl2 : (swapPass swap x xs).2.length = n := by
            rw [swapPass_length]; simpa using h
          have := ih (pre ++ [(swapPass swap x xs).1]) (swapPass swap x xs).2 hl2
          simpa using this

/-- The loop nest computes the recursive sort. -/
theorem bubbleSort_eq_swapSort {α : Type} (swap : α → α → Bool) (xs : List α) :
    bubbleSort swap xs = swapSort swap xs := by
  have := bubbleOuter_eq swap xs.length [] xs rfl
  simpa [bubbleSort, swapSort] using this

/-- The sort yields a permutation of its input. -/
theorem swapSort_perm {α : Type} (swap : α → α → Bool) (xs : List α) :
    (swapSort swap xs).Perm xs :=
  swapSortFrom_perm swap xs.length xs

/-- The sort yields a list of non-increasing score. -/
theorem swapSort_sorted {α : Type} (score : α → Int) (xs : List α) :
    (swapSort (fun a b => decide (score b > score a)) xs).Pairwise
      (fun a b => score b ≤ score a) :=
  swapSortFrom_sorted score xs.length xs (le_refl _)

theorem sortTodos_perm (todos : List Todo) (now todayEnd : Time) :
    (sortTodos todos now todayEnd).Perm todos := by
  unfold sortTodos
  rw [bubbleSort_eq_swapSort]
  exact swapSort_perm _ todos

theorem sortTodos_sorted (todos : List Todo) (now todayEnd : Time) :
    (sortTodos todos now todayEnd).Pairwise
      (fun a b => todoScore now todayEnd b ≤ todoScore now todayEnd a) := by
  unfold sortTodos
  rw [bubbleSort_eq_swapSort]
  exact swapSort_sorted (todoScore now todayEnd) todos

/-! ## Storage failures -/

/-- C1: whenever the storage call of Add, Update, Remove or ToggleCompleted
fails (`Exec` returns an error, or for Add `LastInsertId` does), on a task,
note or event collection in any state, the method returns an error and the
in-memory collection (list, Selected, NextID) is what it was before. -/
theorem storage_failure_keeps_memory :
    (∀ (tl : TodoList) (db : Db) (e : Err) (now : Time) (title description : String)
        (priority : Priority) (dueTime : Option Time),
        (tl.Add db (.execError e) now title description priority dueTime).FailedUnchanged tl) ∧
    (∀ (tl : TodoList) (db : Db) (rowid : Int) (e : Err) (now : Time) (title description : String)
        (priority : Priority) (dueTime : Option Time),
        (tl.Add db (.idError rowid e) now title description priority dueTime).FailedUnchanged tl) ∧
    (∀ (tl : TodoList) (db : Db) (e : Err) (id : Int) (title description : String)
        (priority : Priority) (dueTime : Option Time),
        (tl.Update db (.execError e) id title description priority dueTime).FailedUnchanged tl) ∧
    (∀ (tl : TodoList) (db : Db) (e : Err) (id : Int),
        (tl.Remove db (.execError e) id).FailedUnchanged tl) ∧
    (∀ (tl : TodoList) (db : Db) (e : Err) (id : Int),
        (tl.ToggleCompleted db (.execError e) id).FailedUnchanged tl) ∧
    (∀ (nl : NoteList) (db : Db) (e : Err) (now : Time) (title content : String),
        (nl.Add db (.execError e) now title content).FailedUnchanged nl) ∧
    (∀ (nl : NoteList) (db : Db) (rowid : Int) (e : Err) (now : Time) (title content : String),
        (nl.Add db (.idError rowid e) now title content).FailedUnchanged nl) ∧
    (∀ (nl : NoteList) (db : Db) (e : Err) (id : Int) (title content : String),
        (nl.Update db (.execError e) id title content).FailedUnchanged nl) ∧
    (∀ (nl : NoteList) (db : Db) (e : Err) (id : Int),
        (nl.Remove db (.execError e) id).FailedUnchanged nl) ∧
    (∀ (el : EventList) (db : Db) (e : Err) (now : Time) (title content location : String)
        (startTime endTime : Time),
        (el.Add db (.execError e) now title content location startTime endTime).FailedUnchanged
          el) ∧
    (∀ (el : EventList) (db : Db) (rowid : Int) (e : Err) (now : Time)
        (title content location : String) (startTime endTime : Time),
        (el.Add db (.idError rowid e) now title content location startTime endTime).FailedUnchanged
          el) ∧
    (∀ (el : EventList) (db : Db) (e : Err) (id : Int) (title content location : String)
        (startTime endTime : Time),
        (el.Update db (.execError e) id title content location startTime endTime).FailedUnchanged
          el) ∧
    (∀ (el : EventList) (db : Db) (e : Err) (id : Int),
        (el.Remove db (.execError e) id).FailedUnchanged el) := by
  refine ⟨?_, ?_, ?_, ?_, ?_, ?_, ?_, ?_, ?_, ?_, ?_, ?_, ?_⟩
  · intros; simp [TodoList.Add, Db.Exec, Call.FailedUnchanged]
  · intros; simp [TodoList.Add, Db.Exec, Call.FailedUnchanged]
  · intros; simp [TodoList.Update, Db.Exec, Call.FailedUnchanged]
  · intros; simp [TodoList.Remove, Db.Exec, Call.FailedUnchanged]
  · intro tl db e id
    unfold TodoList.ToggleCompleted
    cases tl.Todos.find? (fun t => t.ID == id) <;> simp [Db.Exec, Call.FailedUnchanged]
  · intros; simp [NoteList.Add, Db.Exec, Call.FailedUnchanged]
  · intros; simp [NoteList.Add, Db.Exec, Call.FailedUnchanged]
  · intros; simp [NoteList.Update, Db.Exec, Call.FailedUnchanged]
  · intros; simp [NoteList.Remove, Db.Exec, Call.FailedUnchanged]
  · intros; simp [EventList.Add, Db.Exec, Call.FailedUnchanged]
  · intros; simp [EventList.Add, Db.Exec, Call.FailedUnchanged]
  · intros; simp [EventList.Update, Db.Exec, Call.FailedUnchanged]
  · intros; simp [EventList.Remove, Db.Exec, Call.FailedUnchanged]

/-! ## The end-to-end scenario -/

/-- C2: from an empty task collection over empty storage, with storage
assigning identity 1: Add("Buy milk", "", Medium, nil) succeeds and leaves
exactly one task, with ID 1 and Completed false; ToggleCompleted(1) then
succeeds and makes it Completed, in memory, in a fresh collection built from
storage and after Load on the same collection; Remove(1) then succeeds and
leaves an empty collection with Selected 0. -/
theorem end_to_end_scenario (now : Time) (r2 r3 : Int) :
    let tl0 := NewTodoList Db.empty .none
    let c1 := tl0.Add Db.empty (.ok 1) now "Buy milk" "" PriorityMedium none
    let c2 := c1.self.ToggleCompleted c1.db (.ok r2) 1
    let c3 := c2.self.Remove c2.db (.ok r3) 1
    let milk (completed : Bool) : Todo :=
      { ID := 1, Title := "Buy milk", Description := "", Completed := completed,
        Priority := PriorityMedium, CreatedAt := now, DueTime := none }
    tl0 = { Todos := [], Selected := 0, NextID := 1 } ∧
    c1.err = none ∧ c1.self.Todos = [milk false] ∧
    c2.err = none ∧ c2.self.Todos = [milk true] ∧
    (NewTodoList c2.db .none).Todos = [milk true] ∧
    c2.self.Load c2.db .none = ({ Todos := [milk true], Selected := 0, NextID := 2 }, none) ∧
    c3.err = none ∧ c3.self.Todos = [] ∧ c3.self.Selected = 0 := by
  simp [NewTodoList, TodoList.Load, Db.QueryTodos, openRows, TodoList.scanRows, Db.empty,
    TodoList.Add, Db.Exec, Db.run, TodoList.ToggleCompleted, updateFirst, TodoList.Remove,
    firstIndex, removeAt, adjustSelected, wrapInt]

/-! ## Identity monotonicity -/

/-- C3, as stated, fails at the end of the range of Go's `int`: over a table
whose row has the identity 2^63 - 1, the constructor's Load computes
`id + 1`, which wraps to -2^63, so NextID is below the ID of the entity in
memory. The three collections behave alike. -/
theorem nextID_wraps_at_largest_identity :
    (TodoAdds maxIdDb (NewTodoList maxIdDb .none) ∧
      (NewTodoList maxIdDb .none).Todos.map (·.ID) = [9223372036854775807] ∧
      (NewTodoList maxIdDb .none).NextID = -9223372036854775808 ∧
      ¬ ∀ t ∈ (NewTodoList maxIdDb .none).Todos, t.ID < (NewTodoList maxIdDb .none).NextID) ∧
    (NoteAdds maxIdDb (NewNoteList maxIdDb .none) ∧
      (NewNoteList maxIdDb .none).Notes.map (·.ID) = [9223372036854775807] ∧
      (NewNoteList maxIdDb .none).NextID = -9223372036854775808 ∧
      ¬ ∀ t ∈ (NewNoteList maxIdDb .none).Notes, t.ID < (NewNoteList maxIdDb .none).NextID) ∧
    (EventAdds maxIdDb (NewEventList maxIdDb .none) ∧
      (NewEventList maxIdDb .none).Events.map (·.ID) = [9223372036854775807] ∧
      (NewEventList maxIdDb .none).NextID = -9223372036854775808 ∧
      ¬ ∀ t ∈ (NewEventList maxIdDb .none).Events,
          t.ID < (NewEventList maxIdDb .none).NextID) :=
  ⟨⟨TodoAdds.new maxIdDb .none, by decide, by decide, by decide⟩,
   ⟨NoteAdds.new maxIdDb .none, by decide, by decide, by decide⟩,
   ⟨EventAdds.new maxIdDb .none, by decide, by decide, by decide⟩⟩

/-- C3, amended: in every task, note or event collection obtained from its
constructor (whatever the outcome of the constructor's Load) by a sequence of
successful Add calls in which storage assigns an identity larger than every
identity already in the table, provided every identity in the table is a
value of Go's `int` below the largest one (2^63 - 1), NextID is strictly
greater than the ID of every entity in memory. -/
theorem nextID_above_loaded_ids :
    (∀ (db : Db) (tl : TodoList), TodoAdds db tl →
      (∀ r ∈ db.todos, MinInt64 ≤ r.id ∧ r.id < MaxInt64) →
      ∀ t ∈ tl.Todos, t.ID < tl.NextID) ∧
    (∀ (db : Db) (nl : NoteList), NoteAdds db nl →
      (∀ r ∈ db.notes, MinInt64 ≤ r.id ∧ r.id < MaxInt64) →
      ∀ t ∈ nl.Notes, t.ID < nl.NextID) ∧
    (∀ (db : Db) (el : EventList), EventAdds db el →
      (∀ r ∈ db.events, MinInt64 ≤ r.id ∧ r.id < MaxInt64) →
      ∀ t ∈ el.Events, t.ID < el.NextID) :=
  ⟨fun _ _ h hb t ht => (TodoAdds_inv h hb t ht).1,
   fun _ _ h hb t ht => (NoteAdds_inv h hb t ht).1,
   fun _ _ h hb t ht => (EventAdds_inv h hb t ht).1⟩

/-- Instance of the amended C3: over a database holding row 3, the constructor
followed by one successful Add that receives identity 4. -/
theorem nextID_above_loaded_ids_witness :
    (TodoAdds ((NewTodoList sampleDb .none).Add sampleDb (.ok 4) 9 "b" "" PriorityLow none).db
        ((NewTodoList sampleDb .none).Add sampleDb (.ok 4) 9 "b" "" PriorityLow none).self ∧
      (todoOfRow sampleTodoRow).ID <
        ((NewTodoList sampleDb .none).Add sampleDb (.ok 4) 9 "b" "" PriorityLow none).self.NextID) ∧
    (NoteAdds ((NewNoteList sampleDb .none).Add sampleDb (.ok 4) 9 "b" "").db
        ((NewNoteList sampleDb .none).Add sampleDb (.ok 4) 9 "b" "").self ∧
      (noteOfRow sampleNoteRow).ID <
        ((NewNoteList sampleDb .none).Add sampleDb (.ok 4) 9 "b" "").self.NextID) ∧
    (EventAdds ((NewEventList sampleDb .none).Add sampleDb (.ok 4) 9 "b" "" "" 1 2).db
        ((NewEventList sampleDb .none).Add sampleDb (.ok 4) 9 "b" "" "" 1 2).self ∧
      (eventOfRow sampleEventRow).ID <
        ((NewEventList sampleDb .none).Add sampleDb (.ok 4) 9 "b" "" "" 1 2).self.NextID) := by
  have ht : TodoAdds _ _ := TodoAdds.add 4 9 "b" "" PriorityLow none (TodoAdds.new sampleDb .none)
    (by simp [sampleDb, sampleTodoRow])
  have hn : NoteAdds _ _ := NoteAdds.add 4 9 "b" "" (NoteAdds.new sampleDb .none)
    (by simp [sampleDb, sampleNoteRow])
  have he : EventAdds _ _ := EventAdds.add 4 9 "b" "" "" 1 2 (EventAdds.new sampleDb .none)
    (by simp [sampleDb, sampleEventRow])
  refine ⟨⟨ht, nextID_above_loaded_ids.1 _ _ ht (by decide) _ ?_⟩,
    ⟨hn, nextID_above_loaded_ids.2.1 _ _ hn (by decide) _ ?_⟩,
    ⟨he, nextID_above_loaded_ids.2.2 _ _ he (by decide) _ ?_⟩⟩
  · simp [NewTodoList, TodoList.Load, Db.QueryTodos, openRows, TodoList.scanRows, TodoList.Add,
      Db.Exec, sampleDb, sampleTodoRow, todoOfRow]
  · simp [NewNoteList, NoteList.Load, Db.QueryNotes, openRows, NoteList.scanRows, NoteList.Add,
      Db.Exec, sampleDb, sampleNoteRow, noteOfRow]
  · simp [NewEventList, EventList.Load, Db.QueryEvents, openRows, EventList.scanRows,
      EventList.Add, Db.Exec, sampleDb, sampleEventRow, eventOfRow]

/-! ## Selection after `Remove` -/

/-- C4, as stated, fails: removing the only task (n = 1, Selected = 0) leaves
Selected = 0, and removing the last of three tasks with the cursor on it
(n = 3, Selected = 2) leaves Selected = 1; neither lies in the half-open range
[0, max(0, n-2)). -/
theorem remove_selection_outside_half_open_range :
    let one : TodoList := { Todos := sampleTodos.take 1, Selected := 0, NextID := 2 }
    let three : TodoList := { Todos := sampleTodos, Selected := 2, NextID := 4 }
    ((one.Remove Db.empty (.ok 0) 1).err = none ∧
      (one.Remove Db.empty (.ok 0) 1).self.Selected = 0 ∧
      ¬ (0 ≤ (one.Remove Db.empty (.ok 0) 1).self.Selected ∧
          (one.Remove Db.empty (.ok 0) 1).self.Selected < max 0 ((one.Todos.length : Int) - 2))) ∧
    ((three.Remove Db.empty (.ok 0) 3).err = none ∧
      (three.Remove Db.empty (.ok 0) 3).self.Selected = 1 ∧
      ¬ (0 ≤ (three.Remove Db.empty (.ok 0) 3).self.Selected ∧
          (three.Remove Db.empty (.ok 0) 3).self.Selected <
            max 0 ((three.Todos.length : Int) - 2))) := by
  simp [sampleTodos, TodoList.Remove, Db.Exec, firstIndex, removeAt, adjustSelected]

/-- C4, amended: for a task, note or event collection of length n with a valid
cursor (0 <= Selected < n) and a successful Remove of a loaded identity, the
resulting Selected lies in the closed range [0, max(0, n-2)]. -/
theorem remove_selection_in_closed_range :
    (∀ (tl : TodoList) (db : Db) (o : ExecOutcome) (id : Int), o.execFailed = false →
      0 ≤ tl.Selected → tl.Selected < (tl.Todos.length : Int) → (∃ t ∈ tl.Todos, t.ID = id) →
      0 ≤ (tl.Remove db o id).self.Selected ∧
        (tl.Remove db o id).self.Selected ≤ max 0 ((tl.Todos.length : Int) - 2)) ∧
    (∀ (nl : NoteList) (db : Db) (o : ExecOutcome) (id : Int), o.execFailed = false →
      0 ≤ nl.Selected → nl.Selected < (nl.Notes.length : Int) → (∃ t ∈ nl.Notes, t.ID = id) →
      0 ≤ (nl.Remove db o id).self.Selected ∧
        (nl.Remove db o id).self.Selected ≤ max 0 ((nl.Notes.length : Int) - 2)) ∧
    (∀ (el : EventList) (db : Db) (o : ExecOutcome) (id : Int), o.execFailed = false →
      0 ≤ el.Selected → el.Selected < (el.Events.length : Int) → (∃ t ∈ el.Events, t.ID = id) →
      0 ≤ (el.Remove db o id).self.Selected ∧
        (el.Remove db o id).self.Selected ≤ max 0 ((el.Events.length : Int) - 2)) := by
  refine ⟨?_, ?_, ?_⟩
  · intro tl db o id ho h0 h1 hex
    obtain ⟨l1, t, l2, hl, ht, hl1⟩ := exists_first_with_id Todo.ID id tl.Todos hex
    rw [(TodoList_Remove_found tl db o id l1 t l2 ho hl ht hl1).2]
    exact adjustSelected_bounds tl.Selected tl.Todos.length h0 h1
  · intro nl db o id ho h0 h1 hex
    obtain ⟨l1, t, l2, hl, ht, hl1⟩ := exists_first_with_id Note.ID id nl.Notes hex
    rw [(NoteList_Remove_found nl db o id l1 t l2 ho hl ht hl1).2]
    exact adjustSelected_bounds nl.Selected nl.Notes.length h0 h1
  · intro el db o id ho h0 h1 hex
    obtain ⟨l1, t, l2, hl, ht, hl1⟩ := exists_first_with_id Event.ID id el.Events hex
    rw [(EventList_Remove_found el db o id l1 t l2 ho hl ht hl1).2]
    exact adjustSelected_bounds el.Selected el.Events.length h0 h1

/-- Instance of the amended C4: three entities, cursor on the last one, the
last one removed. -/
theorem remove_selection_in_closed_range_witness :
    (0 ≤ (({ Todos := sampleTodos, Selected := 2, NextID := 4 } : TodoList).Remove
            Db.empty (.ok 0) 3).self.Selected ∧
      (({ Todos := sampleTodos, Selected := 2, NextID := 4 } : TodoList).Remove
            Db.empty (.ok 0) 3).self.Selected ≤ max 0 ((sampleTodos.length : Int) - 2)) ∧
    (0 ≤ (({ Notes := sampleNotes, Selected := 2, NextID := 4 } : NoteList).Remove
            Db.empty (.ok 0) 3).self.Selected ∧
      (({ Notes := sampleNotes, Selected := 2, NextID := 4 } : NoteList).Remove
            Db.empty (.ok 0) 3).self.Selected ≤ max 0 ((sampleNotes.length : Int) - 2)) ∧
    (0 ≤ (({ Events := sampleEvents, Selected := 2, NextID := 4 } : EventList).Remove
            Db.empty (.ok 0) 3).self.Selected ∧
      (({ Events := sampleEvents, Selected := 2, NextID := 4 } : EventList).Remove
            Db.empty (.ok 0) 3).self.Selected ≤ max 0 ((sampleEvents.length : Int) - 2)) :=
  ⟨remove_selection_in_closed_range.1 { Todos := sampleTodos, Selected := 2, NextID := 4 }
      Db.empty (.ok 0) 3 rfl (by decide) (by decide) (by simp [sampleTodos]),
   remove_selection_in_closed_range.2.1 { Notes := sampleNotes, Selected := 2, NextID := 4 }
      Db.empty (.ok 0) 3 rfl (by decide) (by decide) (by simp [sampleNotes]),
   remove_selection_in_closed_range.2.2 { Events := sampleEvents, Selected := 2, NextID := 4 }
      Db.empty (.ok 0) 3 rfl (by decide) (by decide) (by simp [sampleEvents])⟩

/-! ## `Remove` on the list -/

/-- C10: a Remove whose storage delete succeeds returns no error, keeps NextID
and leaves the list equal to the original with the first entity having that
id erased, the rest in their order: if the list is `l1 ++ t :: l2` with `t`
the first entity of that id, the result is `l1 ++ l2`. When no loaded entity
has the id, list, Selected and NextID are unchanged. For tasks, notes and
events. -/
theorem remove_erases_first_match :
    (∀ (tl : TodoList) (db : Db) (o : ExecOutcome) (id : Int), o.execFailed = false →
      (tl.Remove db o id).err = none ∧ (tl.Remove db o id).self.NextID = tl.NextID ∧
      (tl.Remove db o id).self.Todos = tl.Todos.eraseP (fun t => t.ID == id) ∧
      ((∃ t ∈ tl.Todos, t.ID = id) → ∃ l1 t l2, tl.Todos = l1 ++ t :: l2 ∧ t.ID = id ∧
          (∀ y ∈ l1, y.ID ≠ id) ∧ (tl.Remove db o id).self.Todos = l1 ++ l2) ∧
      ((∀ t ∈ tl.Todos, t.ID ≠ id) → (tl.Remove db o id).self = tl)) ∧
    (∀ (nl : NoteList) (db : Db) (o : ExecOutcome) (id : Int), o.execFailed = false →
      (nl.Remove db o id).err = none ∧ (nl.Remove db o id).self.NextID = nl.NextID ∧
      (nl.Remove db o id).self.Notes = nl.Notes.eraseP (fun t => t.ID == id) ∧
      ((∃ t ∈ nl.Notes, t.ID = id) → ∃ l1 t l2, nl.Notes = l1 ++ t :: l2 ∧ t.ID = id ∧
          (∀ y ∈ l1, y.ID ≠ id) ∧ (nl.Remove db o id).self.Notes = l1 ++ l2) ∧
      ((∀ t ∈ nl.Notes, t.ID ≠ id) → (nl.Remove db o id).self = nl)) ∧
    (∀ (el : EventList) (db : Db) (o : ExecOutcome) (id : Int), o.execFailed = false →
      (el.Remove db o id).err = none ∧ (el.Remove db o id).self.NextID = el.NextID ∧
      (el.Remove db o id).self.Events = el.Events.eraseP (fun t => t.ID == id) ∧
      ((∃ t ∈ el.Events, t.ID = id) → ∃ l1 t l2, el.Events = l1 ++ t :: l2 ∧ t.ID = id ∧
          (∀ y ∈ l1, y.ID ≠ id) ∧ (el.Remove db o id).self.Events = l1 ++ l2) ∧
      ((∀ t ∈ el.Events, t.ID ≠ id) → (el.Remove db o id).self = el)) := by
  refine ⟨?_, ?_, ?_⟩
  · intro tl db o id ho
    by_cases hex : ∃ t ∈ tl.Todos, t.ID = id
    · obtain ⟨l1, t, l2, hl, ht, hl1⟩ := exists_first_with_id Todo.ID id tl.Todos hex
      obtain ⟨he, hs⟩ := TodoList_Remove_found tl db o id l1 t l2 ho hl ht hl1
      refine ⟨he, by rw [hs], ?_, fun _ => ⟨l1, t, l2, hl, ht, hl1, by rw [hs]⟩, ?_⟩
      · rw [hs, hl, eraseP_append_cons_first _ l1 t l2 (by simpa using ht)
          (fun y hy => by simpa using hl1 y hy)]
      · intro hno
        obtain ⟨t, ht, hid⟩ := hex
        exact absurd hid (hno t ht)
    · have hno : ∀ t ∈ tl.Todos, t.ID ≠ id := fun t ht hid => hex ⟨t, ht, hid⟩
      obtain ⟨he, hs⟩ := TodoList_Remove_absent tl db o id ho hno
      refine ⟨he, by rw [hs], ?_, fun h => absurd h hex, fun _ => hs⟩
      rw [hs, eraseP_of_none _ _ (fun y hy => by simpa using hno y hy)]
  · intro nl db o id ho
    by_cases hex : ∃ t ∈ nl.Notes, t.ID = id
    · obtain ⟨l1, t, l2, hl, ht, hl1⟩ := exists_first_with_id Note.ID id nl.Notes hex
      obtain ⟨he, hs⟩ := NoteList_Remove_found nl db o id l1 t l2 ho hl ht hl1
      refine ⟨he, by rw [hs], ?_, fun _ => ⟨l1, t, l2, hl, ht, hl1, by rw [hs]⟩, ?_⟩
      · rw [hs, hl, eraseP_append_cons_first _ l1 t l2 (by simpa using ht)
          (fun y hy => by simpa using hl1 y hy)]
      · intro hno
        obtain ⟨t, ht, hid⟩ := hex
        exact absurd hid (hno t ht)
    · have hno : ∀ t ∈ nl.Notes, t.ID ≠ id := fun t ht hid => hex ⟨t, ht, hid⟩
      obtain ⟨he, hs⟩ := NoteList_Remove_absent nl db o id ho hno
      refine ⟨he, by rw [hs], ?_, fun h => absurd h hex, fun _ => hs⟩
      rw [hs, eraseP_of_none _ _ (fun y hy => by simpa using hno y hy)]
  · intro el db o id ho
    by_cases hex : ∃ t ∈ el.Events, t.ID = id
    · obtain ⟨l1, t, l2, hl, ht, hl1⟩ := exists_first_with_id Event.ID id el.Events hex
      obtain ⟨he, hs⟩ := EventList_Remove_found el db o id l1 t l2 ho hl ht hl1
      refine ⟨he, by rw [hs], ?_, fun _ => ⟨l1, t, l2, hl, ht, hl1, by rw [hs]⟩, ?_⟩
      · rw [hs, hl, eraseP_append_cons_first _ l1 t l2 (by simpa using ht)
          (fun y hy => by simpa using hl1 y hy)]
      · intro hno
        obtain ⟨t, ht, hid⟩ := hex
        exact absurd hid (hno t ht)
    · have hno : ∀ t ∈ el.Events, t.ID ≠ id := fun t ht hid => hex ⟨t, ht, hid⟩
      obtain ⟨he, hs⟩ := EventList_Remove_absent el db o id ho hno
      refine ⟨he, by rw [hs], ?_, fun h => absurd h hex, fun _ => hs⟩
      rw [hs, eraseP_of_none _ _ (fun y hy => by simpa using hno y hy)]

/-- Instance of C10: from the three sample tasks, notes and events the entity
with id 2 is removed; removing the unknown id 9 changes nothing. -/
theorem remove_erases_first_match_witness :
    ((ExecOutcome.ok 0).execFailed = false ∧
      (({ Todos := sampleTodos, Selected := 0, NextID := 4 } : TodoList).Remove
          Db.empty (.ok 0) 2).self.Todos = sampleTodos.eraseP (fun t => t.ID == 2) ∧
      (({ Todos := sampleTodos, Selected := 0, NextID := 4 } : TodoList).Remove
          Db.empty (.ok 0) 9).self = { Todos := sampleTodos, Selected := 0, NextID := 4 }) ∧
    ((ExecOutcome.ok 0).execFailed = false ∧
      (({ Notes := sampleNotes, Selected := 0, NextID := 4 } : NoteList).Remove
          Db.empty (.ok 0) 2).self.Notes = sampleNotes.eraseP (fun t => t.ID == 2) ∧
      (({ Notes := sampleNotes, Selected := 0, NextID := 4 } : NoteList).Remove
          Db.empty (.ok 0) 9).self = { Notes := sampleNotes, Selected := 0, NextID := 4 }) ∧
    ((ExecOutcome.ok 0).execFailed = false ∧
      (({ Events := sampleEvents, Selected := 0, NextID := 4 } : EventList).Remove
          Db.empty (.ok 0) 2).self.Events = sampleEvents.eraseP (fun t => t.ID == 2) ∧
      (({ Events := sampleEvents, Selected := 0, NextID := 4 } : EventList).Remove
          Db.empty (.ok 0) 9).self = { Events := sampleEvents, Selected := 0, NextID := 4 }) :=
  ⟨⟨rfl, (remove_erases_first_match.1 _ Db.empty (.ok 0) 2 rfl).2.2.1,
      (remove_erases_first_match.1 _ Db.empty (.ok 0) 9 rfl).2.2.2.2 (by simp [sampleTodos])⟩,
   ⟨rfl, (remove_erases_first_match.2.1 _ Db.empty (.ok 0) 2 rfl).2.2.1,
      (remove_erases_first_match.2.1 _ Db.empty (.ok 0) 9 rfl).2.2.2.2 (by simp [sampleNotes])⟩,
   ⟨rfl, (remove_erases_first_match.2.2 _ Db.empty (.ok 0) 2 rfl).2.2.1,
      (remove_erases_first_match.2.2 _ Db.empty (.ok 0) 9 rfl).2.2.2.2 (by simp [sampleEvents])⟩⟩

/-! ## `ToggleCompleted` -/

/-- C9: for every task collection and id. If no loaded task has the id,
ToggleCompleted returns an error, leaves the database untouched (no statement
is issued: the log of `Exec` calls is the same) and leaves the collection
unchanged. Otherwise, when the storage write succeeds, the list `l1 ++ t :: l2`
with `t` the first task of that id becomes `l1 ++ t' :: l2`, where `t'` is `t`
with Completed negated and every other field kept; Selected and NextID are
kept, and the statement issued writes the negated flag. Two successful toggles
in a row restore the original collection. -/
theorem toggleCompleted_behaviour :
    (∀ (tl : TodoList) (db : Db) (o : ExecOutcome) (id : Int), (∀ t ∈ tl.Todos, t.ID ≠ id) →
      (tl.ToggleCompleted db o id).err ≠ none ∧ (tl.ToggleCompleted db o id).db = db ∧
        (tl.ToggleCompleted db o id).self = tl) ∧
    (∀ (tl : TodoList) (db : Db) (o : ExecOutcome) (id : Int), o.execFailed = false →
      (∃ t ∈ tl.Todos, t.ID = id) →
      ∃ l1 t l2, tl.Todos = l1 ++ t :: l2 ∧ t.ID = id ∧ (∀ y ∈ l1, y.ID ≠ id) ∧
        (tl.ToggleCompleted db o id).err = none ∧
        (tl.ToggleCompleted db o id).self =
          { Todos := l1 ++ { t with Completed := !t.Completed } :: l2,
            Selected := tl.Selected, NextID := tl.NextID } ∧
        (tl.ToggleCompleted db o id).db.log =
          db.log ++ [Stmt.setTodoCompleted (!t.Completed) id]) ∧
    (∀ (tl : TodoList) (db : Db) (o1 o2 : ExecOutcome) (id : Int), o1.execFailed = false →
      o2.execFailed = false → (∃ t ∈ tl.Todos, t.ID = id) →
      (tl.ToggleCompleted db o1 id).err = none ∧
        ((tl.ToggleCompleted db o1 id).self.ToggleCompleted
            (tl.ToggleCompleted db o1 id).db o2 id).err = none ∧
        ((tl.ToggleCompleted db o1 id).self.ToggleCompleted
            (tl.ToggleCompleted db o1 id).db o2 id).self = tl) := by
  refine ⟨?_, ?_, ?_⟩
  · intro tl db o id h
    rw [TodoList_ToggleCompleted_absent tl db o id h]
    simp
  · intro tl db o id ho hex
    obtain ⟨l1, t, l2, hl, ht, hl1⟩ := exists_first_with_id Todo.ID id tl.Todos hex
    exact ⟨l1, t, l2, hl, ht, hl1, TodoList_ToggleCompleted_found tl db o id l1 t l2 ho hl ht hl1⟩
  · intro tl db o1 o2 id ho1 ho2 hex
    obtain ⟨l1, t, l2, hl, ht, hl1⟩ := exists_first_with_id Todo.ID id tl.Todos hex
    obtain ⟨he1, hs1, _⟩ := TodoList_ToggleCompleted_found tl db o1 id l1 t l2 ho1 hl ht hl1
    obtain ⟨he2, hs2, _⟩ := TodoList_ToggleCompleted_found (tl.ToggleCompleted db o1 id).self
      (tl.ToggleCompleted db o1 id).db o2 id l1 { t with Completed := !t.Completed } l2 ho2
      (by rw [hs1]) ht hl1
    refine ⟨he1, he2, ?_⟩
    rw [hs2, hs1]
    cases tl
    simp only [Bool.not_not] at hl ⊢
    simp [hl]

/-- Instance of C9 on the three sample tasks: toggling the unknown id 9 fails
and changes nothing; toggling id 2 twice gives back the collection. -/
theorem toggleCompleted_behaviour_witness :
    ((({ Todos := sampleTodos, Selected := 0, NextID := 4 } : TodoList).ToggleCompleted
          Db.empty (.ok 0) 9).err ≠ none ∧
      (({ Todos := sampleTodos, Selected := 0, NextID := 4 } : TodoList).ToggleCompleted
          Db.empty (.ok 0) 9).db = Db.empty ∧
      (({ Todos := sampleTodos, Selected := 0, NextID := 4 } : TodoList).ToggleCompleted
          Db.empty (.ok 0) 9).self = { Todos := sampleTodos, Selected := 0, NextID := 4 }) ∧
    ((ExecOutcome.ok 0).execFailed = false ∧
      ((({ Todos := sampleTodos, Selected := 0, NextID := 4 } : TodoList).ToggleCompleted
          Db.empty (.ok 0) 2).self.ToggleCompleted
        (({ Todos := sampleTodos, Selected := 0, NextID := 4 } : TodoList).ToggleCompleted
          Db.empty (.ok 0) 2).db (.ok 0) 2).self =
        { Todos := sampleTodos, Selected := 0, NextID := 4 }) :=
  ⟨toggleCompleted_behaviour.1 _ Db.empty (.ok 0) 9 (by simp [sampleTodos]),
   rfl,
   (toggleCompleted_behaviour.2.2 { Todos := sampleTodos, Selected := 0, NextID := 4 }
      Db.empty (.ok 0) (.ok 0) 2 rfl rfl (by simp [sampleTodos])).2.2⟩

/-! ## `NextID` after `Load` -/

/-- C7, as stated, fails: `Load` never lowers NextID. With NextID = 10 before
the call and the single stored row 3, a successful Load reads that row and
leaves NextID = 10, not 3 + 1; with NextID = 5 before the call and an empty
table, a successful Load reads no row and leaves NextID = 5, not 1. -/
theorem load_keeps_larger_nextID :
    ((({ Todos := [], Selected := 0, NextID := 10 } : TodoList).Load sampleDb .none).2 = none ∧
      (({ Todos := [], Selected := 0, NextID := 10 } : TodoList).Load sampleDb .none).1.Todos.map
          (·.ID) = [3] ∧
      (({ Todos := [], Selected := 0, NextID := 10 } : TodoList).Load sampleDb .none).1.NextID
          = 10 ∧
      (({ Todos := [], Selected := 0, NextID := 10 } : TodoList).Load sampleDb .none).1.NextID
          ≠ 3 + 1) ∧
    ((({ Todos := [], Selected := 0, NextID := 5 } : TodoList).Load Db.empty .none).2 = none ∧
      (({ Todos := [], Selected := 0, NextID := 5 } : TodoList).Load Db.empty .none).1.Todos
          = [] ∧
      (({ Todos := [], Selected := 0, NextID := 5 } : TodoList).Load Db.empty .none).1.NextID
          = 5 ∧
      (({ Todos := [], Selected := 0, NextID := 5 } : TodoList).Load Db.empty .none).1.NextID
          ≠ 1) := by
  simp [TodoList.Load, Db.QueryTodos, openRows, TodoList.scanRows, sampleDb, sampleTodoRow,
    Db.empty]

/-- C7, amended: after a successful Load on a task, note or event collection
in any state, over a table whose identities are values of Go's `int` below the
largest one (2^63 - 1), the entities in memory are the rows of the table, and
NextID is the larger of its value before the call and (maximum ID among the
rows read) + 1: it is above every ID read, not below its former value, and
equal either to its former value or to some ID read plus one. In particular it
keeps its former value when no rows were read. At the identity 2^63 - 1 the
sum `id + 1` wraps: Load then leaves NextID = -2^63. -/
theorem load_nextID_is_max :
    (∀ (tl : TodoList) (db : Db) (f : QueryFault), (tl.Load db f).2 = none →
      (∀ r ∈ db.todos, MinInt64 ≤ r.id ∧ r.id < MaxInt64) →
      (tl.Load db f).1.Todos.Perm (db.todos.map todoOfRow) ∧
      (∀ t ∈ (tl.Load db f).1.Todos, t.ID < (tl.Load db f).1.NextID) ∧
      tl.NextID ≤ (tl.Load db f).1.NextID ∧
      ((tl.Load db f).1.NextID = tl.NextID ∨
        ∃ t ∈ (tl.Load db f).1.Todos, (tl.Load db f).1.NextID = t.ID + 1)) ∧
    (∀ (nl : NoteList) (db : Db) (f : QueryFault), (nl.Load db f).2 = none →
      (∀ r ∈ db.notes, MinInt64 ≤ r.id ∧ r.id < MaxInt64) →
      (nl.Load db f).1.Notes.Perm (db.notes.map noteOfRow) ∧
      (∀ t ∈ (nl.Load db f).1.Notes, t.ID < (nl.Load db f).1.NextID) ∧
      nl.NextID ≤ (nl.Load db f).1.NextID ∧
      ((nl.Load db f).1.NextID = nl.NextID ∨
        ∃ t ∈ (nl.Load db f).1.Notes, (nl.Load db f).1.NextID = t.ID + 1)) ∧
    (∀ (el : EventList) (db : Db) (f : QueryFault), (el.Load db f).2 = none →
      (∀ r ∈ db.events, MinInt64 ≤ r.id ∧ r.id < MaxInt64) →
      (el.Load db f).1.Events.Perm (db.events.map eventOfRow) ∧
      (∀ t ∈ (el.Load db f).1.Events, t.ID < (el.Load db f).1.NextID) ∧
      el.NextID ≤ (el.Load db f).1.NextID ∧
      ((el.Load db f).1.NextID = el.NextID ∨
        ∃ t ∈ (el.Load db f).1.Events, (el.Load db f).1.NextID = t.ID + 1)) ∧
    ((({ Todos := [], Selected := 0, NextID := 1 } : TodoList).Load maxIdDb .none).2 = none ∧
      (({ Todos := [], Selected := 0, NextID := 1 } : TodoList).Load maxIdDb .none).1.Todos.map
          (·.ID) = [9223372036854775807] ∧
      (({ Todos := [], Selected := 0, NextID := 1 } : TodoList).Load maxIdDb .none).1.NextID =
        -9223372036854775808) := by
  refine ⟨?_, ?_, ?_, by decide⟩
  · intro tl db f hs hb
    rw [TodoList_Load_success tl db f hs]
    refine ⟨(List.perm_insertionSort _ _).map _, ?_⟩
    have h := raiseNextID_is_max Todo.ID tl.NextID
      ((db.todos.insertionSort fun a b => a.id ≤ b.id).map todoOfRow)
      (by
        intro t ht
        obtain ⟨r, hr, rfl⟩ := List.mem_map.1 ht
        exact hb r ((List.perm_insertionSort _ _).subset hr))
    simpa [List.map_map, Function.comp_def, todoOfRow] using h
  · intro nl db f hs hb
    rw [NoteList_Load_success nl db f hs]
    refine ⟨(List.perm_insertionSort _ _).map _, ?_⟩
    have h := raiseNextID_is_max Note.ID nl.NextID
      ((db.notes.insertionSort fun a b => a.id ≤ b.id).map noteOfRow)
      (by
        intro t ht
        obtain ⟨r, hr, rfl⟩ := List.mem_map.1 ht
        exact hb r ((List.perm_insertionSort _ _).subset hr))
    simpa [List.map_map, Function.comp_def, noteOfRow] using h
  · intro el db f hs hb
    rw [EventList_Load_success el db f hs]
    refine ⟨(List.perm_insertionSort _ _).map _, ?_⟩
    have h := raiseNextID_is_max Event.ID el.NextID
      ((db.events.insertionSort fun a b => a.start_time ≤ b.start_time).map eventOfRow)
      (by
        intro t ht
        obtain ⟨r, hr, rfl⟩ := List.mem_map.1 ht
        exact hb r ((List.perm_insertionSort _ _).subset hr))
    simpa [List.map_map, Function.comp_def, eventOfRow] using h

/-- Instance of the amended C7: Load over the table holding row 3, on
collections whose NextID was 10. -/
theorem load_nextID_is_max_witness :
    ((({ Todos := [], Selected := 0, NextID := 10 } : TodoList).Load sampleDb .none).2 = none ∧
      (10 : Int) ≤
        (({ Todos := [], Selected := 0, NextID := 10 } : TodoList).Load sampleDb .none).1.NextID) ∧
    ((({ Notes := [], Selected := 0, NextID := 10 } : NoteList).Load sampleDb .none).2 = none ∧
      (10 : Int) ≤
        (({ Notes := [], Selected := 0, NextID := 10 } : NoteList).Load sampleDb .none).1.NextID) ∧
    ((({ Events := [], Selected := 0, NextID := 10 } : EventList).Load sampleDb .none).2 = none ∧
      (10 : Int) ≤
        (({ Events := [], Selected := 0, NextID := 10 } : EventList).Load sampleDb .none).1.NextID) :=
  ⟨⟨rfl, (load_nextID_is_max.1 { Todos := [], Selected := 0, NextID := 10 } sampleDb .none
      rfl (by decide)).2.2.1⟩,
   ⟨rfl, (load_nextID_is_max.2.1 { Notes := [], Selected := 0, NextID := 10 } sampleDb .none
      rfl (by decide)).2.2.1⟩,
   ⟨rfl, (load_nextID_is_max.2.2.1 { Events := [], Selected := 0, NextID := 10 } sampleDb .none
      rfl (by decide)).2.2.1⟩⟩

/-! ## Construction over a failing `Load` -/

/-- C8 at the failing input: the table holds rows 3 and 4 and the Load of the
constructor fails after the first row was read, either because `Scan` fails on
the second row or because row iteration breaks there. `Load` returns an error,
yet the collection the constructor returns is not empty: it holds the row read
before the failure (and NextID 4). Only a failure of the query itself leaves
the collection empty. The three constructors behave alike. -/
theorem constructor_keeps_rows_read_before_failure :
    ((TodoList.Load { Todos := [], Selected := 0, NextID := 1 } sampleDb2
          (.scanError 1 "converting NULL to string is unsupported")).2 ≠ none ∧
      NewTodoList sampleDb2 (.scanError 1 "converting NULL to string is unsupported") =
        { Todos := [todoOfRow sampleTodoRow], Selected := 0, NextID := 4 }) ∧
    ((TodoList.Load { Todos := [], Selected := 0, NextID := 1 } sampleDb2
          (.iterError 1 "disk I/O error")).2 ≠ none ∧
      NewTodoList sampleDb2 (.iterError 1 "disk I/O error") =
        { Todos := [todoOfRow sampleTodoRow], Selected := 0, NextID := 4 }) ∧
    ((NoteList.Load { Notes := [], Selected := 0, NextID := 1 } sampleDb2
          (.scanError 1 "converting NULL to string is unsupported")).2 ≠ none ∧
      NewNoteList sampleDb2 (.scanError 1 "converting NULL to string is unsupported") =
        { Notes := [noteOfRow sampleNoteRow], Selected := 0, NextID := 4 }) ∧
    ((EventList.Load { Events := [], Selected := 0, NextID := 1 } sampleDb2
          (.scanError 1 "converting NULL to string is unsupported")).2 ≠ none ∧
      NewEventList sampleDb2 (.scanError 1 "converting NULL to string is unsupported") =
        { Events := [eventOfRow sampleEventRow], Selected := 0, NextID := 4 }) ∧
    (∀ (db : Db) (e : Err),
      (NewTodoList db (.queryError e)).Todos = [] ∧ (NewNoteList db (.queryError e)).Notes = [] ∧
        (NewEventList db (.queryError e)).Events = []) := by
  refine ⟨?_, ?_, ?_, ?_, ?_⟩
  · simp [NewTodoList, TodoList.Load, Db.QueryTodos, openRows, TodoList.scanRows, sampleDb2,
      sampleTodoRow, todoOfRow, wrapInt]
  · simp [NewTodoList, TodoList.Load, Db.QueryTodos, openRows, TodoList.scanRows, sampleDb2,
      sampleTodoRow, todoOfRow, wrapInt]
  · simp [NewNoteList, NoteList.Load, Db.QueryNotes, openRows, NoteList.scanRows, sampleDb2,
      sampleNoteRow, noteOfRow, wrapInt]
  · simp [NewEventList, EventList.Load, Db.QueryEvents, openRows, EventList.scanRows, sampleDb2,
      sampleEventRow, eventOfRow, wrapInt]
  · intro db e
    simp [NewTodoList, TodoList.Load, Db.QueryTodos, NewNoteList, NoteList.Load, Db.QueryNotes,
      NewEventList, EventList.Load, Db.QueryEvents, openRows]

/-! ## The search bar -/

/-- C6: `SearchBar.Match(text)` is true exactly when the query is empty or the
lowercased query is a substring of the lowercased text. With query "notes",
Match("Meeting NOTES") is true; with query "xyz" it is false; with the empty
query Match is true for every text. (For every Unicode case table `tbl`.) -/
theorem searchBar_match_substring (tbl : Char → Char) :
    (∀ (s : SearchBar) (text : String), s.Match tbl text = true ↔
      (s.query = "" ∨
        IsSubstringOf (strings.ToLower tbl s.query) (strings.ToLower tbl text))) ∧
    (∀ s : SearchBar, ({ s with query := "notes" } : SearchBar).Match tbl "Meeting NOTES" = true) ∧
    (∀ s : SearchBar, ({ s with query := "xyz" } : SearchBar).Match tbl "Meeting NOTES" = false) ∧
    (∀ (s : SearchBar) (text : String), ({ s with query := "" } : SearchBar).Match tbl text
      = true) := by
  refine ⟨?_, ?_, ?_, ?_⟩
  · intro s text
    by_cases h : s.query = ""
    · simp [SearchBar.Match, h]
    · simp [SearchBar.Match, h, strings.Contains_iff]
  · intro s
    simp [SearchBar.Match, strings.Contains, strings.ToLower, unicodeToLower, containsRunes]
  · intro s
    simp [SearchBar.Match, strings.Contains, strings.ToLower, unicodeToLower, containsRunes]
    decide
  · intro s text
    simp [SearchBar.Match]

/-! ## The order of the task pipeline -/

/-- C5, as stated, fails: at 23:00 UTC of the first day of the epoch (today's
midnight is the instant 0), T3 is due at 01:00 of the next day, which is not before the end of today, so T3 is scored
by its priority; with Low priority it scores 60 and is displayed after T4
(High, 80). The pipeline displays T2, T4, T3, T1. -/
theorem task_pipeline_order_late_evening :
    (scenarioT1.Completed = true ∧
      (scenarioT2 (23 * Hour)).Completed = false ∧
      (scenarioT2 (23 * Hour)).DueTime = some (23 * Hour - 24 * Hour) ∧
      (scenarioT3 (23 * Hour)).Completed = false ∧
      (scenarioT3 (23 * Hour)).DueTime = some (23 * Hour + 2 * Hour) ∧
      scenarioT4.Completed = false ∧ scenarioT4.Priority = PriorityHigh ∧
      scenarioT4.DueTime = none) ∧
    TodosPage.updateListItems id (scenarioList (23 * Hour)) sampleSearchBar (23 * Hour) 0 =
      [scenarioT2 (23 * Hour), scenarioT4, scenarioT3 (23 * Hour), scenarioT1] ∧
    TodosPage.updateListItems id (scenarioList (23 * Hour)) sampleSearchBar (23 * Hour) 0 ≠
      [scenarioT2 (23 * Hour), scenarioT3 (23 * Hour), scenarioT4, scenarioT1] := by
  decide

/-- C5, amended: for every current time at which two hours from now is still
before the end of today (the `todayEnd` of the pipeline, 24 hours after
today's midnight), every choice of the unspecified fields and every order of
the collection, with T1 completed, T2 incomplete and due one day before now,
T3 incomplete and due two hours after now, T4 incomplete, High priority and
without due time, the task pipeline with empty query and no filter displays
T2, T3, T4, T1. -/
theorem task_pipeline_order (tbl : Char → Char) (now todayStart : Time) (T1 T2 T3 T4 : Todo)
    (tl : TodoList) (searchBar : SearchBar)
    (hq : searchBar.query = "") (hf : searchBar.filter = FilterNone)
    (h1 : T1.Completed = true)
    (h2 : T2.Completed = false) (h2d : T2.DueTime = some (now - 24 * Hour))
    (h3 : T3.Completed = false) (h3d : T3.DueTime = some (now + 2 * Hour))
    (h4 : T4.Completed = false) (h4p : T4.Priority = PriorityHigh) (h4d : T4.DueTime = none)
    (hday : now + 2 * Hour < todayStart + 24 * Hour)
    (hl : tl.Todos.Perm [T1, T2, T3, T4]) :
    TodosPage.updateListItems tbl tl searchBar now todayStart = [T2, T3, T4, T1] := by
  have hfilter : (tl.Todos.filter fun todo =>
      searchBar.Match tbl (todo.Title ++ " " ++ todo.Description)
        && todoPassesFilter searchBar.GetFilter todo now todayStart (todayStart + 24 * Hour))
      = tl.Todos := by
    apply List.filter_eq_self.2
    intro t _
    simp [SearchBar.Match, hq, todoPassesFilter, SearchBar.GetFilter, hf, FilterNone,
      FilterPending, FilterCompleted, FilterHighPriority, FilterMediumPriority,
      FilterLowPriority, FilterToday, FilterOverdue]
  have s1 : todoScore now (todayStart + 24 * Hour) T1 = 0 := by
    simp [todoScore, getTodoPriority, h1]
  have s2 : todoScore now (todayStart + 24 * Hour) T2 = 100 := by
    simp [todoScore, getTodoPriority, h2, h2d, Hour]
  have s3 : todoScore now (todayStart + 24 * Hour) T3 = 90 := by
    have hn : ¬ (now + 2 * Hour < now) := by simp [Hour]
    simp [todoScore, getTodoPriority, h3, h3d, hn, hday]
  have s4 : todoScore now (todayStart + 24 * Hour) T4 = 80 := by
    simp [todoScore, getTodoPriority, h4, h4p, h4d]
  simp only [TodosPage.updateListItems, hfilter]
  refine List.Perm.eq_of_sorted ?_ (sortTodos_sorted tl.Todos now (todayStart + 24 * Hour)) ?_
    ((sortTodos_perm tl.Todos now (todayStart + 24 * Hour)).trans (hl.trans ?_))
  · intro a b ha hb hab hba
    have ha2 : a ∈ [T1, T2, T3, T4] :=
      hl.subset ((sortTodos_perm tl.Todos now (todayStart + 24 * Hour)).subset ha)
    simp only [List.mem_cons, List.mem_singleton, List.not_mem_nil, or_false] at ha2 hb
    rcases ha2 with rfl | rfl | rfl | rfl <;> rcases hb with rfl | rfl | rfl | rfl <;>
      first
        | rfl
        | (exfalso; omega)
  · simp [s1, s2, s3, s4]
  · exact @List.perm_append_comm _ [T1] [T2, T3, T4]

/-- Instance of the amended C5 at 10:00: T3 is due at 12:00 of the same day. -/
theorem task_pipeline_order_witness :
    (sampleSearchBar.query = "" ∧ sampleSearchBar.filter = FilterNone ∧
      (10 * Hour + 2 * Hour : Int) < 0 + 24 * Hour ∧
      (scenarioList (10 * Hour)).Todos.Perm
        [scenarioT1, scenarioT2 (10 * Hour), scenarioT3 (10 * Hour), scenarioT4]) ∧
    TodosPage.updateListItems id (scenarioList (10 * Hour)) sampleSearchBar (10 * Hour) 0 =
      [scenarioT2 (10 * Hour), scenarioT3 (10 * Hour), scenarioT4, scenarioT1] :=
  ⟨⟨rfl, rfl, by decide, List.Perm.refl _⟩,
   task_pipeline_order id (10 * Hour) 0 scenarioT1 (scenarioT2 (10 * Hour))
     (scenarioT3 (10 * Hour)) scenarioT4 (scenarioList (10 * Hour)) sampleSearchBar rfl rfl rfl
     rfl rfl rfl rfl rfl rfl rfl (by decide) (List.Perm.refl _)⟩

/-- The adjustment of `Remove` keeps a valid cursor valid on the shortened
list. -/
theorem adjustSelected_valid (selected : Int) (n m : Nat) (hm : m = n - 1) (h0 : 0 ≤ selected)
    (h1 : selected ≤ max 0 ((n : Int) - 1)) :
    0 ≤ adjustSelected selected (n - 1) ∧
      adjustSelected selected (n - 1) ≤ max 0 ((m : Int) - 1) := by
  subst hm
  unfold adjustSelected
  simp only [le_max_iff] at h1 ⊢
  split_ifs with h <;> omega

/-! ## `Update` on the task list -/

theorem TodoList_Update_found (tl : TodoList) (db : Db) (o : ExecOutcome) (id : Int)
    (title description : String) (priority : Priority) (dueTime : Option Time)
    (l1 : List Todo) (t : Todo) (l2 : List Todo) (ho : o.execFailed = false)
    (hl : tl.Todos = l1 ++ t :: l2) (ht : t.ID = id) (h1 : ∀ y ∈ l1, y.ID ≠ id) :
    (tl.Update db o id title description priority dueTime).err = none ∧
      (tl.Update db o id title description priority dueTime).self =
        { Todos := l1 ++ { ID := t.ID, Title := title, Description := description,
                           Completed := t.Completed, Priority := priority,
                           CreatedAt := t.CreatedAt, DueTime := dueTime } :: l2,
          Selected := tl.Selected, NextID := tl.NextID } := by
  have hp : ∀ y ∈ l1, (fun todo : Todo => todo.ID == id) y = false := by
    intro y hy; simpa using h1 y hy
  have hx : (fun todo : Todo => todo.ID == id) t = true := by simpa using ht
  have hu := updateFirst_append_cons (fun todo : Todo => todo.ID == id)
    (fun todo => { todo with Title := title, Description := description,
                             Priority := priority, DueTime := dueTime }) l1 t l2 hx hp
  cases o with
  | execError e => simp [ExecOutcome.execFailed] at ho
  | idError rowid e => simp [TodoList.Update, Db.Exec, hl, hu]
  | ok rowid => simp [TodoList.Update, Db.Exec, hl, hu]

theorem TodoList_Update_absent (tl : TodoList) (db : Db) (o : ExecOutcome) (id : Int)
    (title description : String) (priority : Priority) (dueTime : Option Time)
    (ho : o.execFailed = false) (h : ∀ t ∈ tl.Todos, t.ID ≠ id) :
    (tl.Update db o id title description priority dueTime).err = none ∧
      (tl.Update db o id title description priority dueTime).self = tl := by
  have hu := updateFirst_of_none (fun todo : Todo => todo.ID == id)
    (fun todo => { todo with Title := title, Description := description,
                             Priority := priority, DueTime := dueTime }) tl.Todos
    (by intro y hy; simpa using h y hy)
  cases o with
  | execError e => simp [ExecOutcome.execFailed] at ho
  | idError rowid e => simp [TodoList.Update, Db.Exec, hu]
  | ok rowid => simp [TodoList.Update, Db.Exec, hu]

/-- C11: for every task collection, a successful Update(id, title,
description, priority, due) turns the list `l1 ++ t :: l2`, with `t` the first
task of that id, into `l1 ++ t' :: l2`, where `t'` has the four given fields
and the ID, Completed and CreatedAt of `t`; Selected and NextID are kept. When
no loaded task has that id, the collection is unchanged and the call returns
no error. -/
theorem update_sets_four_fields :
    (∀ (tl : TodoList) (db : Db) (o : ExecOutcome) (id : Int) (title description : String)
        (priority : Priority) (dueTime : Option Time), o.execFailed = false →
      (∃ t ∈ tl.Todos, t.ID = id) →
      ∃ l1 t l2, tl.Todos = l1 ++ t :: l2 ∧ t.ID = id ∧ (∀ y ∈ l1, y.ID ≠ id) ∧
        (tl.Update db o id title description priority dueTime).err = none ∧
        (tl.Update db o id title description priority dueTime).self =
          { Todos := l1 ++ { ID := t.ID, Title := title, Description := description,
                             Completed := t.Completed, Priority := priority,
                             CreatedAt := t.CreatedAt, DueTime := dueTime } :: l2,
            Selected := tl.Selected, NextID := tl.NextID }) ∧
    (∀ (tl : TodoList) (db : Db) (o : ExecOutcome) (id : Int) (title description : String)
        (priority : Priority) (dueTime : Option Time), o.execFailed = false →
      (∀ t ∈ tl.Todos, t.ID ≠ id) →
      (tl.Update db o id title description priority dueTime).err = none ∧
        (tl.Update db o id title description priority dueTime).self = tl) := by
  refine ⟨?_, ?_⟩
  · intro tl db o id title description priority dueTime ho hex
    obtain ⟨l1, t, l2, hl, ht, hl1⟩ := exists_first_with_id Todo.ID id tl.Todos hex
    exact ⟨l1, t, l2, hl, ht, hl1,
      TodoList_Update_found tl db o id title description priority dueTime l1 t l2 ho hl ht hl1⟩
  · intro tl db o id title description priority dueTime ho hno
    exact TodoList_Update_absent tl db o id title description priority dueTime ho hno

/-- Instance of C11 on the three sample tasks: updating id 2 rewrites the
second task only; updating the unknown id 9 changes nothing. -/
theorem update_sets_four_fields_witness :
    ((ExecOutcome.ok 0).execFailed = false ∧
      (({ Todos := sampleTodos, Selected := 1, NextID := 4 } : TodoList).Update
          Db.empty (.ok 0) 2 "x" "y" PriorityLow (some 7)).self.Todos.map (·.ID) = [1, 2, 3]) ∧
    ((ExecOutcome.ok 0).execFailed = false ∧
      (({ Todos := sampleTodos, Selected := 1, NextID := 4 } : TodoList).Update
          Db.empty (.ok 0) 9 "x" "y" PriorityLow (some 7)).self =
        { Todos := sampleTodos, Selected := 1, NextID := 4 }) := by
  refine ⟨⟨rfl, ?_⟩, rfl, ?_⟩
  · obtain ⟨l1, t, l2, hl, ht, _, _, hs⟩ := update_sets_four_fields.1
      { Todos := sampleTodos, Selected := 1, NextID := 4 } Db.empty (.ok 0) 2 "x" "y"
      PriorityLow (some 7) rfl (by simp [sampleTodos])
    rw [hs]
    have := congrArg (List.map (·.ID)) hl
    simpa [sampleTodos, ht] using this.symm
  · exact (update_sets_four_fields.2 { Todos := sampleTodos, Selected := 1, NextID := 4 }
      Db.empty (.ok 0) 9 "x" "y" PriorityLow (some 7) rfl (by simp [sampleTodos])).2

/-! ## Cursor validity -/

/-- C12: the invariant 0 <= Selected <= max(0, len-1) is preserved by
SelectNext, by SelectPrevious / SelectPrev and by every Remove whose storage
delete succeeds, on task, note and event collections; SelectNext and
SelectPrevious change Selected by at most one and nothing else; on an empty
collection with Selected = 0 both return the state unchanged. -/
theorem cursor_validity_preserved :
    (∀ tl : TodoList, 0 ≤ tl.Selected → tl.Selected ≤ max 0 ((tl.Todos.length : Int) - 1) →
      (0 ≤ tl.SelectNext.Selected ∧
        tl.SelectNext.Selected ≤ max 0 ((tl.SelectNext.Todos.length : Int) - 1)) ∧
      (0 ≤ tl.SelectPrevious.Selected ∧
        tl.SelectPrevious.Selected ≤ max 0 ((tl.SelectPrevious.Todos.length : Int) - 1)) ∧
      (∀ (db : Db) (o : ExecOutcome) (id : Int), o.execFailed = false →
        0 ≤ (tl.Remove db o id).self.Selected ∧
          (tl.Remove db o id).self.Selected ≤
            max 0 (((tl.Remove db o id).self.Todos.length : Int) - 1))) ∧
    (∀ nl : NoteList, 0 ≤ nl.Selected → nl.Selected ≤ max 0 ((nl.Notes.length : Int) - 1) →
      (0 ≤ nl.SelectNext.Selected ∧
        nl.SelectNext.Selected ≤ max 0 ((nl.SelectNext.Notes.length : Int) - 1)) ∧
      (0 ≤ nl.SelectPrev.Selected ∧
        nl.SelectPrev.Selected ≤ max 0 ((nl.SelectPrev.Notes.length : Int) - 1)) ∧
      (∀ (db : Db) (o : ExecOutcome) (id : Int), o.execFailed = false →
        0 ≤ (nl.Remove db o id).self.Selected ∧
          (nl.Remove db o id).self.Selected ≤
            max 0 (((nl.Remove db o id).self.Notes.length : Int) - 1))) ∧
    (∀ el : EventList, 0 ≤ el.Selected → el.Selected ≤ max 0 ((el.Events.length : Int) - 1) →
      (0 ≤ el.SelectNext.Selected ∧
        el.SelectNext.Selected ≤ max 0 ((el.SelectNext.Events.length : Int) - 1)) ∧
      (0 ≤ el.SelectPrev.Selected ∧
        el.SelectPrev.Selected ≤ max 0 ((el.SelectPrev.Events.length : Int) - 1)) ∧
      (∀ (db : Db) (o : ExecOutcome) (id : Int), o.execFailed = false →
        0 ≤ (el.Remove db o id).self.Selected ∧
          (el.Remove db o id).self.Selected ≤
            max 0 (((el.Remove db o id).self.Events.length : Int) - 1))) ∧
    (∀ tl : TodoList,
      tl.SelectNext.Todos = tl.Todos ∧ tl.SelectNext.NextID = tl.NextID ∧
      tl.SelectPrevious.Todos = tl.Todos ∧ tl.SelectPrevious.NextID = tl.NextID ∧
      (tl.SelectNext.Selected = tl.Selected ∨ tl.SelectNext.Selected = tl.Selected + 1) ∧
      (tl.SelectPrevious.Selected = tl.Selected ∨
        tl.SelectPrevious.Selected = tl.Selected - 1)) ∧
    (∀ nl : NoteList,
      nl.SelectNext.Notes = nl.Notes ∧ nl.SelectNext.NextID = nl.NextID ∧
      nl.SelectPrev.Notes = nl.Notes ∧ nl.SelectPrev.NextID = nl.NextID ∧
      (nl.SelectNext.Selected = nl.Selected ∨ nl.SelectNext.Selected = nl.Selected + 1) ∧
      (nl.SelectPrev.Selected = nl.Selected ∨ nl.SelectPrev.Selected = nl.Selected - 1)) ∧
    (∀ el : EventList,
      el.SelectNext.Events = el.Events ∧ el.SelectNext.NextID = el.NextID ∧
      el.SelectPrev.Events = el.Events ∧ el.SelectPrev.NextID = el.NextID ∧
      (el.SelectNext.Selected = el.Selected ∨ el.SelectNext.Selected = el.Selected + 1) ∧
      (el.SelectPrev.Selected = el.Selected ∨ el.SelectPrev.Selected = el.Selected - 1)) ∧
    (∀ n : Int,
      (({ Todos := [], Selected := 0, NextID := n } : TodoList).SelectNext =
          { Todos := [], Selected := 0, NextID := n } ∧
        ({ Todos := [], Selected := 0, NextID := n } : TodoList).SelectPrevious =
          { Todos := [], Selected := 0, NextID := n }) ∧
      (({ Notes := [], Selected := 0, NextID := n } : NoteList).SelectNext =
          { Notes := [], Selected := 0, NextID := n } ∧
        ({ Notes := [], Selected := 0, NextID := n } : NoteList).SelectPrev =
          { Notes := [], Selected := 0, NextID := n }) ∧
      (({ Events := [], Selected := 0, NextID := n } : EventList).SelectNext =
          { Events := [], Selected := 0, NextID := n } ∧
        ({ Events := [], Selected := 0, NextID := n } : EventList).SelectPrev =
          { Events := [], Selected := 0, NextID := n })) := by
  refine ⟨?_, ?_, ?_, ?_, ?_, ?_, ?_⟩
  · intro tl h0 h1
    refine ⟨?_, ?_, ?_⟩
    · unfold TodoList.SelectNext
      split_ifs with h <;> simp only [le_max_iff] at h1 ⊢ <;> omega
    · unfold TodoList.SelectPrevious
      split_ifs with h <;> simp only [le_max_iff] at h1 ⊢ <;> omega
    · intro db o id ho
      by_cases hex : ∃ t ∈ tl.Todos, t.ID = id
      · obtain ⟨l1, t, l2, hl, ht, hl1⟩ := exists_first_with_id Todo.ID id tl.Todos hex
        rw [(TodoList_Remove_found tl db o id l1 t l2 ho hl ht hl1).2]
        exact adjustSelected_valid tl.Selected tl.Todos.length (l1 ++ l2).length
          (by simp [hl]) h0 h1
      · rw [(TodoList_Remove_absent tl db o id ho fun t ht hid => hex ⟨t, ht, hid⟩).2]
        exact ⟨h0, h1⟩
  · intro nl h0 h1
    refine ⟨?_, ?_, ?_⟩
    · unfold NoteList.SelectNext
      split_ifs with h <;> simp only [le_max_iff] at h1 ⊢ <;> omega
    · unfold NoteList.SelectPrev
      split_ifs with h <;> simp only [le_max_iff] at h1 ⊢ <;> omega
    · intro db o id ho
      by_cases hex : ∃ t ∈ nl.Notes, t.ID = id
      · obtain ⟨l1, t, l2, hl, ht, hl1⟩ := exists_first_with_id Note.ID id nl.Notes hex
        rw [(NoteList_Remove_found nl db o id l1 t l2 ho hl ht hl1).2]
        exact adjustSelected_valid nl.Selected nl.Notes.length (l1 ++ l2).length
          (by simp [hl]) h0 h1
      · rw [(NoteList_Remove_absent nl db o id ho fun t ht hid => hex ⟨t, ht, hid⟩).2]
        exact ⟨h0, h1⟩
  · intro el h0 h1
    refine ⟨?_, ?_, ?_⟩
    · unfold EventList.SelectNext
      split_ifs with h <;> simp only [le_max_iff] at h1 ⊢ <;> omega
    · unfold EventList.SelectPrev
      split_ifs with h <;> simp only [le_max_iff] at h1 ⊢ <;> omega
    · intro db o id ho
      by_cases hex : ∃ t ∈ el.Events, t.ID = id
      · obtain ⟨l1, t, l2, hl, ht, hl1⟩ := exists_first_with_id Event.ID id el.Events hex
        rw [(EventList_Remove_found el db o id l1 t l2 ho hl ht hl1).2]
        exact adjustSelected_valid el.Selected el.Events.length (l1 ++ l2).length
          (by simp [hl]) h0 h1
      · rw [(EventList_Remove_absent el db o id ho fun t ht hid => hex ⟨t, ht, hid⟩).2]
        exact ⟨h0, h1⟩
  · intro tl
    unfold TodoList.SelectNext TodoList.SelectPrevious
    refine ⟨?_, ?_, ?_, ?_, ?_, ?_⟩ <;> split_ifs <;> simp
  · intro nl
    unfold NoteList.SelectNext NoteList.SelectPrev
    refine ⟨?_, ?_, ?_, ?_, ?_, ?_⟩ <;> split_ifs <;> simp
  · intro el
    unfold EventList.SelectNext EventList.SelectPrev
    refine ⟨?_, ?_, ?_, ?_, ?_, ?_⟩ <;> split_ifs <;> simp
  · intro n
    simp [TodoList.SelectNext, TodoList.SelectPrevious, NoteList.SelectNext, NoteList.SelectPrev,
      EventList.SelectNext, EventList.SelectPrev]

/-- Instance of C12 on collections of three entities with the cursor on the
last one. -/
theorem cursor_validity_preserved_witness :
    ((0 : Int) ≤ 2 ∧ (2 : Int) ≤ max 0 ((sampleTodos.length : Int) - 1) ∧
      0 ≤ ({ Todos := sampleTodos, Selected := 2, NextID := 4 } : TodoList).SelectNext.Selected ∧
      ({ Todos := sampleTodos, Selected := 2, NextID := 4 } : TodoList).SelectNext.Selected ≤
        max 0 ((({ Todos := sampleTodos, Selected := 2, NextID := 4 } :
          TodoList).SelectNext.Todos.length : Int) - 1)) ∧
    ((0 : Int) ≤ 2 ∧ (2 : Int) ≤ max 0 ((sampleNotes.length : Int) - 1) ∧
      0 ≤ ({ Notes := sampleNotes, Selected := 2, NextID := 4 } : NoteList).SelectPrev.Selected ∧
      ({ Notes := sampleNotes, Selected := 2, NextID := 4 } : NoteList).SelectPrev.Selected ≤
        max 0 ((({ Notes := sampleNotes, Selected := 2, NextID := 4 } :
          NoteList).SelectPrev.Notes.length : Int) - 1)) ∧
    ((0 : Int) ≤ 2 ∧ (2 : Int) ≤ max 0 ((sampleEvents.length : Int) - 1) ∧
      (ExecOutcome.ok 0).execFailed = false ∧
      0 ≤ (({ Events := sampleEvents, Selected := 2, NextID := 4 } : EventList).Remove
            Db.empty (.ok 0) 3).self.Selected ∧
      (({ Events := sampleEvents, Selected := 2, NextID := 4 } : EventList).Remove
            Db.empty (.ok 0) 3).self.Selected ≤
        max 0 (((({ Events := sampleEvents, Selected := 2, NextID := 4 } : EventList).Remove
            Db.empty (.ok 0) 3).self.Events.length : Int) - 1)) :=
  ⟨⟨by decide, by decide,
      (cursor_validity_preserved.1 { Todos := sampleTodos, Selected := 2, NextID := 4 }
        (by decide) (by decide)).1⟩,
   ⟨by decide, by decide,
      (cursor_validity_preserved.2.1 { Notes := sampleNotes, Selected := 2, NextID := 4 }
        (by decide) (by decide)).2.1⟩,
   ⟨by decide, by decide, rfl,
      (cursor_validity_preserved.2.2.1 { Events := sampleEvents, Selected := 2, NextID := 4 }
        (by decide) (by decide)).2.2 Db.empty (.ok 0) 3 rfl⟩⟩

/-! ## The task sort -/

/-- C13: for every list of tasks and every clock (now, todayEnd), sortTodos
yields a permutation of its input along which the score is non-increasing
(every task scores at least as much as every task after it), where the score
`getTodoPriority` is 0 for a completed task, else 100 with a due time strictly
before now, else 90 with a due time before todayEnd, else 80, 70, 60 for
High, Medium, Low priority. -/
theorem sortTodos_sorted_permutation :
    (∀ (todos : List Todo) (now todayEnd : Time),
      (sortTodos todos now todayEnd).Perm todos ∧
      (sortTodos todos now todayEnd).Pairwise
        (fun a b => getTodoPriority b now todayEnd ≤ getTodoPriority a now todayEnd)) ∧
    (∀ (todo : Todo) (now todayEnd : Time),
      (todo.Completed = true → getTodoPriority todo now todayEnd = 0) ∧
      (todo.Completed = false → (∃ due, todo.DueTime = some due ∧ due < now) →
        getTodoPriority todo now todayEnd = 100) ∧
      (todo.Completed = false → ¬ (∃ due, todo.DueTime = some due ∧ due < now) →
        (∃ due, todo.DueTime = some due ∧ due < todayEnd) →
        getTodoPriority todo now todayEnd = 90) ∧
      (todo.Completed = false → ¬ (∃ due, todo.DueTime = some due ∧ due < now) →
        ¬ (∃ due, todo.DueTime = some due ∧ due < todayEnd) →
        (todo.Priority = PriorityHigh → getTodoPriority todo now todayEnd = 80) ∧
        (todo.Priority = PriorityMedium → getTodoPriority todo now todayEnd = 70) ∧
        (todo.Priority = PriorityLow → getTodoPriority todo now todayEnd = 60))) := by
  refine ⟨fun todos now todayEnd =>
    ⟨sortTodos_perm todos now todayEnd, sortTodos_sorted todos now todayEnd⟩, ?_⟩
  intro todo now todayEnd
  refine ⟨?_, ?_, ?_, ?_⟩
  · intro hc
    simp [getTodoPriority, hc]
  · rintro hc ⟨due, hd, hlt⟩
    simp [getTodoPriority, hc, hd, hlt]
  · rintro hc hno ⟨due, hd, hlt⟩
    have : ¬ due < now := fun h => hno ⟨due, hd, h⟩
    simp [getTodoPriority, hc, hd, hlt, this]
  · intro hc hno hnt
    cases hd : todo.DueTime with
    | none =>
        refine ⟨?_, ?_, ?_⟩ <;> intro h <;>
          simp [getTodoPriority, hc, hd, h, PriorityHigh, PriorityMedium, PriorityLow]
    | some due =>
        have h1 : ¬ due < now := fun h => hno ⟨due, hd, h⟩
        have h2 : ¬ due < todayEnd := fun h => hnt ⟨due, hd, h⟩
        refine ⟨?_, ?_, ?_⟩ <;> intro h <;>
          simp [getTodoPriority, hc, hd, h1, h2, h, PriorityHigh, PriorityMedium, PriorityLow]

/-- Instance of C13: the scores of the four tasks of the sort scenario at
10:00 (100 for the overdue T2, 90 for T3 due today, 80 for the High T4 and 0
for the completed T1). -/
theorem sortTodos_sorted_permutation_witness :
    (scenarioT1.Completed = true ∧ getTodoPriority scenarioT1 (10 * Hour) (24 * Hour) = 0) ∧
    ((scenarioT2 (10 * Hour)).Completed = false ∧
      getTodoPriority (scenarioT2 (10 * Hour)) (10 * Hour) (24 * Hour) = 100) ∧
    ((scenarioT3 (10 * Hour)).Completed = false ∧
      getTodoPriority (scenarioT3 (10 * Hour)) (10 * Hour) (24 * Hour) = 90) ∧
    (scenarioT4.Completed = false ∧ scenarioT4.Priority = PriorityHigh ∧
      getTodoPriority scenarioT4 (10 * Hour) (24 * Hour) = 80) :=
  ⟨⟨rfl, (sortTodos_sorted_permutation.2 scenarioT1 (10 * Hour) (24 * Hour)).1 rfl⟩,
   ⟨rfl, (sortTodos_sorted_permutation.2 (scenarioT2 (10 * Hour)) (10 * Hour) (24 * Hour)).2.1 rfl
      ⟨10 * Hour - 24 * Hour, rfl, by decide⟩⟩,
   ⟨rfl, (sortTodos_sorted_permutation.2 (scenarioT3 (10 * Hour)) (10 * Hour) (24 * Hour)).2.2.1
      rfl (by rintro ⟨due, hd, hlt⟩; cases hd; revert hlt; decide)
      ⟨10 * Hour + 2 * Hour, rfl, by decide⟩⟩,
   ⟨rfl, rfl, ((sortTodos_sorted_permutation.2 scenarioT4 (10 * Hour) (24 * Hour)).2.2.2 rfl
      (by rintro ⟨due, hd, _⟩; cases hd) (by rintro ⟨due, hd, _⟩; cases hd)).1 rfl⟩⟩

/-! ## Stability of the sort -/

/-- The inner loop exchanges nothing when no later cell calls for it. -/
theorem swapPass_of_no_swap {α : Type} (swap : α → α → Bool) (xs : List α) :
    ∀ x : α, (∀ y ∈ xs, swap x y = false) → swapPass swap x xs = (x, xs) := by
  induction xs with
  | nil => intro x _; rfl
  | cons y ys ih =>
      intro x h
      have hy : swap x y = false := h y (List.mem_cons_self _ _)
      have := ih x fun z hz => h z (List.mem_cons_of_mem _ hz)
      simp [swapPass, hy, this]

/-- The sort returns a list unchanged in which no cell calls for an exchange
with a later one. -/
theorem swapSortFrom_of_pairwise {α : Type} (swap : α → α → Bool) :
    ∀ (n : Nat) (l : List α), l.Pairwise (fun a b => swap a b = false) →
      swapSortFrom swap n l = l := by
  intro n
  induction n with
  | zero => intro l _; rfl
  | succ n ih =>
      intro l h
      cases l with
      | nil => rfl
      | cons x xs =>
          obtain ⟨hx, hxs⟩ := List.pairwise_cons.1 h
          simp [swapSortFrom, swapPass_of_no_swap swap xs x hx, ih xs hxs]

theorem bubbleSort_of_pairwise {α : Type} (swap : α → α → Bool) (l : List α)
    (h : l.Pairwise (fun a b => swap a b = false)) : bubbleSort swap l = l := by
  rw [bubbleSort_eq_swapSort]
  exact swapSortFrom_of_pairwise swap l.length l h

theorem pairwise_class_of_le {α : Type} (score : α → Int) (s : Int) (l : List α)
    (h : ∀ z ∈ l, score z ≤ s) : l.Pairwise (fun a b => score a = s → score b ≤ s) :=
  List.pairwise_of_forall_mem_list fun _ _ b hb _ => h b hb

/-- The inner loop on `cur :: pre ++ e :: rest`, where `e` is the first cell
of score `s` and no cell after it scores more: the cells of score `s` keep
their order, and the loop leaves a list with the same property. -/
theorem swapPass_keeps_class {α : Type} (score : α → Int) (s : Int) (e : α) (rest : List α)
    (he : score e = s) (hrest : ∀ z ∈ rest, score z ≤ s) :
    ∀ (pre : List α) (cur : α), score cur ≠ s → (∀ y ∈ pre, score y ≠ s) →
      ((swapPass (fun a b => decide (score b > score a)) cur (pre ++ e :: rest)).1 ::
          (swapPass (fun a b => decide (score b > score a)) cur (pre ++ e :: rest)).2).filter
          (fun t => decide (score t = s)) = e :: rest.filter (fun t => decide (score t = s)) ∧
      (swapPass (fun a b => decide (score b > score a)) cur (pre ++ e :: rest)).2.Pairwise
        (fun a b => score a = s → score b ≤ s) := by
  intro pre
  induction pre with
  | nil =>
      intro cur hcur _
      by_cases h : score e > score cur
      · have hsp : swapPass (fun a b => decide (score b > score a)) e rest = (e, rest) :=
          swapPass_of_no_swap _ rest e (by
            intro y hy
            have := hrest y hy
            simp only [decide_eq_false_iff_not]
            omega)
        simp only [List.nil_append, swapPass, h, decide_True, if_true, hsp]
        refine ⟨by simp [List.filter_cons, he, hcur], ?_⟩
        exact List.pairwise_cons.2 ⟨fun z _ hc => absurd hc hcur,
          pairwise_class_of_le score s rest hrest⟩
      · have hsp : swapPass (fun a b => decide (score b > score a)) cur rest = (cur, rest) :=
          swapPass_of_no_swap _ rest cur (by
            intro y hy
            have := hrest y hy
            simp only [decide_eq_false_iff_not]
            omega)
        simp only [List.nil_append, swapPass, h, decide_False, Bool.false_eq_true, if_false,
          hsp]
        refine ⟨by simp [List.filter_cons, he, hcur], ?_⟩
        exact List.pairwise_cons.2 ⟨fun z hz _ => hrest z hz,
          pairwise_class_of_le score s rest hrest⟩
  | cons y pre ih =>
      intro cur hcur hpre
      have hy : score y ≠ s := hpre y (List.mem_cons_self _ _)
      have hpre2 : ∀ z ∈ pre, score z ≠ s := fun z hz => hpre z (List.mem_cons_of_mem _ hz)
      by_cases h : score y > score cur
      · obtain ⟨h1, h2⟩ := ih y hy hpre2
        simp only [List.cons_append, swapPass, h, decide_True, if_true]
        refine ⟨?_, List.pairwise_cons.2 ⟨fun z _ hc => absurd hc hcur, h2⟩⟩
        rw [← h1]
        simp [List.filter_cons, hcur]
      · obtain ⟨h1, h2⟩ := ih cur hcur hpre2
        simp only [List.cons_append, swapPass, h, decide_False, Bool.false_eq_true, if_false]
        refine ⟨?_, List.pairwise_cons.2 ⟨fun z _ hc => absurd hc hy, h2⟩⟩
        rw [← h1]
        simp [List.filter_cons, hy]

/-- One pass of the outer loop on a list in which no cell scoring more than
`s` follows a cell of score `s`. -/
theorem swapPass_class_step {α : Type} (score : α → Int) (s : Int) (x : α) (xs : List α)
    (hP : (x :: xs).Pairwise (fun a b => score a = s → score b ≤ s)) :
    ((swapPass (fun a b => decide (score b > score a)) x xs).1 ::
        (swapPass (fun a b => decide (score b > score a)) x xs).2).filter
        (fun t => decide (score t = s)) = (x :: xs).filter (fun t => decide (score t = s)) ∧
    (swapPass (fun a b => decide (score b > score a)) x xs).2.Pairwise
      (fun a b => score a = s → score b ≤ s) := by
  obtain ⟨hx, hxs⟩ := List.pairwise_cons.1 hP
  by_cases hxs' : score x = s
  · have hsp : swapPass (fun a b => decide (score b > score a)) x xs = (x, xs) :=
      swapPass_of_no_swap _ xs x (by
        intro y hy
        have := hx y hy hxs'
        simp only [decide_eq_false_iff_not]
        omega)
    rw [hsp]
    exact ⟨rfl, hxs⟩
  · by_cases hex : ∃ t ∈ xs, score t = s
    · obtain ⟨pre, e, rest, hl, he, hpre⟩ := exists_first_with_id score s xs hex
      subst hl
      have hrest : ∀ z ∈ rest, score z ≤ s := by
        have h2 := (List.pairwise_append.1 hxs).2.1
        exact fun z hz => (List.pairwise_cons.1 h2).1 z hz he
      obtain ⟨h1, h2⟩ := swapPass_keeps_class score s e rest he hrest pre x hxs' hpre
      refine ⟨?_, h2⟩
      rw [h1]
      have hpre0 : pre.filter (fun t => decide (score t = s)) = [] := by
        simpa using hpre
      simp [List.filter_cons, hxs', he, hpre0]
    · have hnone : ∀ t ∈ x :: xs, score t ≠ s := by
        intro t ht
        rcases List.mem_cons.1 ht with rfl | ht
        · exact hxs'
        · exact fun h => hex ⟨t, ht, h⟩
      have hperm := swapPass_perm (fun a b => decide (score b > score a)) xs x
      have hnone2 : ∀ t ∈ (swapPass (fun a b => decide (score b > score a)) x xs).1 ::
          (swapPass (fun a b => decide (score b > score a)) x xs).2, score t ≠ s :=
        fun t ht => hnone t (hperm.subset ht)
      refine ⟨?_, ?_⟩
      · rw [List.filter_eq_nil_iff.2 (by simpa using hnone2),
          List.filter_eq_nil_iff.2 (by simpa using hnone)]
      · exact List.pairwise_of_forall_mem_list fun a ha _ _ hc =>
          absurd hc (hnone2 a (List.mem_cons_of_mem _ ha))

/-- The cells of score `s` keep their order through the sort when no cell
scoring more than `s` follows a cell of score `s` in the input. -/
theorem swapSortFrom_keeps_class {α : Type} (score : α → Int) (s : Int) :
    ∀ (n : Nat) (l : List α), l.Pairwise (fun a b => score a = s → score b ≤ s) →
      (swapSortFrom (fun a b => decide (score b > score a)) n l).filter
        (fun t => decide (score t = s)) = l.filter (fun t => decide (score t = s)) := by
  intro n
  induction n with
  | zero => intro l _; rfl
  | succ n ih =>
      intro l hP
      cases l with
      | nil => rfl
      | cons x xs =>
          obtain ⟨h1, h2⟩ := swapPass_class_step score s x xs hP
          rw [← h1]
          simp only [swapSortFrom, List.filter_cons, ih _ h2]

/-- C14, as stated, fails: A and B both score 70 and C scores 80; on the input
A, B, C the first pass exchanges A with C, which puts A behind B: the output
is C, B, A, with the two tasks of equal score in reversed order. -/
theorem sortTodos_reverses_equal_scores :
    getTodoPriority stabilityA 0 0 = getTodoPriority stabilityB 0 0 ∧
    sortTodos [stabilityA, stabilityB, stabilityC] 0 0 = [stabilityC, stabilityB, stabilityA] ∧
    [stabilityA, stabilityB, stabilityC].filter
        (fun t => decide (getTodoPriority t 0 0 = 70)) = [stabilityA, stabilityB] ∧
    (sortTodos [stabilityA, stabilityB, stabilityC] 0 0).filter
        (fun t => decide (getTodoPriority t 0 0 = 70)) = [stabilityB, stabilityA] ∧
    [stabilityB, stabilityA] ≠ [stabilityA, stabilityB] := by
  decide

/-- C14, amended: for every list of tasks, every clock and every score `s`
such that no task scoring more than `s` comes after a task scoring `s` in the
input, the tasks of score `s` appear in the output of sortTodos in the same
relative order as in the input (as lists: the output filtered to score `s` is
the input filtered to score `s`). In particular a list already in
non-increasing score order is returned unchanged. -/
theorem sortTodos_stable_without_higher_after :
    (∀ (todos : List Todo) (now todayEnd : Time) (s : Int),
      todos.Pairwise
        (fun a b => getTodoPriority a now todayEnd = s → getTodoPriority b now todayEnd ≤ s) →
      (sortTodos todos now todayEnd).filter (fun t => decide (getTodoPriority t now todayEnd = s))
        = todos.filter (fun t => decide (getTodoPriority t now todayEnd = s))) ∧
    (∀ (todos : List Todo) (now todayEnd : Time),
      todos.Pairwise
        (fun a b => getTodoPriority b now todayEnd ≤ getTodoPriority a now todayEnd) →
      sortTodos todos now todayEnd = todos) := by
  refine ⟨?_, ?_⟩
  · intro todos now todayEnd s h
    unfold sortTodos
    rw [bubbleSort_eq_swapSort]
    exact swapSortFrom_keeps_class (fun t => getTodoPriority t now todayEnd) s _ todos h
  · intro todos now todayEnd h
    unfold sortTodos
    apply bubbleSort_of_pairwise
    refine h.imp ?_
    intro a b hab
    simp only [shouldSwapTodos, decide_eq_false_iff_not]
    omega

/-- Instance of the amended C14: on the input C, A, B (scores 80, 70, 70) the
tasks of score 70 keep their order and the list is returned as it is. -/
theorem sortTodos_stable_without_higher_after_witness :
    ([stabilityC, stabilityA, stabilityB].Pairwise
        (fun a b => getTodoPriority a 0 0 = 70 → getTodoPriority b 0 0 ≤ 70) ∧
      (sortTodos [stabilityC, stabilityA, stabilityB] 0 0).filter
          (fun t => decide (getTodoPriority t 0 0 = 70)) =
        [stabilityC, stabilityA, stabilityB].filter
          (fun t => decide (getTodoPriority t 0 0 = 70))) ∧
    ([stabilityC, stabilityA, stabilityB].Pairwise
        (fun a b => getTodoPriority b 0 0 ≤ getTodoPriority a 0 0) ∧
      sortTodos [stabilityC, stabilityA, stabilityB] 0 0 = [stabilityC, stabilityA, stabilityB]) :=
  ⟨⟨by decide, sortTodos_stable_without_higher_after.1 _ 0 0 70 (by decide)⟩,
   ⟨by decide, sortTodos_stable_without_higher_after.2 _ 0 0 (by decide)⟩⟩

/-! ## The sort under a general order -/

/-- After the inner loop, position `i` holds a cell that calls for no exchange
with any other cell, when "no exchange" is a total and transitive relation. -/
theorem swapPass_fst_first {α : Type} (swap : α → α → Bool)
    (htot : ∀ a b, swap a b = true → swap b a = false)
    (htrans : ∀ a b c, swap a b = false → swap b c = false → swap a c = false)
    (xs : List α) :
    ∀ x : α, swap (swapPass swap x xs).1 x = false ∧
      ∀ y ∈ (swapPass swap x xs).2, swap (swapPass swap x xs).1 y = false := by
  induction xs with
  | nil =>
      intro x
      refine ⟨?_, by simp [swapPass]⟩
      cases h : swap x x with
      | false => simpa [swapPass] using h
      | true => have := htot x x h; rw [h] at this; cases this
  | cons y ys ih =>
      intro x
      cases h : swap x y with
      | true =>
          obtain ⟨h1, h2⟩ := ih y
          simp only [swapPass, h, if_true, List.mem_cons]
          refine ⟨htrans _ y x h1 (htot x y h), ?_⟩
          rintro z (rfl | hz)
          · exact htrans _ y z h1 (htot z y h)
          · exact h2 z hz
      | false =>
          obtain ⟨h1, h2⟩ := ih x
          simp only [swapPass, h, Bool.false_eq_true, if_false, List.mem_cons]
          refine ⟨h1, ?_⟩
          rintro z (rfl | hz)
          · exact htrans _ x z h1 h
          · exact h2 z hz

theorem swapSortFrom_sorted_of_order {α : Type} (swap : α → α → Bool)
    (htot : ∀ a b, swap a b = true → swap b a = false)
    (htrans : ∀ a b c, swap a b = false → swap b c = false → swap a c = false) :
    ∀ (n : Nat) (xs : List α), xs.length ≤ n →
      (swapSortFrom swap n xs).Pairwise (fun a b => swap a b = false) := by
  intro n
  induction n with
  | zero =>
      intro xs h
      have : xs = [] := List.length_eq_zero.1 (by omega)
      subst this
      simp [swapSortFrom]
  | succ n ih =>
      intro xs h
      cases xs with
      | nil => simp [swapSortFrom]
      | cons x xs =>
          simp only [swapSortFrom, List.pairwise_cons]
          refine ⟨?_, ih _ (by rw [swapPass_length]; simpa using h)⟩
          intro y hy
          exact (swapPass_fst_first swap htot htrans xs x).2 y
            ((swapSortFrom_perm _ n _).subset hy)

/-- The loop nest leaves no pair of cells that calls for an exchange, when
"no exchange" is a total and transitive relation. -/
theorem bubbleSort_sorted_of_order {α : Type} (swap : α → α → Bool)
    (htot : ∀ a b, swap a b = true → swap b a = false)
    (htrans : ∀ a b c, swap a b = false → swap b c = false → swap a c = false)
    (xs : List α) : (bubbleSort swap xs).Pairwise (fun a b => swap a b = false) := by
  rw [bubbleSort_eq_swapSort]
  exact swapSortFrom_sorted_of_order swap htot htrans xs.length xs (le_refl _)

theorem bubbleSort_perm {α : Type} (swap : α → α → Bool) (xs : List α) :
    (bubbleSort swap xs).Perm xs := by
  rw [bubbleSort_eq_swapSort]
  exact swapSort_perm swap xs

/-- The loop nest run on its own output changes nothing, when "no exchange"
is a total and transitive relation. -/
theorem bubbleSort_idem {α : Type} (swap : α → α → Bool)
    (htot : ∀ a b, swap a b = true → swap b a = false)
    (htrans : ∀ a b c, swap a b = false → swap b c = false → swap a c = false)
    (xs : List α) : bubbleSort swap (bubbleSort swap xs) = bubbleSort swap xs :=
  bubbleSort_of_pairwise swap _ (bubbleSort_sorted_of_order swap htot htrans xs)

/-! ## The event sort -/

theorem eventOrder_total (sa sb ta tb : Int)
    (h : (if sa = sb then if sa ≥ 90 then decide (ta > tb) else decide (tb > ta)
          else decide (sb > sa)) = true) :
    (if sb = sa then if sb ≥ 90 then decide (tb > ta) else decide (ta > tb)
      else decide (sa > sb)) = false := by
  split_ifs at h ⊢ <;> simp only [decide_eq_true_eq, decide_eq_false_iff_not] at h ⊢ <;> omega

theorem eventOrder_trans (sa sb sc ta tb tc : Int)
    (h1 : (if sa = sb then if sa ≥ 90 then decide (ta > tb) else decide (tb > ta)
          else decide (sb > sa)) = false)
    (h2 : (if sb = sc then if sb ≥ 90 then decide (tb > tc) else decide (tc > tb)
          else decide (sc > sb)) = false) :
    (if sa = sc then if sa ≥ 90 then decide (ta > tc) else decide (tc > ta)
      else decide (sc > sa)) = false := by
  split_ifs at h1 h2 ⊢ <;>
    simp only [decide_eq_true_eq, decide_eq_false_iff_not] at h1 h2 ⊢ <;> omega

theorem shouldSwapEvents_total (now todayStart : Time) (a b : Event)
    (h : shouldSwapEvents a b now todayStart = true) :
    shouldSwapEvents b a now todayStart = false :=
  eventOrder_total _ _ _ _ h

theorem shouldSwapEvents_trans (now todayStart : Time) (a b c : Event)
    (h1 : shouldSwapEvents a b now todayStart = false)
    (h2 : shouldSwapEvents b c now todayStart = false) :
    shouldSwapEvents a c now todayStart = false :=
  eventOrder_trans _ _ _ _ _ _ h1 h2

theorem eventOrder_spec (sa sb ta tb : Int)
    (h : (if sa = sb then if sa ≥ 90 then decide (ta > tb) else decide (tb > ta)
          else decide (sb > sa)) = false) :
    sb ≤ sa ∧ (sa = sb → 90 ≤ sa → ta ≤ tb) ∧ (sa = sb → sa < 90 → tb ≤ ta) := by
  split_ifs at h <;> simp only [decide_eq_false_iff_not] at h <;> omega

theorem sortEvents_perm (events : List Event) (now todayStart : Time) :
    (sortEvents events now todayStart).Perm events :=
  bubbleSort_perm _ events

theorem sortEvents_sorted (events : List Event) (now todayStart : Time) :
    (sortEvents events now todayStart).Pairwise
      (fun a b => shouldSwapEvents a b now todayStart = false) :=
  bubbleSort_sorted_of_order _ (shouldSwapEvents_total now todayStart)
    (shouldSwapEvents_trans now todayStart) events

/-- The event sort under the scores of the code: sortEvents yields a
permutation of its input ordered by non-increasing `getEventPriority`; of two
events of equal score the earlier one stands first when the score is at least
90, and the later one stands first in the tier 50. The score is 100 for a
start strictly after today's midnight and before the next, else 90 for a start
after now and less than 7 days ahead, else 80 for a start after now, else
50. -/
theorem sortEvents_order_on_code_scores :
    (∀ (events : List Event) (now todayStart : Time),
      (sortEvents events now todayStart).Perm events ∧
      (sortEvents events now todayStart).Pairwise (fun a b =>
        getEventPriority b now todayStart ≤ getEventPriority a now todayStart ∧
        (getEventPriority a now todayStart = getEventPriority b now todayStart →
          90 ≤ getEventPriority a now todayStart → a.StartTime ≤ b.StartTime) ∧
        (getEventPriority a now todayStart = getEventPriority b now todayStart →
          getEventPriority a now todayStart = 50 → b.StartTime ≤ a.StartTime))) ∧
    (∀ (event : Event) (now todayStart : Time),
      (todayStart < event.StartTime ∧ event.StartTime < todayStart + 24 * Hour →
        getEventPriority event now todayStart = 100) ∧
      (¬ (todayStart < event.StartTime ∧ event.StartTime < todayStart + 24 * Hour) →
        now < event.StartTime ∧ event.StartTime < now + 7 * 24 * Hour →
        getEventPriority event now todayStart = 90) ∧
      (¬ (todayStart < event.StartTime ∧ event.StartTime < todayStart + 24 * Hour) →
        now < event.StartTime → ¬ event.StartTime < now + 7 * 24 * Hour →
        getEventPriority event now todayStart = 80) ∧
      (¬ (todayStart < event.StartTime ∧ event.StartTime < todayStart + 24 * Hour) →
        event.StartTime ≤ now → getEventPriority event now todayStart = 50)) := by
  refine ⟨fun events now todayStart => ⟨sortEvents_perm events now todayStart, ?_⟩, ?_⟩
  · refine (sortEvents_sorted events now todayStart).imp ?_
    intro a b h
    obtain ⟨h1, h2, h3⟩ := eventOrder_spec _ _ a.StartTime b.StartTime h
    exact ⟨h1, h2, fun he h50 => h3 he (by rw [h50]; decide)⟩
  · intro event now todayStart
    refine ⟨?_, ?_, ?_, ?_⟩
    · rintro ⟨h1, h2⟩
      simp [getEventPriority, h1, h2]
    · rintro hno ⟨h1, h2⟩
      have hno' : todayStart < event.StartTime → ¬ event.StartTime < todayStart + 24 * Hour :=
        fun ha hb => hno ⟨ha, hb⟩
      simp only [getEventPriority, gt_iff_lt]
      rw [if_neg (fun h => hno' h.1 h.2), if_pos ⟨h1, h2⟩]
    · intro hno h1 h2
      simp only [getEventPriority, gt_iff_lt]
      rw [if_neg hno, if_neg (fun h => h2 h.2), if_pos h1]
    · intro hno h1
      have h1' : ¬ now < event.StartTime := not_lt.2 h1
      simp only [getEventPriority, gt_iff_lt]
      rw [if_neg hno, if_neg (fun h => h1' h.1), if_neg h1']

/-- C15 on the code: sortEvents yields a permutation of its input in the
order the claim describes for the scores the code computes, and these scores
are the ones of the specification for every event that does not start exactly
at today's midnight. At the failing input, seen at 10:00, an event starting at
today's midnight (score 100 in the specification, being within today's window)
and an event starting in two days (score 90): the code gives the midnight
event the score 50 of a past event and sortEvents places it after the event of
score 90, so the output is not in non-increasing order of the specified
score. -/
theorem sortEvents_ranks_midnight_start_as_past :
    (∀ (events : List Event) (now todayStart : Time),
      (sortEvents events now todayStart).Perm events ∧
      (sortEvents events now todayStart).Pairwise (fun a b =>
        getEventPriority b now todayStart ≤ getEventPriority a now todayStart ∧
        (getEventPriority a now todayStart = getEventPriority b now todayStart →
          90 ≤ getEventPriority a now todayStart → a.StartTime ≤ b.StartTime) ∧
        (getEventPriority a now todayStart = getEventPriority b now todayStart →
          getEventPriority a now todayStart = 50 → b.StartTime ≤ a.StartTime))) ∧
    (∀ (event : Event) (now todayStart : Time), event.StartTime ≠ todayStart →
      getEventPriority event now todayStart = specEventScore event now todayStart) ∧
    (specEventScore (eventAt 1 0) (10 * Hour) 0 = 100 ∧
      getEventPriority (eventAt 1 0) (10 * Hour) 0 = 50 ∧
      specEventScore (eventAt 2 (58 * Hour)) (10 * Hour) 0 = 90 ∧
      getEventPriority (eventAt 2 (58 * Hour)) (10 * Hour) 0 = 90 ∧
      sortEvents [eventAt 1 0, eventAt 2 (58 * Hour)] (10 * Hour) 0 =
        [eventAt 2 (58 * Hour), eventAt 1 0] ∧
      ¬ (sortEvents [eventAt 1 0, eventAt 2 (58 * Hour)] (10 * Hour) 0).Pairwise
          (fun a b => specEventScore b (10 * Hour) 0 ≤ specEventScore a (10 * Hour) 0)) := by
  refine ⟨sortEvents_order_on_code_scores.1, ?_, by decide⟩
  intro event now todayStart hne
  have hiff : (event.StartTime > todayStart ∧ event.StartTime < todayStart + 24 * Hour) ↔
      (todayStart ≤ event.StartTime ∧ event.StartTime < todayStart + 24 * Hour) := by
    constructor
    · rintro ⟨h1, h2⟩; exact ⟨le_of_lt h1, h2⟩
    · rintro ⟨h1, h2⟩; exact ⟨lt_of_le_of_ne h1 (Ne.symm hne), h2⟩
  simp only [getEventPriority, specEventScore, hiff]

/-! ## The "today" window of the calendar -/

/-- C16 on the code: an event passes the calendar's "today" filter exactly
when its start is strictly after today's midnight and before the next
midnight, and the same open window decides the score 100; the lower bound is
excluded. At the failing input, an event starting at today's midnight (the
instant 0, seen at 10:00), the filter rejects the event, the calendar with the
"today" filter displays nothing, and the event scores 50 like a past event,
while an event one nanosecond later passes and scores 100. -/
theorem today_window_excludes_midnight :
    (∀ (event : Event) (now todayStart todayEnd : Time),
      eventPassesFilter FilterToday event now todayStart todayEnd = true ↔
        todayStart < event.StartTime ∧ event.StartTime < todayEnd) ∧
    (∀ (event : Event) (now todayStart : Time),
      getEventPriority event now todayStart = 100 ↔
        todayStart < event.StartTime ∧ event.StartTime < todayStart + 24 * Hour) ∧
    (eventPassesFilter FilterToday (eventAt 1 0) (10 * Hour) 0 (24 * Hour) = false ∧
      CalendarPage.updateListItems id { Events := [eventAt 1 0], Selected := 0, NextID := 2 }
        { sampleSearchBar with filter := FilterToday } (10 * Hour) 0 (10 * Hour) 0 = [] ∧
      getEventPriority (eventAt 1 0) (10 * Hour) 0 = 50 ∧
      eventPassesFilter FilterToday (eventAt 1 1) (10 * Hour) 0 (24 * Hour) = true ∧
      getEventPriority (eventAt 1 1) (10 * Hour) 0 = 100) := by
  refine ⟨?_, ?_, by decide⟩
  · intro event now todayStart todayEnd
    simp [eventPassesFilter]
  · intro event now todayStart
    simp only [getEventPriority, gt_iff_lt]
    split_ifs with h1 h2 h3
    · simp [h1]
    · simp [h1]
    · simp [h1]
    · simp [h1]

/-! ## Running the pipeline twice -/

theorem scoreOrder_total (sa sb : Int) (h : decide (sb > sa) = true) :
    decide (sa > sb) = false := by
  simp only [decide_eq_true_eq, decide_eq_false_iff_not] at h ⊢
  omega

theorem scoreOrder_trans (sa sb sc : Int) (h1 : decide (sb > sa) = false)
    (h2 : decide (sc > sb) = false) : decide (sc > sa) = false := by
  simp only [decide_eq_false_iff_not] at h1 h2 ⊢
  omega

theorem sortTodos_idem (todos : List Todo) (now todayEnd : Time) :
    sortTodos (sortTodos todos now todayEnd) now todayEnd = sortTodos todos now todayEnd :=
  bubbleSort_idem (fun a b => shouldSwapTodos a b now todayEnd)
    (fun a b h =>
      scoreOrder_total (getTodoPriority a now todayEnd) (getTodoPriority b now todayEnd) h)
    (fun a b c h1 h2 =>
      scoreOrder_trans (getTodoPriority a now todayEnd) (getTodoPriority b now todayEnd)
        (getTodoPriority c now todayEnd) h1 h2) todos

theorem sortEvents_idem (events : List Event) (now todayStart : Time) :
    sortEvents (sortEvents events now todayStart) now todayStart =
      sortEvents events now todayStart :=
  bubbleSort_idem _ (shouldSwapEvents_total now todayStart)
    (shouldSwapEvents_trans now todayStart) events

theorem sortNotes_idem (notes : List Note) : sortNotes (sortNotes notes) = sortNotes notes :=
  bubbleSort_idem (fun a b : Note => decide (b.CreatedAt > a.CreatedAt))
    (fun a b h => scoreOrder_total a.CreatedAt b.CreatedAt h)
    (fun a b c h1 h2 => scoreOrder_trans a.CreatedAt b.CreatedAt c.CreatedAt h1 h2) notes

/-- C17: running the pipeline twice in succession, in the same state (query,
filter, clock), displays what one run displays. The sorts return their own
output unchanged (sortTodos, sortEvents, sortNotes); `updateListItems` of the
Tasks, Notes and Calendar views, run again on the same collection, leaves the
view as the first run left it; and the Dashboard's `updateLists`, whose second
run reads the collections as the first run left them, leaves both the view and
the collections as the first run left them. -/
theorem pipeline_idempotent :
    (∀ (todos : List Todo) (now todayEnd : Time),
      sortTodos (sortTodos todos now todayEnd) now todayEnd = sortTodos todos now todayEnd) ∧
    (∀ (events : List Event) (now todayStart : Time),
      sortEvents (sortEvents events now todayStart) now todayStart =
        sortEvents events now todayStart) ∧
    (∀ notes : List Note, sortNotes (sortNotes notes) = sortNotes notes) ∧
    (∀ (tbl : Char → Char) (p : TodosPage) (tl : TodoList) (now todayStart : Time),
      (p.doUpdateListItems tbl tl now todayStart).doUpdateListItems tbl tl now todayStart =
        p.doUpdateListItems tbl tl now todayStart) ∧
    (∀ (tbl : Char → Char) (p : NotesPage) (nl : NoteList),
      (p.doUpdateListItems tbl nl).doUpdateListItems tbl nl = p.doUpdateListItems tbl nl) ∧
    (∀ (tbl : Char → Char) (p : CalendarPage) (el : EventList)
        (now todayStart sortNow sortTodayStart : Time),
      (p.doUpdateListItems tbl el now todayStart sortNow sortTodayStart).doUpdateListItems tbl el
          now todayStart sortNow sortTodayStart =
        p.doUpdateListItems tbl el now todayStart sortNow sortTodayStart) ∧
    (∀ (p : DashboardPage) (ls : Lists) (c : DashboardClock),
      (p.updateLists ls c).1.updateLists (p.updateLists ls c).2 c = p.updateLists ls c) := by
  refine ⟨sortTodos_idem, sortEvents_idem, sortNotes_idem, ?_, ?_, ?_, ?_⟩
  · intro tbl p tl now todayStart
    simp [TodosPage.doUpdateListItems, ListModel.SetItems]
  · intro tbl p nl
    simp [NotesPage.doUpdateListItems, ListModel.SetItems]
  · intro tbl p el now todayStart sortNow sortTodayStart
    simp [CalendarPage.doUpdateListItems, ListModel.SetItems]
  · intro p ls c
    simp [DashboardPage.updateLists, ListModel.SetItems, sortTodos_idem, sortEvents_idem,
      sortNotes_idem]

/-! ## The order of the collection -/

/-- C19: for every active task, note or event form, whatever its field
contents, focus index and mode (create or edit), the key esc leaves the
collection and the database untouched (no statement is issued, so neither Add
nor Update ran), makes the form inactive and clears its text fields, its focus
index, its edit mode and its editing identity (and, for the task form, sets
the priority back to Medium). -/
theorem form_cancel_discards_edits :
    (∀ (lib : TextLib) (f : TodoForm) (tl : TodoList) (db : Db) (o : ExecOutcome) (now : Time),
      f.isActive = true →
      (f.Update lib tl db o now (.key "esc")).list = tl ∧
      (f.Update lib tl db o now (.key "esc")).db = db ∧
      (f.Update lib tl db o now (.key "esc")).form.isActive = false ∧
      (f.Update lib tl db o now (.key "esc")).form.titleInput.value = "" ∧
      (f.Update lib tl db o now (.key "esc")).form.descInput.value = "" ∧
      (f.Update lib tl db o now (.key "esc")).form.priority = PriorityMedium ∧
      (f.Update lib tl db o now (.key "esc")).form.focusIndex = 0 ∧
      (f.Update lib tl db o now (.key "esc")).form.editMode = false ∧
      (f.Update lib tl db o now (.key "esc")).form.editingID = 0) ∧
    (∀ (ti ta : TextLib) (f : NoteForm) (nl : NoteList) (db : Db) (o : ExecOutcome) (now : Time),
      f.isActive = true →
      (f.Update ti ta nl db o now (.key "esc")).list = nl ∧
      (f.Update ti ta nl db o now (.key "esc")).db = db ∧
      (f.Update ti ta nl db o now (.key "esc")).form.isActive = false ∧
      (f.Update ti ta nl db o now (.key "esc")).form.titleInput.value = "" ∧
      (f.Update ti ta nl db o now (.key "esc")).form.contentInput.value = "" ∧
      (f.Update ti ta nl db o now (.key "esc")).form.focusIndex = 0 ∧
      (f.Update ti ta nl db o now (.key "esc")).form.editMode = false ∧
      (f.Update ti ta nl db o now (.key "esc")).form.editingID = 0) ∧
    (∀ (lib : TextLib) (tm : TimeLib) (f : EventForm) (el : EventList) (db : Db)
        (o : ExecOutcome) (now : Time),
      f.isActive = true →
      (f.Update lib tm el db o now (.key "esc")).list = el ∧
      (f.Update lib tm el db o now (.key "esc")).db = db ∧
      (f.Update lib tm el db o now (.key "esc")).form.isActive = false ∧
      (f.Update lib tm el db o now (.key "esc")).form.titleInput.value = "" ∧
      (f.Update lib tm el db o now (.key "esc")).form.descInput.value = "" ∧
      (f.Update lib tm el db o now (.key "esc")).form.locationInput.value = "" ∧
      (f.Update lib tm el db o now (.key "esc")).form.startInput.value = "" ∧
      (f.Update lib tm el db o now (.key "esc")).form.endInput.value = "" ∧
      (f.Update lib tm el db o now (.key "esc")).form.focusIndex = 0 ∧
      (f.Update lib tm el db o now (.key "esc")).form.editMode = false ∧
      (f.Update lib tm el db o now (.key "esc")).form.editingID = 0) := by
  refine ⟨?_, ?_, ?_⟩
  · intro lib f tl db o now h
    simp [TodoForm.Update, h, TodoForm.Reset, TextInput.SetValue, lib.sanitize_empty]
  · intro ti ta f nl db o now h
    simp [NoteForm.Update, h, NoteForm.Reset, TextInput.SetValue, ti.sanitize_empty,
      ta.sanitize_empty]
  · intro lib tm f el db o now h
    simp [EventForm.Update, h, EventForm.Reset, TextInput.SetValue, lib.sanitize_empty]

/-- Instance of C19 on the sample forms. -/
theorem form_cancel_discards_edits_witness :
    (sampleTodoForm.isActive = true ∧
      (sampleTodoForm.Update plainTextLib { Todos := sampleTodos, Selected := 0, NextID := 4 }
          Db.empty (.ok 4) 0 (.key "esc")).form.descInput.value = "") ∧
    (sampleNoteForm.isActive = true ∧
      (sampleNoteForm.Update plainTextLib plainTextLib
          { Notes := sampleNotes, Selected := 0, NextID := 4 } Db.empty (.ok 4) 0
          (.key "esc")).form.editMode = false) ∧
    (sampleEventForm.isActive = true ∧
      (sampleEventForm.Update plainTextLib sampleTimeLib
          { Events := sampleEvents, Selected := 0, NextID := 4 } Db.empty (.ok 4) 0
          (.key "esc")).db = Db.empty) :=
  ⟨⟨rfl, (form_cancel_discards_edits.1 plainTextLib sampleTodoForm _ Db.empty (.ok 4) 0
      rfl).2.2.2.2.1⟩,
   ⟨rfl, (form_cancel_discards_edits.2.1 plainTextLib plainTextLib sampleNoteForm _ Db.empty
      (.ok 4) 0 rfl).2.2.2.2.2.2.1⟩,
   ⟨rfl, (form_cancel_discards_edits.2.2 plainTextLib sampleTimeLib sampleEventForm _ Db.empty
      (.ok 4) 0 rfl).2.1⟩⟩

/-! ## Submitting an incomplete form -/

/-- C20, as stated, fails: the branch that handles the submit input calls
`Submit`, drops its result, then deactivates and resets the form in every
case. The task form with an empty title (Enter on the last field), the note
form with an empty title (ctrl+s) and the event form whose start text does not
parse (ctrl+s) all write nothing, become inactive and lose what was typed in
their other fields. -/
theorem incomplete_submit_closes_form :
    (sampleTodoForm.isActive = true ∧ sampleTodoForm.focusIndex = 2 ∧
      sampleTodoForm.titleInput.value = "" ∧ sampleTodoForm.descInput.value = "details" ∧
      (sampleTodoForm.Update plainTextLib { Todos := sampleTodos, Selected := 0, NextID := 4 }
          Db.empty (.ok 4) 0 (.key "enter")).list =
        { Todos := sampleTodos, Selected := 0, NextID := 4 } ∧
      (sampleTodoForm.Update plainTextLib { Todos := sampleTodos, Selected := 0, NextID := 4 }
          Db.empty (.ok 4) 0 (.key "enter")).db = Db.empty ∧
      (sampleTodoForm.Update plainTextLib { Todos := sampleTodos, Selected := 0, NextID := 4 }
          Db.empty (.ok 4) 0 (.key "enter")).form.isActive = false ∧
      (sampleTodoForm.Update plainTextLib { Todos := sampleTodos, Selected := 0, NextID := 4 }
          Db.empty (.ok 4) 0 (.key "enter")).form.descInput.value = "") ∧
    (sampleNoteForm.isActive = true ∧ sampleNoteForm.titleInput.value = "" ∧
      sampleNoteForm.contentInput.value = "thoughts" ∧
      (sampleNoteForm.Update plainTextLib plainTextLib
          { Notes := sampleNotes, Selected := 0, NextID := 4 } Db.empty (.ok 4) 0
          (.key "ctrl+s")).db = Db.empty ∧
      (sampleNoteForm.Update plainTextLib plainTextLib
          { Notes := sampleNotes, Selected := 0, NextID := 4 } Db.empty (.ok 4) 0
          (.key "ctrl+s")).form.isActive = false ∧
      (sampleNoteForm.Update plainTextLib plainTextLib
          { Notes := sampleNotes, Selected := 0, NextID := 4 } Db.empty (.ok 4) 0
          (.key "ctrl+s")).form.contentInput.value = "") ∧
    (sampleEventForm.isActive = true ∧ sampleEventForm.titleInput.value = "Party" ∧
      (sampleEventForm.Submit sampleTimeLib { Events := sampleEvents, Selected := 0, NextID := 4 }
          Db.empty (.ok 4) 0).err = some "parsing time: cannot parse" ∧
      (sampleEventForm.Update plainTextLib sampleTimeLib
          { Events := sampleEvents, Selected := 0, NextID := 4 } Db.empty (.ok 4) 0
          (.key "ctrl+s")).db = Db.empty ∧
      (sampleEventForm.Update plainTextLib sampleTimeLib
          { Events := sampleEvents, Selected := 0, NextID := 4 } Db.empty (.ok 4) 0
          (.key "ctrl+s")).form.isActive = false ∧
      (sampleEventForm.Update plainTextLib sampleTimeLib
          { Events := sampleEvents, Selected := 0, NextID := 4 } Db.empty (.ok 4) 0
          (.key "ctrl+s")).form.titleInput.value = "") := by
  decide

/-- C20, amended: for every active form, a submit input (Enter on the last
field of the task form, ctrl+s on the note and event forms) that applies no
mutation because a required field is empty (the title; for events also the
start or the end text) or because the start or end text does not parse leaves
the collection and the database untouched, makes the form inactive and clears
its field contents, as `Reset` does. -/
theorem incomplete_submit_resets_form :
    (∀ (lib : TextLib) (f : TodoForm) (tl : TodoList) (db : Db) (o : ExecOutcome) (now : Time),
      f.isActive = true → f.focusIndex = 2 → f.titleInput.value = "" →
      (f.Update lib tl db o now (.key "enter")).list = tl ∧
      (f.Update lib tl db o now (.key "enter")).db = db ∧
      (f.Update lib tl db o now (.key "enter")).form =
        TodoForm.Reset lib { f with isActive := false } ∧
      (f.Update lib tl db o now (.key "enter")).form.isActive = false ∧
      (f.Update lib tl db o now (.key "enter")).form.titleInput.value = "" ∧
      (f.Update lib tl db o now (.key "enter")).form.descInput.value = "") ∧
    (∀ (ti ta : TextLib) (f : NoteForm) (nl : NoteList) (db : Db) (o : ExecOutcome) (now : Time),
      f.isActive = true → f.titleInput.value = "" →
      (f.Update ti ta nl db o now (.key "ctrl+s")).list = nl ∧
      (f.Update ti ta nl db o now (.key "ctrl+s")).db = db ∧
      (f.Update ti ta nl db o now (.key "ctrl+s")).form =
        NoteForm.Reset ti ta { f with isActive := false } ∧
      (f.Update ti ta nl db o now (.key "ctrl+s")).form.isActive = false ∧
      (f.Update ti ta nl db o now (.key "ctrl+s")).form.titleInput.value = "" ∧
      (f.Update ti ta nl db o now (.key "ctrl+s")).form.contentInput.value = "") ∧
    (∀ (lib : TextLib) (tm : TimeLib) (f : EventForm) (el : EventList) (db : Db)
        (o : ExecOutcome) (now : Time),
      f.isActive = true →
      (f.titleInput.value = "" ∨ f.startInput.value = "" ∨ f.endInput.value = "" ∨
        (∃ e, tm.Parse f.startInput.value = .error e) ∨
        (∃ e, tm.Parse f.endInput.value = .error e)) →
      (f.Update lib tm el db o now (.key "ctrl+s")).list = el ∧
      (f.Update lib tm el db o now (.key "ctrl+s")).db = db ∧
      (f.Update lib tm el db o now (.key "ctrl+s")).form =
        EventForm.Reset lib { f with isActive := false } ∧
      (f.Update lib tm el db o now (.key "ctrl+s")).form.isActive = false ∧
      (f.Update lib tm el db o now (.key "ctrl+s")).form.titleInput.value = "" ∧
      (f.Update lib tm el db o now (.key "ctrl+s")).form.descInput.value = "" ∧
      (f.Update lib tm el db o now (.key "ctrl+s")).form.locationInput.value = "" ∧
      (f.Update lib tm el db o now (.key "ctrl+s")).form.startInput.value = "" ∧
      (f.Update lib tm el db o now (.key "ctrl+s")).form.endInput.value = "") := by
  refine ⟨?_, ?_, ?_⟩
  · intro lib f tl db o now h h2 ht
    simp [TodoForm.Update, h, h2, TodoForm.Submit, TextInput.Value, ht, TodoForm.Reset,
      TextInput.SetValue, lib.sanitize_empty]
  · intro ti ta f nl db o now h ht
    simp [NoteForm.Update, h, NoteForm.Submit, TextInput.Value, ht, NoteForm.Reset,
      TextInput.SetValue, ti.sanitize_empty, ta.sanitize_empty]
  · intro lib tm f el db o now h hc
    have hs : (f.Submit tm el db o now).self = el ∧ (f.Submit tm el db o now).db = db := by
      unfold EventForm.Submit
      simp only [TextInput.Value]
      by_cases h0 : f.titleInput.value = "" ∨ f.startInput.value = "" ∨ f.endInput.value = ""
      · simp [h0]
      · rw [if_neg h0]
        rcases hc with h1 | h1 | h1 | ⟨e, h1⟩ | ⟨e, h1⟩
        · exact absurd (Or.inl h1) h0
        · exact absurd (Or.inr (Or.inl h1)) h0
        · exact absurd (Or.inr (Or.inr h1)) h0
        · simp [h1]
        · cases hp : tm.Parse f.startInput.value <;> simp [h1]
    simp [EventForm.Update, h, hs.1, hs.2, EventForm.Reset, TextInput.SetValue,
      lib.sanitize_empty]

/-- Instance of the amended C20 on the sample forms. -/
theorem incomplete_submit_resets_form_witness :
    (sampleTodoForm.isActive = true ∧ sampleTodoForm.focusIndex = 2 ∧
      sampleTodoForm.titleInput.value = "" ∧
      (sampleTodoForm.Update plainTextLib { Todos := sampleTodos, Selected := 0, NextID := 4 }
          Db.empty (.ok 4) 0 (.key "enter")).form.isActive = false) ∧
    (sampleNoteForm.isActive = true ∧ sampleNoteForm.titleInput.value = "" ∧
      (sampleNoteForm.Update plainTextLib plainTextLib
          { Notes := sampleNotes, Selected := 0, NextID := 4 } Db.empty (.ok 4) 0
          (.key "ctrl+s")).form.isActive = false) ∧
    (sampleEventForm.isActive = true ∧
      (∃ e, sampleTimeLib.Parse sampleEventForm.startInput.value = .error e) ∧
      (sampleEventForm.Update plainTextLib sampleTimeLib
          { Events := sampleEvents, Selected := 0, NextID := 4 } Db.empty (.ok 4) 0
          (.key "ctrl+s")).form.isActive = false) :=
  ⟨⟨rfl, rfl, rfl, (incomplete_submit_resets_form.1 plainTextLib sampleTodoForm _ Db.empty
      (.ok 4) 0 rfl rfl rfl).2.2.2.1⟩,
   ⟨rfl, rfl, (incomplete_submit_resets_form.2.1 plainTextLib plainTextLib sampleNoteForm _
      Db.empty (.ok 4) 0 rfl rfl).2.2.2.1⟩,
   ⟨rfl, ⟨_, rfl⟩, (incomplete_submit_resets_form.2.2 plainTextLib sampleTimeLib sampleEventForm
      _ Db.empty (.ok 4) 0 rfl (Or.inr (Or.inr (Or.inr (Or.inl ⟨_, rfl⟩))))).2.2.2.1⟩⟩

/-! ## `Submit` of the forms -/

theorem TodoList_Add_log (tl : TodoList) (db : Db) (o : ExecOutcome) (now : Time)
    (title description : String) (priority : Priority) (dueTime : Option Time) :
    (tl.Add db o now title description priority dueTime).db.log =
      db.log ++ [.insertTodo title description false priority dueTime now] := by
  cases o <;> simp [TodoList.Add, Db.Exec]

theorem TodoList_Update_log (tl : TodoList) (db : Db) (o : ExecOutcome) (id : Int)
    (title description : String) (priority : Priority) (dueTime : Option Time) :
    (tl.Update db o id title description priority dueTime).db.log =
      db.log ++ [.updateTodo title description priority dueTime id] := by
  cases o <;> simp [TodoList.Update, Db.Exec]

theorem NoteList_Add_log (nl : NoteList) (db : Db) (o : ExecOutcome) (now : Time)
    (title content : String) :
    (nl.Add db o now title content).db.log = db.log ++ [.insertNote title content now] := by
  cases o <;> simp [NoteList.Add, Db.Exec]

theorem NoteList_Update_log (nl : NoteList) (db : Db) (o : ExecOutcome) (id : Int)
    (title content : String) :
    (nl.Update db o id title content).db.log = db.log ++ [.updateNote title content id] := by
  cases o <;> simp [NoteList.Update, Db.Exec]

theorem EventList_Add_log (el : EventList) (db : Db) (o : ExecOutcome) (now : Time)
    (title content location : String) (startTime endTime : Time) :
    (el.Add db o now title content location startTime endTime).db.log =
      db.log ++ [.insertEvent title content location startTime endTime now] := by
  cases o <;> simp [EventList.Add, Db.Exec]

theorem EventList_Update_log (el : EventList) (db : Db) (o : ExecOutcome) (id : Int)
    (title content location : String) (startTime endTime : Time) :
    (el.Update db o id title content location startTime endTime).db.log =
      db.log ++ [.updateEvent title content location startTime endTime id] := by
  cases o <;> simp [EventList.Update, Db.Exec]

/-- With the title, start and end fields non-empty and a start or end text
that does not parse, `Submit` returns the error `time.Parse` gave and leaves
the event collection and the database (tables and `Exec` log) as they were. -/
theorem submit_parse_failure_no_mutation (tm : TimeLib) (f : EventForm) (el : EventList)
    (db : Db) (o : ExecOutcome) (now : Time)
    (ht : f.titleInput.value ≠ "") (hs : f.startInput.value ≠ "") (he : f.endInput.value ≠ "")
    (hp : (∃ e, tm.Parse f.startInput.value = .error e) ∨
      (∃ e, tm.Parse f.endInput.value = .error e)) :
    (∃ e, (f.Submit tm el db o now).err = some e ∧
      (tm.Parse f.startInput.value = .error e ∨ tm.Parse f.endInput.value = .error e)) ∧
    (f.Submit tm el db o now).self = el ∧ (f.Submit tm el db o now).db = db := by
  unfold EventForm.Submit
  simp only [TextInput.Value, ht, hs, he, or_self, if_false]
  cases h1 : tm.Parse f.startInput.value with
  | error e1 => exact ⟨⟨e1, rfl, Or.inl rfl⟩, rfl, rfl⟩
  | ok startTime =>
      cases h2 : tm.Parse f.endInput.value with
      | error e2 => exact ⟨⟨e2, rfl, Or.inr rfl⟩, rfl, rfl⟩
      | ok endTime =>
          rcases hp with ⟨e, h⟩ | ⟨e, h⟩
          · rw [h1] at h; cases h
          · rw [h2] at h; cases h

/-- C21 on the code: a start or end text that does not parse never leads to a
mutation, but the error is returned only when the end field is filled in.
For every event form, if the start or the end text does not parse, `Submit`
leaves the collection and the database (tables and `Exec` log) as they were;
with title, start and end fields non-empty it returns the parse error. At the
failing input, a form with the title `Party`, the start text `tomorrow`, which
does not parse, and an empty end field, `Submit` returns no error: the guard
on the empty end field returns nil before anything is parsed. The same form
with the end field filled in returns the parse error. -/
theorem submit_without_end_hides_parse_error :
    (∀ (tm : TimeLib) (f : EventForm) (el : EventList) (db : Db) (o : ExecOutcome) (now : Time),
      ((∃ e, tm.Parse f.startInput.value = .error e) ∨
        (∃ e, tm.Parse f.endInput.value = .error e)) →
      (f.Submit tm el db o now).self = el ∧ (f.Submit tm el db o now).db = db) ∧
    (∀ (tm : TimeLib) (f : EventForm) (el : EventList) (db : Db) (o : ExecOutcome) (now : Time),
      f.titleInput.value ≠ "" → f.startInput.value ≠ "" → f.endInput.value ≠ "" →
      ((∃ e, tm.Parse f.startInput.value = .error e) ∨
        (∃ e, tm.Parse f.endInput.value = .error e)) →
      ∃ e, (f.Submit tm el db o now).err = some e ∧
        (tm.Parse f.startInput.value = .error e ∨ tm.Parse f.endInput.value = .error e)) ∧
    (unparsableStartNoEndForm.titleInput.value = "Party" ∧
      unparsableStartNoEndForm.startInput.value = "tomorrow" ∧
      unparsableStartNoEndForm.endInput.value = "" ∧
      sampleTimeLib.Parse "tomorrow" = .error "parsing time: cannot parse" ∧
      (unparsableStartNoEndForm.Submit sampleTimeLib
          { Events := sampleEvents, Selected := 0, NextID := 4 } sampleDb (.ok 9) 0).err = none ∧
      (unparsableStartNoEndForm.Submit sampleTimeLib
          { Events := sampleEvents, Selected := 0, NextID := 4 } sampleDb (.ok 9) 0).db =
        sampleDb ∧
      (sampleEventForm.Submit sampleTimeLib
          { Events := sampleEvents, Selected := 0, NextID := 4 } sampleDb (.ok 9) 0).err =
        some "parsing time: cannot parse") := by
  refine ⟨?_, ?_, ⟨by decide, by decide, by decide, rfl, by decide, by decide, by decide⟩⟩
  · intro tm f el db o now hp
    by_cases h0 : f.titleInput.value = "" ∨ f.startInput.value = "" ∨ f.endInput.value = ""
    · simp [EventForm.Submit, TextInput.Value, h0]
    · have ht : f.titleInput.value ≠ "" := fun h => h0 (Or.inl h)
      have hs : f.startInput.value ≠ "" := fun h => h0 (Or.inr (Or.inl h))
      have he : f.endInput.value ≠ "" := fun h => h0 (Or.inr (Or.inr h))
      exact (submit_parse_failure_no_mutation tm f el db o now ht hs he hp).2
  · intro tm f el db o now ht hs he hp
    exact (submit_parse_failure_no_mutation tm f el db o now ht hs he hp).1

/-- C22 on the code: `Submit` treats the end field as required. For every
event form with an empty end field, whatever the title and the start text,
`Submit` returns without an error and without calling `Add` or `Update`. At
the failing input, a form with the title `Party`, the start text
`2025-12-25 14:30` (which parses) and an empty end field, in create mode and
in edit mode, the collection and the database are unchanged and no statement
reaches `Exec`; the same form with the end field filled in inserts the
event. -/
theorem submit_requires_end_time :
    (∀ (tm : TimeLib) (f : EventForm) (el : EventList) (db : Db) (o : ExecOutcome) (now : Time),
      f.endInput.value = "" →
      (f.Submit tm el db o now).err = none ∧ (f.Submit tm el db o now).self = el ∧
        (f.Submit tm el db o now).db = db) ∧
    (endlessEventForm.titleInput.value = "Party" ∧
      sampleTimeLib.Parse endlessEventForm.startInput.value = .ok 1766673000000000000 ∧
      endlessEventForm.endInput.value = "" ∧
      (endlessEventForm.Submit sampleTimeLib { Events := sampleEvents, Selected := 0, NextID := 4 }
          Db.empty (.ok 4) 0).err = none ∧
      (endlessEventForm.Submit sampleTimeLib { Events := sampleEvents, Selected := 0, NextID := 4 }
          Db.empty (.ok 4) 0).self = { Events := sampleEvents, Selected := 0, NextID := 4 } ∧
      (endlessEventForm.Submit sampleTimeLib { Events := sampleEvents, Selected := 0, NextID := 4 }
          Db.empty (.ok 4) 0).db = Db.empty ∧
      (EventForm.Submit sampleTimeLib { endlessEventForm with editMode := true, editingID := 1 }
          { Events := sampleEvents, Selected := 0, NextID := 4 } Db.empty (.ok 4) 0).db =
        Db.empty) ∧
    ((completeEventForm.Submit sampleTimeLib { Events := sampleEvents, Selected := 0, NextID := 4 }
        Db.empty (.ok 4) 0).db.log =
      [.insertEvent "Party" "" "Office" 1766673000000000000 1766673000000000000 0]) := by
  refine ⟨?_, ⟨by decide, rfl, by decide⟩, by decide⟩
  intro tm f el db o now h
  simp [EventForm.Submit, TextInput.Value, h]

/-! ## What the forms hand to storage -/

/-- C23: whatever the state of a form, `Submit` hands at most one statement to
`Exec`, and only with a non-empty title. The task form issues nothing, or, the
title being non-empty, the update or the insert of a task with that title; the
note form alike; the event form issues nothing, or, the title and the start
field being non-empty and the start and end texts parsing, the update or the
insert of an event with that title and the parsed start time. Complete forms
do reach storage: the three sample forms issue their statement. -/
theorem submit_writes_complete_records :
    (∀ (f : TodoForm) (tl : TodoList) (db : Db) (o : ExecOutcome) (now : Time),
      (f.Submit tl db o now).db = db ∨
      (f.titleInput.value ≠ "" ∧
        ((f.Submit tl db o now).db.log =
            db.log ++ [.updateTodo f.titleInput.value f.descInput.value f.priority none
              f.editingID] ∨
          (f.Submit tl db o now).db.log =
            db.log ++ [.insertTodo f.titleInput.value f.descInput.value false f.priority none
              now]))) ∧
    (∀ (f : NoteForm) (nl : NoteList) (db : Db) (o : ExecOutcome) (now : Time),
      (f.Submit nl db o now).db = db ∨
      (f.titleInput.value ≠ "" ∧
        ((f.Submit nl db o now).db.log =
            db.log ++ [.updateNote f.titleInput.value f.contentInput.value f.editingID] ∨
          (f.Submit nl db o now).db.log =
            db.log ++ [.insertNote f.titleInput.value f.contentInput.value now]))) ∧
    (∀ (tm : TimeLib) (f : EventForm) (el : EventList) (db : Db) (o : ExecOutcome) (now : Time),
      (f.Submit tm el db o now).db = db ∨
      (f.titleInput.value ≠ "" ∧ f.startInput.value ≠ "" ∧
        ∃ startTime endTime, tm.Parse f.startInput.value = .ok startTime ∧
          tm.Parse f.endInput.value = .ok endTime ∧
          ((f.Submit tm el db o now).db.log =
              db.log ++ [.updateEvent f.titleInput.value f.descInput.value
                f.locationInput.value startTime endTime f.editingID] ∨
            (f.Submit tm el db o now).db.log =
              db.log ++ [.insertEvent f.titleInput.value f.descInput.value
                f.locationInput.value startTime endTime now]))) ∧
    ((completeTodoForm.Submit { Todos := sampleTodos, Selected := 0, NextID := 4 } Db.empty
        (.ok 4) 0).db.log = [.insertTodo "Buy milk" "details" false PriorityHigh none 0] ∧
      (completeNoteForm.Submit { Notes := sampleNotes, Selected := 0, NextID := 4 } Db.empty
        (.ok 4) 0).db.log = [.updateNote "Ideas" "thoughts" 2] ∧
      (completeEventForm.Submit sampleTimeLib { Events := sampleEvents, Selected := 0, NextID := 4 }
        Db.empty (.ok 4) 0).db.log =
      [.insertEvent "Party" "" "Office" 1766673000000000000 1766673000000000000 0]) := by
  refine ⟨?_, ?_, ?_, by decide⟩
  · intro f tl db o now
    by_cases ht : f.titleInput.value = ""
    · left; simp [TodoForm.Submit, TextInput.Value, ht]
    · right
      refine ⟨ht, ?_⟩
      by_cases hm : f.editMode = true
      · left; simp [TodoForm.Submit, TextInput.Value, ht, hm, TodoList_Update_log]
      · right; simp [TodoForm.Submit, TextInput.Value, ht, hm, TodoList_Add_log]
  · intro f nl db o now
    by_cases ht : f.titleInput.value = ""
    · left; simp [NoteForm.Submit, TextInput.Value, ht]
    · right
      refine ⟨ht, ?_⟩
      by_cases hm : f.editMode = true
      · left; simp [NoteForm.Submit, TextInput.Value, ht, hm, NoteList_Update_log]
      · right; simp [NoteForm.Submit, TextInput.Value, ht, hm, NoteList_Add_log]
  · intro tm f el db o now
    by_cases h0 : f.titleInput.value = "" ∨ f.startInput.value = "" ∨ f.endInput.value = ""
    · left; simp [EventForm.Submit, TextInput.Value, h0]
    · have ht : f.titleInput.value ≠ "" := fun h => h0 (Or.inl h)
      have hs : f.startInput.value ≠ "" := fun h => h0 (Or.inr (Or.inl h))
      cases h1 : tm.Parse f.startInput.value with
      | error e1 => left; simp [EventForm.Submit, TextInput.Value, h0, h1]
      | ok startTime =>
          cases h2 : tm.Parse f.endInput.value with
          | error e2 => left; simp [EventForm.Submit, TextInput.Value, h0, h1, h2]
          | ok endTime =>
              right
              refine ⟨ht, hs, startTime, endTime, rfl, rfl, ?_⟩
              by_cases hm : f.editMode = true
              · left
                simp [EventForm.Submit, TextInput.Value, h0, h1, h2, hm, EventList_Update_log]
              · right
                simp [EventForm.Submit, TextInput.Value, h0, h1, h2, hm, EventList_Add_log]

/-! ## Activating a form -/

theorem TodoForm_forward_isActive (lib : TextLib) (f : TodoForm) (msg : Msg) :
    (TodoForm.forward lib f msg).isActive = f.isActive := by
  unfold TodoForm.forward
  split_ifs <;> rfl

theorem NoteForm_forward_isActive (ti ta : TextLib) (f : NoteForm) (msg : Msg) :
    (NoteForm.forward ti ta f msg).isActive = f.isActive := by
  unfold NoteForm.forward
  split_ifs <;> rfl

theorem EventForm_forward_isActive (lib : TextLib) (f : EventForm) (msg : Msg) :
    (EventForm.forward lib f msg).isActive = f.isActive := by
  unfold EventForm.forward
  split_ifs <;> rfl

theorem TodoForm_Reset_clear (lib : TextLib) (f : TodoForm) : (TodoForm.Reset lib f).IsClear := by
  simp [TodoForm.IsClear, TodoForm.Reset, TextInput.SetValue, lib.sanitize_empty]

theorem NoteForm_Reset_clear (ti ta : TextLib) (f : NoteForm) :
    (NoteForm.Reset ti ta f).IsClear := by
  simp [NoteForm.IsClear, NoteForm.Reset, TextInput.SetValue, ti.sanitize_empty,
    ta.sanitize_empty]

theorem EventForm_Reset_clear (lib : TextLib) (f : EventForm) :
    (EventForm.Reset lib f).IsClear := by
  simp [EventForm.IsClear, EventForm.Reset, TextInput.SetValue, lib.sanitize_empty]

/-- An active task form that `Update` leaves inactive was reset. -/
theorem TodoForm_Update_closed (lib : TextLib) (f : TodoForm) (tl : TodoList) (db : Db)
    (o : ExecOutcome) (now : Time) (msg : Msg) (ha : f.isActive = true)
    (h : (f.Update lib tl db o now msg).form.isActive = false) :
    (f.Update lib tl db o now msg).form = TodoForm.Reset lib { f with isActive := false } := by
  unfold TodoForm.Update at h ⊢
  simp only [ha, Bool.not_true, Bool.false_eq_true, if_false] at h ⊢
  cases msg with
  | key name =>
      simp only at h ⊢
      split_ifs at h ⊢ <;>
        first
        | rfl
        | (exfalso; simp [TodoForm_forward_isActive, ha, TextInput.Blur, TextInput.Focus] at h)
  | windowSize w hgt => simp [TodoForm_forward_isActive, ha] at h
  | other => simp [TodoForm_forward_isActive, ha] at h

/-- An active note form that `Update` leaves inactive was reset. -/
theorem NoteForm_Update_closed (ti ta : TextLib) (f : NoteForm) (nl : NoteList) (db : Db)
    (o : ExecOutcome) (now : Time) (msg : Msg) (ha : f.isActive = true)
    (h : (f.Update ti ta nl db o now msg).form.isActive = false) :
    (f.Update ti ta nl db o now msg).form = NoteForm.Reset ti ta { f with isActive := false } := by
  unfold NoteForm.Update at h ⊢
  simp only [ha, Bool.not_true, Bool.false_eq_true, if_false] at h ⊢
  cases msg with
  | key name =>
      simp only at h ⊢
      split_ifs at h ⊢ <;>
        first
        | rfl
        | (exfalso; simp [NoteForm_forward_isActive, ha, TextInput.Blur, TextInput.Focus] at h)
  | windowSize w hgt => simp [NoteForm_forward_isActive, ha] at h
  | other => simp [NoteForm_forward_isActive, ha] at h

set_option maxHeartbeats 4000000 in
/-- An active event form that `Update` leaves inactive was reset. -/
theorem EventForm_Update_closed (lib : TextLib) (tm : TimeLib) (f : EventForm) (el : EventList)
    (db : Db) (o : ExecOutcome) (now : Time) (msg : Msg) (ha : f.isActive = true)
    (h : (f.Update lib tm el db o now msg).form.isActive = false) :
    (f.Update lib tm el db o now msg).form = EventForm.Reset lib { f with isActive := false } := by
  unfold EventForm.Update at h ⊢
  simp only [ha, Bool.not_true, Bool.false_eq_true, if_false] at h ⊢
  cases msg with
  | key name =>
      simp only at h ⊢
      split_ifs at h ⊢ <;>
        first
        | rfl
        | (exfalso; simp [EventForm_forward_isActive, ha, TextInput.Blur, TextInput.Focus] at h)
  | windowSize w hgt => simp [EventForm_forward_isActive, ha] at h
  | other => simp [EventForm_forward_isActive, ha] at h

/-- An inactive form is returned by `Update` as it is. -/
theorem TodoForm_Update_inactive (lib : TextLib) (f : TodoForm) (tl : TodoList) (db : Db)
    (o : ExecOutcome) (now : Time) (msg : Msg) (ha : f.isActive = false) :
    f.Update lib tl db o now msg = { form := f, list := tl, db := db } := by
  simp [TodoForm.Update, ha]

theorem NoteForm_Update_inactive (ti ta : TextLib) (f : NoteForm) (nl : NoteList) (db : Db)
    (o : ExecOutcome) (now : Time) (msg : Msg) (ha : f.isActive = false) :
    f.Update ti ta nl db o now msg = { form := f, list := nl, db := db } := by
  simp [NoteForm.Update, ha]

theorem EventForm_Update_inactive (lib : TextLib) (tm : TimeLib) (f : EventForm) (el : EventList)
    (db : Db) (o : ExecOutcome) (now : Time) (msg : Msg) (ha : f.isActive = false) :
    f.Update lib tm el db o now msg = { form := f, list := el, db := db } := by
  simp [EventForm.Update, ha]

/-- Every reachable inactive task form is at rest. -/
theorem TodoForm_inactive_clear (lib : TextLib) (f : TodoForm) (hr : TodoForm.Reachable lib f) :
    f.isActive = false → f.IsClear := by
  induction hr with
  | new => intro _; simp [TodoForm.IsClear, NewTodoForm, TextInput.New, TextInput.Focus]
  | setSize width height _ ih => exact ih
  | activate _ _ => intro h; simp [TodoForm.Activate] at h
  | loadForEdit todo _ _ => intro h; simp [TodoForm.LoadForEdit] at h
  | deactivate _ _ => intro _; exact TodoForm_Reset_clear lib _
  | @update f tl db o now msg _ ih =>
      intro h
      by_cases ha : f.isActive = true
      · rw [TodoForm_Update_closed lib f tl db o now msg ha h]
        exact TodoForm_Reset_clear lib _
      · have ha2 : f.isActive = false := by simpa using ha
        rw [TodoForm_Update_inactive lib f tl db o now msg ha2]
        exact ih ha2

/-- Every reachable inactive note form is at rest. -/
theorem NoteForm_inactive_clear (ti ta : TextLib) (f : NoteForm)
    (hr : NoteForm.Reachable ti ta f) : f.isActive = false → f.IsClear := by
  induction hr with
  | new =>
      intro _
      simp [NoteForm.IsClear, NewNoteForm, TextInput.New, TextInput.Focus, TextInput.Blur]
  | setSize width height _ ih => exact ih
  | activate _ _ => intro h; simp [NoteForm.Activate] at h
  | loadForEdit note _ _ => intro h; simp [NoteForm.LoadForEdit] at h
  | deactivate _ _ => intro _; exact NoteForm_Reset_clear ti ta _
  | @update f nl db o now msg _ ih =>
      intro h
      by_cases ha : f.isActive = true
      · rw [NoteForm_Update_closed ti ta f nl db o now msg ha h]
        exact NoteForm_Reset_clear ti ta _
      · have ha2 : f.isActive = false := by simpa using ha
        rw [NoteForm_Update_inactive ti ta f nl db o now msg ha2]
        exact ih ha2

/-- Every reachable inactive event form is at rest. -/
theorem EventForm_inactive_clear (lib : TextLib) (tm : TimeLib) (f : EventForm)
    (hr : EventForm.Reachable lib tm f) : f.isActive = false → f.IsClear := by
  induction hr with
  | new => intro _; simp [EventForm.IsClear, NewEventForm, TextInput.New, TextInput.Focus]
  | setSize width height _ ih => exact ih
  | activate _ _ => intro h; simp [EventForm.Activate] at h
  | loadForEdit event _ _ => intro h; simp [EventForm.LoadForEdit] at h
  | deactivate _ _ => intro _; exact EventForm_Reset_clear lib _
  | @update f el db o now msg _ ih =>
      intro h
      by_cases ha : f.isActive = true
      · rw [EventForm_Update_closed lib tm f el db o now msg ha h]
        exact EventForm_Reset_clear lib _
      · have ha2 : f.isActive = false := by simpa using ha
        rw [EventForm_Update_inactive lib tm f el db o now msg ha2]
        exact ih ha2

/-- C28: in every state of a task, note or event form reachable from its
constructor through SetSize, Activate, LoadForEdit, Deactivate and Update, the
form being inactive, `Activate` yields an active form in create mode
(editMode false, editingID 0) with focus index 0, the title input focused and
all text fields empty. -/
theorem activate_gives_fresh_create_form :
    (∀ (lib : TextLib) (f : TodoForm), TodoForm.Reachable lib f → f.isActive = false →
      f.Activate.isActive = true ∧ f.Activate.IsClear ∧ f.Activate.titleInput.focus = true) ∧
    (∀ (ti ta : TextLib) (f : NoteForm), NoteForm.Reachable ti ta f → f.isActive = false →
      f.Activate.isActive = true ∧ f.Activate.IsClear ∧ f.Activate.titleInput.focus = true) ∧
    (∀ (lib : TextLib) (tm : TimeLib) (f : EventForm), EventForm.Reachable lib tm f →
      f.isActive = false →
      f.Activate.isActive = true ∧ f.Activate.IsClear ∧ f.Activate.titleInput.focus = true) := by
  refine ⟨?_, ?_, ?_⟩
  · intro lib f hr ha
    have h := TodoForm_inactive_clear lib f hr ha
    exact ⟨rfl, by simpa [TodoForm.IsClear, TodoForm.Activate, TextInput.Focus] using h, rfl⟩
  · intro ti ta f hr ha
    have h := NoteForm_inactive_clear ti ta f hr ha
    exact ⟨rfl, by simpa [NoteForm.IsClear, NoteForm.Activate, TextInput.Focus] using h, rfl⟩
  · intro lib tm f hr ha
    have h := EventForm_inactive_clear lib tm f hr ha
    exact ⟨rfl, by simpa [EventForm.IsClear, EventForm.Activate, TextInput.Focus] using h, rfl⟩

/-- Instance of C28: a task form that loaded a task for editing, went to its
description field and was cancelled, a note form that was deactivated after
loading a note, and an event form submitted with ctrl+s, are activated as
fresh forms. -/
theorem activate_gives_fresh_create_form_witness :
    (((NewTodoForm.LoadForEdit plainTextLib dueTask).Update plainTextLib
          { Todos := [dueTask], Selected := 0, NextID := 6 } dueDb (.ok 0) 0
          (.key "tab")).form.editMode = true ∧
      (((NewTodoForm.LoadForEdit plainTextLib dueTask).Update plainTextLib
          { Todos := [dueTask], Selected := 0, NextID := 6 } dueDb (.ok 0) 0
          (.key "tab")).form.Update plainTextLib
          { Todos := [dueTask], Selected := 0, NextID := 6 } dueDb (.ok 0) 0
          (.key "esc")).form.Activate.IsClear) ∧
    ((NewNoteForm.LoadForEdit plainTextLib plainTextLib
          { ID := 2, Title := "Ideas", Content := "thoughts", CreatedAt := 0 }).Deactivate
        plainTextLib plainTextLib).Activate.IsClear ∧
    ((completeEventForm.isActive = true ∧ completeEventForm.titleInput.value = "Party") ∧
      (((NewEventForm.LoadForEdit plainTextLib sampleTimeLib (eventAt 1 0)).Update plainTextLib
          sampleTimeLib { Events := [eventAt 1 0], Selected := 0, NextID := 2 } Db.empty (.ok 0) 0
          (.key "ctrl+s")).form.Activate.IsClear)) :=
  ⟨⟨by decide,
    (activate_gives_fresh_create_form.1 plainTextLib _
      (.update _ _ _ _ (.key "esc") (.update _ _ _ _ (.key "tab") (.loadForEdit dueTask .new)))
      (by decide)).2.1⟩,
   (activate_gives_fresh_create_form.2.1 plainTextLib plainTextLib _
      (.deactivate (.loadForEdit _ .new)) rfl).2.1,
   ⟨by decide,
    (activate_gives_fresh_create_form.2.2 plainTextLib sampleTimeLib _
      (.update _ _ _ _ (.key "ctrl+s") (.loadForEdit (eventAt 1 0) .new)) (by decide)).2.1⟩⟩

/-! ## Editing a task without changes -/

/-- C29 on the code: `LoadForEdit` does not keep the due time of the task and
`Submit` passes no due time to `Update`. For every task collection whose first
task with the identity of `t` is `t`, with a title the text input keeps
non-empty, LoadForEdit(t) followed by a successful Submit stores the title and
the description as the text input holds them, the same priority, and no due
time. At the failing input, the task `Report` due at 48:00, the title, the
description and the priority come back as they were and the due time is gone,
in the collection and in the row of the database. -/
theorem edit_without_changes_clears_due_time :
    (∀ (lib : TextLib) (f : TodoForm) (tl : TodoList) (db : Db) (o : ExecOutcome) (now : Time)
        (l1 : List Todo) (t : Todo) (l2 : List Todo),
      o.execFailed = false → tl.Todos = l1 ++ t :: l2 → (∀ y ∈ l1, y.ID ≠ t.ID) →
      lib.sanitize t.Title ≠ "" →
      ((f.LoadForEdit lib t).Submit tl db o now).err = none ∧
      ((f.LoadForEdit lib t).Submit tl db o now).self =
        { Todos := l1 ++ { ID := t.ID, Title := lib.sanitize t.Title,
                           Description := lib.sanitize t.Description,
                           Completed := t.Completed, Priority := t.Priority,
                           CreatedAt := t.CreatedAt, DueTime := none } :: l2,
          Selected := tl.Selected, NextID := tl.NextID }) ∧
    (dueTask.DueTime = some (48 * Hour) ∧
      ((NewTodoForm.LoadForEdit plainTextLib dueTask).Submit
          { Todos := [stabilityA, dueTask], Selected := 1, NextID := 6 } dueDb (.ok 0)
          (10 * Hour)).err = none ∧
      ((NewTodoForm.LoadForEdit plainTextLib dueTask).Submit
          { Todos := [stabilityA, dueTask], Selected := 1, NextID := 6 } dueDb (.ok 0)
          (10 * Hour)).self =
        { Todos := [stabilityA, { dueTask with DueTime := none }], Selected := 1, NextID := 6 } ∧
      ((NewTodoForm.LoadForEdit plainTextLib dueTask).Submit
          { Todos := [stabilityA, dueTask], Selected := 1, NextID := 6 } dueDb (.ok 0)
          (10 * Hour)).db.log = [.updateTodo "Report" "quarterly" PriorityHigh none 5] ∧
      (dueDb.todos.map fun r => r.due_date) = [some (48 * Hour)] ∧
      (((NewTodoForm.LoadForEdit plainTextLib dueTask).Submit
          { Todos := [stabilityA, dueTask], Selected := 1, NextID := 6 } dueDb (.ok 0)
          (10 * Hour)).db.todos.map fun r => r.due_date) = [none]) := by
  refine ⟨?_, by decide⟩
  intro lib f tl db o now l1 t l2 ho hl h1 hs
  have h := TodoList_Update_found tl db o t.ID (lib.sanitize t.Title) (lib.sanitize t.Description)
    t.Priority none l1 t l2 ho hl rfl h1
  simpa [TodoForm.Submit, TodoForm.LoadForEdit, TextInput.Value, TextInput.SetValue,
    TextInput.Focus, hs] using h

/-! ## The router while a form is active -/

/-- C24: in every state of the router in which the active page reports
IsFormActive() = true, and for every key, `q` and `1` to `4` included,
`Instance.Update` does what forwarding to the active page does: the identity
of the active page is unchanged, the router does not return `tea.Quit`, the
active page and its collection are those its own `Update` returns, and the
three other pages are untouched. -/
theorem router_forwards_when_form_active (w : World) (i : Instance) (db : Db) (name : String)
    (h : i.IsFormActive = true) :
    (i.Update w db (.key name)).self.currentPage = i.currentPage ∧
    (i.Update w db (.key name)).quit = false ∧
    (i.currentPage = .PageDashboard →
      (i.Update w db (.key name)).self.dashboard =
          (i.dashboard.Update w i.lists db (.key name)).page ∧
        (i.Update w db (.key name)).self.lists =
          (i.dashboard.Update w i.lists db (.key name)).list ∧
        (i.Update w db (.key name)).db = (i.dashboard.Update w i.lists db (.key name)).db ∧
        (i.Update w db (.key name)).self.todos = i.todos ∧
        (i.Update w db (.key name)).self.notes = i.notes ∧
        (i.Update w db (.key name)).self.calendar = i.calendar) ∧
    (i.currentPage = .PageTodos →
      (i.Update w db (.key name)).self.todos =
          (i.todos.Update w i.todoList db (.key name)).page ∧
        (i.Update w db (.key name)).self.todoList =
          (i.todos.Update w i.todoList db (.key name)).list ∧
        (i.Update w db (.key name)).db = (i.todos.Update w i.todoList db (.key name)).db ∧
        (i.Update w db (.key name)).self.dashboard = i.dashboard ∧
        (i.Update w db (.key name)).self.notes = i.notes ∧
        (i.Update w db (.key name)).self.calendar = i.calendar ∧
        (i.Update w db (.key name)).self.noteList = i.noteList ∧
        (i.Update w db (.key name)).self.eventList = i.eventList) ∧
    (i.currentPage = .PageNotes →
      (i.Update w db (.key name)).self.notes =
          (i.notes.Update w i.noteList db (.key name)).page ∧
        (i.Update w db (.key name)).self.noteList =
          (i.notes.Update w i.noteList db (.key name)).list ∧
        (i.Update w db (.key name)).db = (i.notes.Update w i.noteList db (.key name)).db ∧
        (i.Update w db (.key name)).self.dashboard = i.dashboard ∧
        (i.Update w db (.key name)).self.todos = i.todos ∧
        (i.Update w db (.key name)).self.calendar = i.calendar ∧
        (i.Update w db (.key name)).self.todoList = i.todoList ∧
        (i.Update w db (.key name)).self.eventList = i.eventList) ∧
    (i.currentPage = .PageCalendar →
      (i.Update w db (.key name)).self.calendar =
          (i.calendar.Update w i.eventList db (.key name)).page ∧
        (i.Update w db (.key name)).self.eventList =
          (i.calendar.Update w i.eventList db (.key name)).list ∧
        (i.Update w db (.key name)).db = (i.calendar.Update w i.eventList db (.key name)).db ∧
        (i.Update w db (.key name)).self.dashboard = i.dashboard ∧
        (i.Update w db (.key name)).self.todos = i.todos ∧
        (i.Update w db (.key name)).self.notes = i.notes ∧
        (i.Update w db (.key name)).self.todoList = i.todoList ∧
        (i.Update w db (.key name)).self.noteList = i.noteList) := by
  have hu : i.Update w db (.key name) = i.forward w db (.key name) := by
    simp [Instance.Update, h]
  rw [hu]
  unfold Instance.forward
  cases hc : i.currentPage <;> simp [Instance.lists]
/-- Instance of C24: with the task form open on the Tasks view, the key `q`
does not quit and does not leave the view; it is typed into the title. -/
theorem router_forwards_when_form_active_witness :
    (formOpenInstance.currentPage = .PageTodos ∧ formOpenInstance.IsFormActive = true ∧
      formOpenInstance.todos.form.titleInput.value = "") ∧
    ((formOpenInstance.Update sampleWorld orderDb (.key "q")).self.currentPage =
        formOpenInstance.currentPage ∧
      (formOpenInstance.Update sampleWorld orderDb (.key "q")).quit = false) ∧
    (formOpenInstance.Update sampleWorld orderDb (.key "q")).self.todos.form.titleInput.value =
      "q" :=
  ⟨by decide,
   ⟨(router_forwards_when_form_active sampleWorld formOpenInstance orderDb "q" (by decide)).1,
    (router_forwards_when_form_active sampleWorld formOpenInstance orderDb "q" (by decide)).2.1⟩,
   by decide⟩

/-! ## A view while its form is active -/

theorem DashboardPage_navigate_inv (w : World) (p : DashboardPage) (msg : Msg)
    (hm : p.mode = dashboardModeNormal) (h1 : p.todoForm.isActive = false)
    (h2 : p.eventForm.isActive = false) (h3 : p.noteForm.isActive = false) :
    (DashboardPage.navigate w p msg).ModeMatchesForms := by
  unfold DashboardPage.navigate DashboardPage.ModeMatchesForms
  cases msg with
  | key name =>
      simp only
      split_ifs <;>
        simp [hm, h1, h2, h3, dashboardModeNormal, dashboardModeQuickAddTodo,
          dashboardModeQuickAddEvent, dashboardModeQuickAddNote, TodoForm.Activate,
          EventForm.Activate, NoteForm.Activate]
  | windowSize a b =>
      simp only
      split_ifs <;>
        simp [hm, h1, h2, h3, dashboardModeNormal, dashboardModeQuickAddTodo,
          dashboardModeQuickAddEvent, dashboardModeQuickAddNote]
  | other =>
      simp only
      split_ifs <;>
        simp [hm, h1, h2, h3, dashboardModeNormal, dashboardModeQuickAddTodo,
          dashboardModeQuickAddEvent, dashboardModeQuickAddNote]

theorem DashboardPage_Update_inv (w : World) (p : DashboardPage) (ls : Lists) (db : Db)
    (msg : Msg) (h : p.ModeMatchesForms) : (p.Update w ls db msg).page.ModeMatchesForms := by
  obtain ⟨ht, he, hn, hm⟩ := h
  unfold DashboardPage.Update
  by_cases c1 : p.mode = dashboardModeQuickAddTodo ∧ p.todoForm.IsActive = true
  · rw [if_pos c1]
    have e0 : p.eventForm.isActive = false := by
      cases hx : p.eventForm.isActive
      · rfl
      · have := he.2 hx; rw [c1.1] at this; simp [dashboardModeQuickAddTodo,
          dashboardModeQuickAddEvent] at this
    have n0 : p.noteForm.isActive = false := by
      cases hx : p.noteForm.isActive
      · rfl
      · have := hn.2 hx; rw [c1.1] at this; simp [dashboardModeQuickAddTodo,
          dashboardModeQuickAddNote] at this
    by_cases ha : (p.todoForm.Update w.text ls.TodoList db w.exec w.addNow msg).form.isActive = true
    · simp [TodoForm.IsActive, ha, DashboardPage.ModeMatchesForms, c1.1, e0, n0,
        dashboardModeQuickAddTodo, dashboardModeQuickAddEvent, dashboardModeQuickAddNote]
    · have ha2 :
          (p.todoForm.Update w.text ls.TodoList db w.exec w.addNow msg).form.isActive = false := by
        simpa using ha
      simp [TodoForm.IsActive, ha2, DashboardPage.ModeMatchesForms, DashboardPage.updateLists,
        e0, n0, dashboardModeNormal, dashboardModeQuickAddTodo, dashboardModeQuickAddEvent,
        dashboardModeQuickAddNote]
  · rw [if_neg c1]
    by_cases c2 : p.mode = dashboardModeQuickAddEvent ∧ p.eventForm.IsActive = true
    · rw [if_pos c2]
      have t0 : p.todoForm.isActive = false := by
        cases hx : p.todoForm.isActive
        · rfl
        · have := ht.2 hx; rw [c2.1] at this; simp [dashboardModeQuickAddTodo,
            dashboardModeQuickAddEvent] at this
      have n0 : p.noteForm.isActive = false := by
        cases hx : p.noteForm.isActive
        · rfl
        · have := hn.2 hx; rw [c2.1] at this; simp [dashboardModeQuickAddEvent,
            dashboardModeQuickAddNote] at this
      by_cases ha :
          (p.eventForm.Update w.text w.time ls.EventList db w.exec w.addNow msg).form.isActive = true
      · simp [EventForm.IsActive, ha, DashboardPage.ModeMatchesForms, c2.1, t0, n0,
          dashboardModeQuickAddTodo, dashboardModeQuickAddEvent, dashboardModeQuickAddNote]
      · have ha2 :
            (p.eventForm.Update w.text w.time ls.EventList db w.exec w.addNow msg).form.isActive =
              false := by
          simpa using ha
        simp [EventForm.IsActive, ha2, DashboardPage.ModeMatchesForms, DashboardPage.updateLists,
          t0, n0, dashboardModeNormal, dashboardModeQuickAddTodo, dashboardModeQuickAddEvent,
          dashboardModeQuickAddNote]
    · rw [if_neg c2]
      by_cases c3 : p.mode = dashboardModeQuickAddNote ∧ p.noteForm.IsActive = true
      · rw [if_pos c3]
        have t0 : p.todoForm.isActive = false := by
          cases hx : p.todoForm.isActive
          · rfl
          · have := ht.2 hx; rw [c3.1] at this; simp [dashboardModeQuickAddTodo,
              dashboardModeQuickAddNote] at this
        have e0 : p.eventForm.isActive = false := by
          cases hx : p.eventForm.isActive
          · rfl
          · have := he.2 hx; rw [c3.1] at this; simp [dashboardModeQuickAddEvent,
              dashboardModeQuickAddNote] at this
        by_cases ha :
            (p.noteForm.Update w.text w.area ls.NoteList db w.exec w.addNow msg).form.isActive =
              true
        · simp [NoteForm.IsActive, ha, DashboardPage.ModeMatchesForms, c3.1, t0, e0,
            dashboardModeQuickAddTodo, dashboardModeQuickAddEvent, dashboardModeQuickAddNote]
        · have ha2 :
              (p.noteForm.Update w.text w.area ls.NoteList db w.exec w.addNow msg).form.isActive =
                false := by
            simpa using ha
          simp [NoteForm.IsActive, ha2, DashboardPage.ModeMatchesForms, DashboardPage.updateLists,
            t0, e0, dashboardModeNormal, dashboardModeQuickAddTodo, dashboardModeQuickAddEvent,
            dashboardModeQuickAddNote]
      · rw [if_neg c3]
        have t0 : p.todoForm.isActive = false := by
          cases hx : p.todoForm.isActive
          · rfl
          · exact absurd ⟨ht.2 hx, hx⟩ c1
        have e0 : p.eventForm.isActive = false := by
          cases hx : p.eventForm.isActive
          · rfl
          · exact absurd ⟨he.2 hx, hx⟩ c2
        have n0 : p.noteForm.isActive = false := by
          cases hx : p.noteForm.isActive
          · rfl
          · exact absurd ⟨hn.2 hx, hx⟩ c3
        have m0 : p.mode = dashboardModeNormal := by
          rcases hm with h | h | h | h
          · exact h
          · have := ht.1 h; rw [t0] at this; cases this
          · have := he.1 h; rw [e0] at this; cases this
          · have := hn.1 h; rw [n0] at this; cases this
        exact DashboardPage_navigate_inv w p msg m0 t0 e0 n0

/-- Every reachable state of the Dashboard has its mode matching its forms. -/
theorem DashboardPage_reachable_inv (p : DashboardPage) (hr : DashboardPage.Reachable p) :
    p.ModeMatchesForms := by
  induction hr with
  | new ls c =>
      simp [DashboardPage.ModeMatchesForms, NewDashboardPage, NewTodoForm, NewEventForm,
        NewNoteForm, dashboardModeNormal, dashboardModeQuickAddTodo,
        dashboardModeQuickAddEvent, dashboardModeQuickAddNote]
  | setSize width height _ ih =>
      simpa [DashboardPage.ModeMatchesForms, DashboardPage.SetSize, TodoForm.SetSize,
        EventForm.SetSize, NoteForm.SetSize] using ih
  | update w ls db msg _ ih => exact DashboardPage_Update_inv w _ ls db msg ih

/-- C30: in every state of the Dashboard reachable from its constructor
through SetSize and Update, each quick-add mode is on exactly when its form
(task, event, note) is active, so IsFormActive() is true exactly when one of
the three forms is active. With the Dashboard as the active page and no form
active, the router acts on its global keys: `q` returns `tea.Quit` and `1` to
`4` select the view. -/
theorem dashboard_mode_matches_active_form (p : DashboardPage)
    (hr : DashboardPage.Reachable p) :
    (p.mode = dashboardModeQuickAddTodo ↔ p.todoForm.isActive = true) ∧
    (p.mode = dashboardModeQuickAddEvent ↔ p.eventForm.isActive = true) ∧
    (p.mode = dashboardModeQuickAddNote ↔ p.noteForm.isActive = true) ∧
    (p.IsFormActive = true ↔
      (p.todoForm.isActive = true ∨ p.eventForm.isActive = true ∨ p.noteForm.isActive = true)) ∧
    (∀ (w : World) (i : Instance) (db : Db), i.currentPage = .PageDashboard →
      i.dashboard = p → p.todoForm.isActive = false → p.eventForm.isActive = false →
      p.noteForm.isActive = false →
      (i.Update w db (.key "q")).quit = true ∧
      (i.Update w db (.key "1")).self.currentPage = .PageDashboard ∧
      (i.Update w db (.key "2")).self.currentPage = .PageTodos ∧
      (i.Update w db (.key "3")).self.currentPage = .PageNotes ∧
      (i.Update w db (.key "4")).self.currentPage = .PageCalendar) := by
  obtain ⟨ht, he, hn, hm⟩ := DashboardPage_reachable_inv p hr
  have hf : p.IsFormActive = true ↔
      (p.todoForm.isActive = true ∨ p.eventForm.isActive = true ∨ p.noteForm.isActive = true) := by
    rw [← ht, ← he, ← hn]
    unfold DashboardPage.IsFormActive
    rcases hm with h | h | h | h <;>
      simp [h, dashboardModeNormal, dashboardModeQuickAddTodo, dashboardModeQuickAddEvent,
        dashboardModeQuickAddNote]
  refine ⟨ht, he, hn, hf, ?_⟩
  intro w i db hc hd h1 h2 h3
  have hna : i.IsFormActive = false := by
    have : ¬ p.IsFormActive = true := by
      rw [hf, h1, h2, h3]; simp
    simp only [Instance.IsFormActive, hc, hd]
    simpa using this
  simp [Instance.Update, hna]

/-- Instance of C30: the Dashboard after the key `a` is in the quick-add mode
for tasks with the task form active; after `a` and `esc` it is back in normal
mode with no form active, and the router quits on `q`. -/
theorem dashboard_mode_matches_active_form_witness :
    (((NewDashboardPage startLists sampleDashboardClock).1.Update sampleWorld startLists orderDb
          (.key "a")).page.mode = dashboardModeQuickAddTodo ∧
      ((NewDashboardPage startLists sampleDashboardClock).1.Update sampleWorld startLists orderDb
          (.key "a")).page.todoForm.isActive = true) ∧
    (((NewDashboardPage startLists sampleDashboardClock).1.Update sampleWorld startLists orderDb
          (.key "a")).page.IsFormActive = true ↔
      (((NewDashboardPage startLists sampleDashboardClock).1.Update sampleWorld startLists
            orderDb (.key "a")).page.todoForm.isActive = true ∨
        ((NewDashboardPage startLists sampleDashboardClock).1.Update sampleWorld startLists
            orderDb (.key "a")).page.eventForm.isActive = true ∨
        ((NewDashboardPage startLists sampleDashboardClock).1.Update sampleWorld startLists
            orderDb (.key "a")).page.noteForm.isActive = true)) ∧
    (startInstance.Update sampleWorld orderDb (.key "q")).quit = true :=
  ⟨by decide,
   (dashboard_mode_matches_active_form _
      (.update sampleWorld startLists orderDb (.key "a")
        (.new startLists sampleDashboardClock))).2.2.2.1,
   ((dashboard_mode_matches_active_form _ (.new startLists sampleDashboardClock)).2.2.2.2
      sampleWorld startInstance orderDb rfl rfl rfl rfl rfl).1⟩

/-! ## The cursor of the collection and the displayed list -/

/-- C25 on the code: `Update` copies the index of the displayed list into
`Selected`, which `GetSelected` and the detail pane use as an index into the
collection, and the two lists are in different orders as soon as the display
order is re-derived. At the failing input, the Tasks view constructed over the
tasks C (High) and A (Medium) with the cursor on C, the key space completes C:
the collection stays C, A while the displayed list becomes A, C. Whatever the
list component then does with its cursor, the highlighted task and the task
at `Selected` in the collection differ; with the cursor left at index 0 the
list highlights A and `GetSelected` returns C. -/
theorem detail_pane_shows_other_task :
    (startInstance.todos.list.SelectedItem = some stabilityC ∧
      startInstance.todoList.GetSelected = some stabilityC) ∧
    (∀ (lst : ListLib) (t : Todo),
      (startInstance.todos.Update { sampleWorld with list := lst } startInstance.todoList orderDb
          (.key " ")).page.list.SelectedItem = some t →
      (startInstance.todos.Update { sampleWorld with list := lst } startInstance.todoList orderDb
          (.key " ")).list.GetSelected ≠ some t) ∧
    ((Instance.run sampleWorld startInstance orderDb [.key "2", .key " "]).self.todoList.Todos =
        [toggledC, stabilityA] ∧
      (Instance.run sampleWorld startInstance orderDb [.key "2", .key " "]).self.todos.list.items =
        [stabilityA, toggledC] ∧
      (Instance.run sampleWorld startInstance orderDb
          [.key "2", .key " "]).self.todos.list.SelectedItem = some stabilityA ∧
      (Instance.run sampleWorld startInstance orderDb
          [.key "2", .key " "]).self.todoList.GetSelected = some toggledC ∧
      (Instance.run sampleWorld startInstance orderDb
          [.key "2", .key " "]).self.todos.IsFormActive = false) := by
  refine ⟨by decide, ?_, by decide⟩
  intro lst t hsel hget
  have hi : (startInstance.todos.Update { sampleWorld with list := lst } startInstance.todoList
      orderDb (.key " ")).page.list.items = [stabilityA, toggledC] := rfl
  have hT : (startInstance.todos.Update { sampleWorld with list := lst } startInstance.todoList
      orderDb (.key " ")).list.Todos = [toggledC, stabilityA] := rfl
  have hS : (startInstance.todos.Update { sampleWorld with list := lst } startInstance.todoList
      orderDb (.key " ")).list.Selected =
      (startInstance.todos.Update { sampleWorld with list := lst } startInstance.todoList
      orderDb (.key " ")).page.list.index := rfl
  unfold ListModel.SelectedItem at hsel
  unfold TodoList.GetSelected at hget
  rw [hi] at hsel
  rw [hT, hS] at hget
  generalize (startInstance.todos.Update { sampleWorld with list := lst } startInstance.todoList
      orderDb (.key " ")).page.list.index = k at hsel hget
  simp only [List.length_cons, List.length_nil] at hsel hget
  split_ifs at hsel hget
  all_goals
    have hk : k = 0 ∨ k = 1 := by
      simp only [not_or, not_le, not_lt, ge_iff_le] at *
      omega
    rcases hk with rfl | rfl
    · simp at hsel hget
      rw [← hsel] at hget
      revert hget
      decide
    · simp at hsel hget
      rw [← hsel] at hget
      revert hget
      decide
/-! ## The Tasks view after a change made elsewhere -/

/-- The pipeline reads the entity list of the collection only. -/
theorem TodosPage_updateListItems_congr (tbl : Char → Char) (tl tl2 : TodoList)
    (searchBar : SearchBar) (now todayStart : Time) (h : tl.Todos = tl2.Todos) :
    TodosPage.updateListItems tbl tl searchBar now todayStart =
      TodosPage.updateListItems tbl tl2 searchBar now todayStart := by
  simp [TodosPage.updateListItems, h]

set_option maxHeartbeats 4000000 in
/-- A task form that changed the entity list of its collection has submitted,
and is inactive. -/
theorem TodoForm_Update_changed (lib : TextLib) (f : TodoForm) (tl : TodoList) (db : Db)
    (o : ExecOutcome) (now : Time) (msg : Msg)
    (h : (f.Update lib tl db o now msg).list.Todos ≠ tl.Todos) :
    (f.Update lib tl db o now msg).form.isActive = false := by
  by_cases ha : f.isActive = true
  · unfold TodoForm.Update at h ⊢
    simp only [ha, Bool.not_true, Bool.false_eq_true, if_false] at h ⊢
    cases msg with
    | key name =>
        simp only at h ⊢
        split_ifs at h ⊢ <;> first | (simp at h; done) | simp [TodoForm.Reset]
    | windowSize a b => simp at h
    | other => simp at h
  · have ha2 : f.isActive = false := by simpa using ha
    rw [TodoForm_Update_inactive lib f tl db o now msg ha2] at h
    exact absurd rfl h

set_option maxHeartbeats 4000000 in
/-- Whenever `TodosPage.Update` changes the entity list of the collection, the
items it leaves are the result of the pipeline on the new collection. -/
theorem TodosPage_Update_rederives (w : World) (p : TodosPage) (tl : TodoList) (db : Db)
    (msg : Msg) (h : (p.Update w tl db msg).list.Todos ≠ tl.Todos) :
    (p.Update w tl db msg).page.list.items =
      TodosPage.updateListItems w.tbl (p.Update w tl db msg).list
        (p.Update w tl db msg).page.searchBar w.now w.todayStart := by
  unfold TodosPage.Update at h ⊢
  by_cases hf : p.form.IsActive = true
  · rw [if_pos hf] at h ⊢
    have hc : (p.form.Update w.text tl db w.exec w.addNow msg).form.isActive = false := by
      apply TodoForm_Update_changed
      revert h
      simp only [TodoForm.IsActive]
      split_ifs <;> exact id
    simp [TodoForm.IsActive, hc, TodosPage.doUpdateListItems, ListModel.SetItems,
      ListModel.Select]
  · rw [if_neg hf] at h ⊢
    by_cases hs : p.searchBar.IsActive = true
    · rw [if_pos hs] at h
      exfalso
      revert h
      simp only []
      split_ifs <;> simp
    · rw [if_neg hs] at h ⊢
      cases msg with
      | key name =>
          simp only at h ⊢
          split_ifs at h ⊢ with k1 k2 k3 k4 k5
          · cases hsel : p.list.SelectedItem with
            | none => simp [hsel, TodosPage.syncSelection] at h
            | some todo =>
                simp only [hsel, TodosPage.syncSelection, ListModel.Update, ListModel.Select,
                  TodosPage.doUpdateListItems, ListModel.SetItems, ListModel.Items]
                split_ifs <;> exact TodosPage_updateListItems_congr _ _ _ _ _ _ rfl
          · simp [TodosPage.syncSelection] at h
          · cases hsel : p.list.SelectedItem with
            | none => simp [hsel, TodosPage.syncSelection] at h
            | some todo => simp [hsel, TodosPage.syncSelection] at h
          · cases hsel : p.list.SelectedItem with
            | none => simp [hsel, TodosPage.syncSelection] at h
            | some todo =>
                simp only [hsel, TodosPage.syncSelection, ListModel.Update, ListModel.Select,
                  TodosPage.doUpdateListItems, ListModel.SetItems, ListModel.Items]
                exact TodosPage_updateListItems_congr _ _ _ _ _ _ rfl
          · simp [TodosPage.syncSelection] at h
          · simp [TodosPage.syncSelection] at h
      | windowSize a b => simp [TodosPage.syncSelection] at h
      | other => simp [TodosPage.syncSelection] at h

/-- C27 on the code: the items of the Tasks view are re-derived by the events
of the Tasks view only. Whenever `TodosPage.Update` changes the entity list of
the collection (a submit of its form, a toggle, a delete), the items it leaves
are the result of the pipeline on the new collection. A task added through the
quick-add form of the Dashboard does not reach them: at the failing input,
the application started on an empty database and fed the keys `a`, `x`, enter,
enter, enter and `2`, the Tasks view is active with no form and no search
open, the collection and the database hold the new task, the Dashboard lists
it, the pipeline run on the collection gives it, and the items of the Tasks
view are empty. -/
theorem quick_add_leaves_tasks_view_stale :
    (∀ (w : World) (p : TodosPage) (tl : TodoList) (db : Db) (msg : Msg),
      (p.Update w tl db msg).list.Todos ≠ tl.Todos →
      (p.Update w tl db msg).page.list.items =
        TodosPage.updateListItems w.tbl (p.Update w tl db msg).list
          (p.Update w tl db msg).page.searchBar w.now w.todayStart) ∧
    ((Instance.run sampleWorld emptyStartInstance Db.empty quickAddThenTasks).quit = false ∧
      (Instance.run sampleWorld emptyStartInstance Db.empty quickAddThenTasks).self.currentPage =
        .PageTodos ∧
      (Instance.run sampleWorld emptyStartInstance Db.empty
        quickAddThenTasks).self.todos.IsFormActive = false ∧
      (Instance.run sampleWorld emptyStartInstance Db.empty
        quickAddThenTasks).self.dashboard.IsFormActive = false ∧
      (Instance.run sampleWorld emptyStartInstance Db.empty
        quickAddThenTasks).self.todoList.Todos = [quickAddedTask] ∧
      (Instance.run sampleWorld emptyStartInstance Db.empty quickAddThenTasks).db.log =
        [.insertTodo "x" "" false PriorityMedium none (10 * Hour)] ∧
      (Instance.run sampleWorld emptyStartInstance Db.empty
        quickAddThenTasks).self.dashboard.todoList.items = [quickAddedTask] ∧
      TodosPage.updateListItems sampleWorld.tbl
        (Instance.run sampleWorld emptyStartInstance Db.empty quickAddThenTasks).self.todoList
        (Instance.run sampleWorld emptyStartInstance Db.empty
          quickAddThenTasks).self.todos.searchBar sampleWorld.now sampleWorld.todayStart =
        [quickAddedTask] ∧
      (Instance.run sampleWorld emptyStartInstance Db.empty
        quickAddThenTasks).self.todos.list.items = []) := by
  exact ⟨TodosPage_Update_rederives, by decide⟩

end ProdBooster
